import Mathlib

/-!
AppleTV backend: session lifecycle engine.

A shallow embedding of the session slot, the reconnection controller, the
window-presence confirmation filter, the signaling message loop, the capture
pipeline set-up, the size history and the write mutex of
`src/appletv/backend/main.go`, and of the recording functions of
`src/appletv/backend/recording.go`.

Global variables of the Go program become the fields of `State`; every handler
is a function from `State` to a new `State` together with the list of external
effects (WebSocket writes and closes, process kills, ...) it performs, in
program order.  Values the program reads from its environment (the clock, the
X11 probe, the outcome of a WebSocket write) are explicit arguments.
-/

namespace AppleTV

/-! ## Data model -/

/-- Identity of a `*websocket.Conn` (pointer identity in the Go program). -/
abbrev Conn := Nat

/-- One `*webrtc.PeerConnection`: its identity and `len(GetSenders())`. -/
structure PeerConnection where
  ref : Nat
  senders : Nat
deriving DecidableEq, Repr

/-- One `*exec.Cmd`: `Process` is nil until the process was started. -/
structure Cmd where
  Process : Option Nat
deriving DecidableEq, Repr

/-- Zero value of `time.Time` (January 1, year 1), in nanoseconds relative to
the Unix epoch. -/
def zeroTime : Int := -62135596800 * 1000000000

/-- The struct `WebRTCSession` (main.go:29). -/
structure WebRTCSession where
  ID : String
  PeerConn : Option PeerConnection
  FFmpegCmd : Option Cmd
  VideoConn : Option Nat
  AudioConn : Option Nat
  VideoPort : Int
  AudioPort : Int
  WebSocket : Option Conn
  Context : Option Nat
  CancelFunc : Option Nat
  StartTime : Int
deriving DecidableEq, Repr

/-- Outbound signaling messages, by their `"type"` discriminator. -/
inductive Msg where
  | status (message : String)
  | error (message : String)
  | answer (sdp : String)
  | ice_candidate (candidate : String)
  | airplay_disconnected (message : String)
  | reconnection_ready (message : String) (windowID : String)
deriving DecidableEq, Repr

/-- External effects, recorded in program order.  `wsWrite` stands for one call
of `WriteMessage` on the connection, whatever its result. -/
inductive Effect where
  | wsWrite (conn : Conn) (msg : Msg)
  | wsClose (conn : Conn)
  | cancel (handle : Nat)
  | kill (pid : Nat)
  | wait (pid : Nat)
  | udpClose (sock : Nat)
  | pcClose (pc : Nat)
  | httpError (code : Nat) (body : String)
  | spawn (pid : Nat)
  | udpListen (sock : Nat)
  | setRemoteDescription (pc : Nat)
  | createAnswer (pc : Nat)
  | setLocalDescription (pc : Nat)
  | addICECandidate (pc : Nat) (candidate : String)
deriving DecidableEq, Repr

/-- The package-level variables of main.go:47-55 and main.go:204-224 that the
session lifecycle reads and writes.  `webrtcMutexHeld` tells whether
`webrtcMutex` (main.go:49) is locked: an invocation of the signaling handler
locks it on entry and unlocks it when it returns (main.go:928-929). -/
structure State where
  activeSession : Option WebRTCSession
  preservedWebSocket : Option Conn
  lastWindowState : Bool
  lastWindowID : String
  windowStateCheckCount : Nat
  activeWebSocketConn : Option Conn
  autoReconnectEnabled : Bool
  lastAutoReconnectAttempt : Int
  phoneReconnectedAndReady : Bool
  reconnectedWindowID : String
  startTime : Int
  webrtcMutexHeld : Bool
deriving DecidableEq, Repr

/-- Initial values of the package-level variables (main.go:204-224); `startTime`
is the instant main.go:717 stores. -/
def initState (startTime : Int) : State where
  activeSession := none
  preservedWebSocket := none
  lastWindowState := false
  lastWindowID := ""
  windowStateCheckCount := 0
  activeWebSocketConn := none
  autoReconnectEnabled := true
  lastAutoReconnectAttempt := zeroTime
  phoneReconnectedAndReady := false
  reconnectedWindowID := ""
  startTime := startTime
  webrtcMutexHeld := false

/-! ## Time -/

/-- One `time.Second`, in nanoseconds. -/
def second : Int := 1000000000

/-- Largest `time.Duration` (an int64 count of nanoseconds). -/
def maxDuration : Int := 2 ^ 63 - 1

/-- Smallest `time.Duration`. -/
def minDuration : Int := -(2 ^ 63)

/-- The value of `time.Since(t)` read at instant `now`: `now.Sub(t)`, which
saturates at the bounds of `time.Duration`. -/
def timeSince (now t : Int) : Int :=
  if now - t > maxDuration then maxDuration
  else if now - t < minDuration then minDuration
  else now - t

/-- The value of `time.Now().Unix()` at instant `now`. -/
def unix (now : Int) : Int := now / 1000000000

/-- Constant `WINDOW_STATE_CONFIRMATION_CHECKS` (main.go:228). -/
def WINDOW_STATE_CONFIRMATION_CHECKS : Nat := 5

/-- Constant `AUTO_RECONNECT_COOLDOWN` (main.go:229). -/
def AUTO_RECONNECT_COOLDOWN : Int := 5 * second

/-! ## Window monitor observation -/

/-- The four results of `findWindow()`; `err` is true when the error is
non-nil. -/
structure FindWindowResult where
  windowID : String
  width : Int
  height : Int
  err : Bool
deriving DecidableEq, Repr

/-- The function `getWindowCountAndID` (main.go:1437), applied to the result of
its call of `findWindow`. -/
def getWindowCountAndID (r : FindWindowResult) : Int × String :=
  if r.err || r.windowID == "" || decide (r.width < 100) || decide (r.height < 100) then
    (0, "")
  else
    (1, r.windowID)

/-! ## Session teardown -/

/-- The method `(*WebRTCSession).Cleanup` (main.go:349): the effects it
performs, given the current value of `preservedWebSocket`. -/
def WebRTCSession.Cleanup (s : Option WebRTCSession) (preservedWebSocket : Option Conn) :
    List Effect :=
  match s with
  | none => []
  | some s =>
    (match s.CancelFunc with
      | some h => [Effect.cancel h]
      | none => []) ++
    (match s.FFmpegCmd with
      | some c =>
        (match c.Process with
          | some pid => [Effect.kill pid, Effect.wait pid]
          | none => [])
      | none => []) ++
    (match s.VideoConn with
      | some v => [Effect.udpClose v]
      | none => []) ++
    (match s.AudioConn with
      | some a => [Effect.udpClose a]
      | none => []) ++
    (match s.PeerConn with
      | some pc => [Effect.pcClose pc.ref]
      | none => []) ++
    (match s.WebSocket with
      | some w => if some w = preservedWebSocket then [] else [Effect.wsClose w]
      | none => [])

/-! ## Signaling endpoint: admission -/

/-- The placeholder stored by main.go:935: only `ID` is set. -/
def reservedSession (now : Int) : WebRTCSession where
  ID := "reserved_" ++ toString (unix now)
  PeerConn := none
  FFmpegCmd := none
  VideoConn := none
  AudioConn := none
  VideoPort := 0
  AudioPort := 0
  WebSocket := none
  Context := none
  CancelFunc := none
  StartTime := zeroTime

/-- How the admission step of the signaling handler ends: the request waits in
`webrtcMutex.Lock()` because another invocation of the handler holds the mutex,
it is answered 409, or it has reserved the slot and goes on to the WebSocket
upgrade. -/
inductive Admission where
  | blocked
  | conflict
  | reserved
deriving DecidableEq, Repr

/-- Admission step of `GET /api/webrtc/signal` (main.go:928-946).  The handler
locks `webrtcMutex` first and keeps it until it returns: a request that arrives
while the mutex is held waits at main.go:928 and nothing of the handler has
run (`blocked`; it goes on when the mutex is released, which is a run of this
step on the state then reached).  A request that is answered 409 returns, so
the deferred `Unlock` leaves the mutex free again. -/
def signalAdmission (now : Int) (s : State) : State × List Effect × Admission :=
  if s.webrtcMutexHeld then (s, [], Admission.blocked)
  else
    let hasActiveSession := s.activeSession.isSome
    let s1 := if !hasActiveSession then { s with activeSession := some (reservedSession now) } else s
    if hasActiveSession then
      (s1, [Effect.httpError 409 "WebRTC session already active"], Admission.conflict)
    else
      ({ s1 with webrtcMutexHeld := true }, [], Admission.reserved)

/-! ## Notifications -/

/-- The function `notifyWebSocketClient` (main.go:3022).  `writeOk` is the
outcome of the `WriteMessage` call; marshalling a map of strings cannot
fail. -/
def notifyWebSocketClient (message : Msg) (writeOk : Bool) (s : State) : State × List Effect :=
  match s.activeWebSocketConn with
  | none => (s, [])
  | some c =>
    if writeOk then (s, [Effect.wsWrite c message])
    else ({ s with activeWebSocketConn := none }, [Effect.wsWrite c message])

/-- The test `activeSession != nil && activeSession.PeerConn != nil &&
len(activeSession.PeerConn.GetSenders()) > 0` (main.go:2673, 2748). -/
def hasLiveMedia (s : State) : Bool :=
  match s.activeSession with
  | none => false
  | some sess =>
    match sess.PeerConn with
    | none => false
    | some pc => decide (0 < pc.senders)

/-! ## Reconnection controller -/

/-- The function `handleWindowDisappeared` (main.go:2586). -/
def handleWindowDisappeared (writeOk : Bool) (s : State) : State × List Effect :=
  let s1 := { s with phoneReconnectedAndReady := false, reconnectedWindowID := "" }
  let r1 :=
    if s1.activeWebSocketConn.isSome then
      notifyWebSocketClient (Msg.airplay_disconnected "iPhone disconnected from AppleTV") writeOk s1
    else (s1, [])
  let s2 := r1.1
  let r2 : State × List Effect :=
    match s2.activeSession with
    | some sess =>
      let s3 := { s2 with preservedWebSocket := sess.WebSocket }
      ({ s3 with activeSession := none }, WebRTCSession.Cleanup (some sess) s3.preservedWebSocket)
    | none => (s2, [])
  ({ r2.1 with lastWindowID := "" }, r1.2 ++ r2.2)

/-- The function `handleWindowAppeared` (main.go:2632), run at instant `now`. -/
def handleWindowAppeared (now : Int) (s : State) : State × List Effect :=
  if timeSince now s.startTime < 30 * second then (s, [])
  else if timeSince now s.lastAutoReconnectAttempt < AUTO_RECONNECT_COOLDOWN then (s, [])
  else
    let s1 := { s with
      phoneReconnectedAndReady := true
      reconnectedWindowID := s.lastWindowID
      lastAutoReconnectAttempt := now }
    let r : State × Option Conn :=
      match s1.preservedWebSocket with
      | some p => ({ s1 with preservedWebSocket := none }, some p)
      | none =>
        match s1.activeWebSocketConn with
        | some a => (s1, some a)
        | none => (s1, none)
    let s2 := r.1
    let targetWebSocket := r.2
    if hasLiveMedia s2 then
      ({ s2 with phoneReconnectedAndReady := false, reconnectedWindowID := "" }, [])
    else
      match targetWebSocket with
      | some t =>
        (s2, [Effect.wsWrite t
          (Msg.reconnection_ready "iPhone reconnected - auto-reconnecting in 5 seconds"
            s2.lastWindowID)])
      | none => (s2, [])

/-- The function `handleWindowIDChanged` (main.go:2709), run at instant `now`. -/
def handleWindowIDChanged (newWindowID : String) (now : Int) (writeOk : Bool) (s : State) :
    State × List Effect :=
  if timeSince now s.startTime < 30 * second then (s, [])
  else if timeSince now s.lastAutoReconnectAttempt < AUTO_RECONNECT_COOLDOWN then (s, [])
  else
    let s1 := { s with
      phoneReconnectedAndReady := true
      reconnectedWindowID := newWindowID
      lastAutoReconnectAttempt := now }
    if s1.autoReconnectEnabled then
      let r1 : State × List Effect :=
        match s1.activeSession with
        | some sess =>
          ({ s1 with activeSession := none }, WebRTCSession.Cleanup (some sess) s1.preservedWebSocket)
        | none => (s1, [])
      let s2 := r1.1
      if hasLiveMedia s2 then
        ({ s2 with phoneReconnectedAndReady := false, reconnectedWindowID := "" }, r1.2)
      else if s2.activeWebSocketConn.isSome then
        let r2 := notifyWebSocketClient
          (Msg.reconnection_ready
            "iPhone reconnected with new window - auto-reconnecting in 5 seconds" newWindowID)
          writeOk s2
        (r2.1, r1.2 ++ r2.2)
      else (s2, r1.2)
    else (s1, [])

/-- What one pass of the window monitor loop (main.go:662-677) hands to
`handleWindowStateChange`: the argument `hasWindow`, the result of the call of
`findWindow` made inside `getWindowCountAndID` at main.go:2509, the instant and
the outcome of a notification write. -/
structure Tick where
  hasWindow : Bool
  found : FindWindowResult
  now : Int
  writeOk : Bool
deriving DecidableEq, Repr

/-- The value `hasWindowByCount` a tick observes (main.go:2509-2510). -/
def Tick.present (t : Tick) : Bool := decide ((getWindowCountAndID t.found).1 > 0)

/-- The value `currentWindowID` a tick observes (main.go:2509). -/
def Tick.windowID (t : Tick) : String := (getWindowCountAndID t.found).2

/-- The function `handleWindowStateChange` (main.go:2507).  The Go function does
not read its argument `hasWindow`: it probes the window again itself. -/
def handleWindowStateChange (t : Tick) (s : State) : State × List Effect :=
  let windowCount := (getWindowCountAndID t.found).1
  let currentWindowID := (getWindowCountAndID t.found).2
  let hasWindowByCount := decide (windowCount > 0)
  if hasWindowByCount && !s.lastWindowState && s.lastWindowID != "" && currentWindowID != ""
      && s.lastWindowID != currentWindowID then
    handleWindowIDChanged currentWindowID t.now t.writeOk
      { s with lastWindowID := currentWindowID, lastWindowState := true, windowStateCheckCount := 0 }
  else if hasWindowByCount && s.lastWindowState && s.lastWindowID != "" && currentWindowID != ""
      && s.lastWindowID != currentWindowID then
    handleWindowIDChanged currentWindowID t.now t.writeOk
      { s with lastWindowID := currentWindowID, lastWindowState := true, windowStateCheckCount := 0 }
  else
    let s1 :=
      if hasWindowByCount && !s.lastWindowState && currentWindowID != "" && s.lastWindowID == "" then
        { s with lastWindowID := currentWindowID }
      else s
    if hasWindowByCount == s1.lastWindowState then
      ({ s1 with windowStateCheckCount := 0 }, [])
    else
      let s2 := { s1 with windowStateCheckCount := s1.windowStateCheckCount + 1 }
      if s2.windowStateCheckCount < WINDOW_STATE_CONFIRMATION_CHECKS then (s2, [])
      else
        let s3 := { s2 with lastWindowState := hasWindowByCount }
        let s4 :=
          if hasWindowByCount && currentWindowID != "" then { s3 with lastWindowID := currentWindowID }
          else s3
        let s5 := { s4 with windowStateCheckCount := 0 }
        if hasWindowByCount then handleWindowAppeared t.now s5
        else handleWindowDisappeared t.writeOk s5

/-- The window monitor loop run over a list of ticks: the final state and the
effects of each tick, in order. -/
def runTicks : List Tick → State → State × List (List Effect)
  | [], s => (s, [])
  | t :: ts, s =>
    let r := handleWindowStateChange t s
    let rest := runTicks ts r.1
    (rest.1, r.2 :: rest.2)

/-- The state after the first `n` ticks of `ts`. -/
def stateAfter (ts : List Tick) (s : State) (n : Nat) : State := (runTicks (ts.take n) s).1

/-- The function `checkAutoReconnectAfterCleanup` (main.go:1769), run at instant
`now`; `found` is the result of its window probe. -/
def checkAutoReconnectAfterCleanup (found : FindWindowResult) (now : Int) (writeOk : Bool)
    (s : State) : State × List Effect :=
  if !s.autoReconnectEnabled || s.activeWebSocketConn.isNone then (s, [])
  else if timeSince now s.lastAutoReconnectAttempt < AUTO_RECONNECT_COOLDOWN then (s, [])
  else
    let windowCount := (getWindowCountAndID found).1
    let windowID := (getWindowCountAndID found).2
    if windowCount == 0 || windowID == "" then (s, [])
    else
      let s1 := { s with
        lastAutoReconnectAttempt := now
        lastWindowID := windowID
        lastWindowState := true }
      notifyWebSocketClient
        (Msg.reconnection_ready "iPhone still connected - please restart WebRTC" windowID)
        writeOk s1

/-- The function `cleanupWebRTCSession` (main.go:1753). -/
def cleanupWebRTCSession (found : FindWindowResult) (now : Int) (writeOk : Bool) (s : State) :
    State × List Effect :=
  match s.activeSession with
  | some sess =>
    let r := checkAutoReconnectAfterCleanup found now writeOk { s with activeSession := none }
    (r.1, WebRTCSession.Cleanup (some sess) s.preservedWebSocket ++ r.2)
  | none => (s, [])

/-- The handler of `GET /api/webrtc/status` (main.go:866): the field `active`. -/
def statusActive (s : State) : Bool := s.activeSession.isSome

/-! ## Signaling endpoint: session construction -/

/-- What the signaling handler reads from its environment between admission and
the registration of its callbacks (main.go:931-1093). -/
structure SignalEnv where
  reserveAt : Int
  upgrade : Option Conn
  found : FindWindowResult
  checkAt : Int
  defaultCodecsOk : Bool
  h264Ok : Bool
  newPeerConnection : Option PeerConnection
  sessionAt : Int
  context : Nat
  cancel : Nat
  startAt : Int
deriving DecidableEq, Repr

/-- How an invocation of the signaling handler ends, or goes on.  `blocked` is
the wait in `webrtcMutex.Lock()` (main.go:928), `rejected` the 409 answer
(main.go:942-946); the next five are the returns of the construction part,
`nilSession` being the nil dereference at main.go:1072, reached only when the
slot was emptied after the reservation; `constructed` is the handler that has
built its session and goes on, with its `sessionID`, `conn` and
`peerConnection`. -/
inductive SetupOutcome where
  | blocked
  | rejected
  | upgradeFailed
  | defaultCodecsFailed
  | h264Failed
  | peerConnectionFailed
  | nilSession
  | constructed (sessionID : String) (conn : Conn) (pc : PeerConnection)
deriving DecidableEq, Repr

/-- The window check made when the WebSocket connects (main.go:980-1000). -/
def connectTimeWindowCheck (found : FindWindowResult) (now : Int) (s : State) : State :=
  let windowCount := (getWindowCountAndID found).1
  let currentWindowID := (getWindowCountAndID found).2
  if decide (windowCount > 0) && currentWindowID != "" then
    if !s.lastWindowState then
      let s1 := { s with
        lastWindowState := true
        lastWindowID := currentWindowID
        windowStateCheckCount := 0 }
      if timeSince now s.startTime ≥ 30 * second then
        { s1 with phoneReconnectedAndReady := true, reconnectedWindowID := currentWindowID }
      else s1
    else s
  else s

/-- The signaling handler from the WebSocket upgrade to the point where the
reserved session is filled in (main.go:952-1093), run by the invocation that
holds `webrtcMutex`.  For the outcomes that return from the handler, the
deferred calls registered so far (main.go:957, 961) have run and the deferred
`Unlock` of main.go:929 has released the mutex; when the session is constructed
the handler goes on and keeps the mutex. -/
def signalConstruct (env : SignalEnv) (s : State) : State × List Effect × SetupOutcome :=
  match env.upgrade with
  | none => ({ s with webrtcMutexHeld := false }, [], SetupOutcome.upgradeFailed)
  | some conn =>
    let s1 := { s with activeWebSocketConn := some conn }
    let s2 := connectTimeWindowCheck env.found env.checkAt s1
    if !env.defaultCodecsOk then
      ({ s2 with activeWebSocketConn := none, webrtcMutexHeld := false },
        [Effect.wsWrite conn (Msg.error "Failed to register codecs"), Effect.wsClose conn],
        SetupOutcome.defaultCodecsFailed)
    else if !env.h264Ok then
      ({ s2 with activeWebSocketConn := none, webrtcMutexHeld := false },
        [Effect.wsWrite conn (Msg.error "Failed to register H.264 codec"), Effect.wsClose conn],
        SetupOutcome.h264Failed)
    else
      match env.newPeerConnection with
      | none =>
        ({ s2 with activeSession := none, activeWebSocketConn := none, webrtcMutexHeld := false },
          [Effect.wsWrite conn (Msg.error "Failed to create peer connection"), Effect.wsClose conn],
          SetupOutcome.peerConnectionFailed)
      | some pc =>
        let sessionID := "session_" ++ toString (unix env.sessionAt)
        match s2.activeSession with
        | none =>
          ({ s2 with activeWebSocketConn := none, webrtcMutexHeld := false },
            [Effect.wsClose conn], SetupOutcome.nilSession)
        | some a =>
          ({ s2 with
              activeSession := some { a with
                ID := sessionID
                PeerConn := some pc
                WebSocket := some conn
                Context := some env.context
                CancelFunc := some env.cancel
                StartTime := env.startAt }
              autoReconnectEnabled := true },
            [], SetupOutcome.constructed sessionID conn pc)

/-- The signaling handler of `GET /api/webrtc/signal` from its entry to the
point where the session is constructed (main.go:924-1093).  The outcome
`blocked` is the request that waits for `webrtcMutex` at main.go:928. -/
def signalHandler (env : SignalEnv) (s : State) : State × List Effect × SetupOutcome :=
  let a := signalAdmission env.reserveAt s
  match a.2.2 with
  | Admission.blocked => (a.1, a.2.1, SetupOutcome.blocked)
  | Admission.conflict => (a.1, a.2.1, SetupOutcome.rejected)
  | Admission.reserved =>
    let c := signalConstruct env a.1
    (c.1, a.2.1 ++ c.2.1, c.2.2)

/-- The ready-flag branch of the signaling handler (main.go:1218-1244), for the
peer connection `pc` just created.  The third component is true when the
handler goes on to wait for a window (the `else` at main.go:1244). -/
def readyFlagBranch (pc : PeerConnection) (writeOk : Bool) (s : State) :
    State × List Effect × Bool :=
  if s.phoneReconnectedAndReady && s.reconnectedWindowID != "" then
    if 0 < pc.senders then
      ({ s with phoneReconnectedAndReady := false, reconnectedWindowID := "" }, [], false)
    else
      let r := notifyWebSocketClient
        (Msg.reconnection_ready "iPhone reconnected - auto-reconnecting in 5 seconds"
          s.reconnectedWindowID)
        writeOk s
      ({ r.1 with phoneReconnectedAndReady := false, reconnectedWindowID := "" }, r.2, false)
  else (s, [], true)

/-! ## Predicates on effect traces -/

/-- Whether the effect is a write of a `reconnection_ready` message. -/
def Effect.isReconnectionReady : Effect → Bool
  | Effect.wsWrite _ (Msg.reconnection_ready _ _) => true
  | _ => false

/-- Whether the effect is a write of an `airplay_disconnected` message. -/
def Effect.isAirplayDisconnected : Effect → Bool
  | Effect.wsWrite _ (Msg.airplay_disconnected _) => true
  | _ => false

/-! ## The session slot -/

/-- An example state: no session, nothing observed yet, process started at
instant 0. -/
def idleState : State := initState 0

/-- An example session as the handler builds it and `initializeWebRTCSession`
completes it: tracks attached, encoder running, both RTP listeners open. -/
def liveSession : WebRTCSession where
  ID := "session_40"
  PeerConn := some { ref := 1, senders := 2 }
  FFmpegCmd := some { Process := some 4242 }
  VideoConn := some 1
  AudioConn := some 2
  VideoPort := 50001
  AudioPort := 50002
  WebSocket := some 1
  Context := some 1
  CancelFunc := some 1
  StartTime := 40 * second

/-- An example state with a live session tracking window "0x1", 100 s after
process start at instant 0; the handler that built the session is in its
message loop and holds `webrtcMutex`. -/
def liveState : State where
  activeSession := some liveSession
  preservedWebSocket := none
  lastWindowState := true
  lastWindowID := "0x1"
  windowStateCheckCount := 0
  activeWebSocketConn := some 1
  autoReconnectEnabled := true
  lastAutoReconnectAttempt := zeroTime
  phoneReconnectedAndReady := false
  reconnectedWindowID := ""
  startTime := 0
  webrtcMutexHeld := true

/-- An environment in which the WebSocket upgrade fails (a plain HTTP GET). -/
def plainGetEnv : SignalEnv where
  reserveAt := 7000000000
  upgrade := none
  found := { windowID := "", width := 0, height := 0, err := false }
  checkAt := 7000000000
  defaultCodecsOk := true
  h264Ok := true
  newPeerConnection := some { ref := 1, senders := 0 }
  sessionAt := 7000000000
  context := 1
  cancel := 1
  startAt := 7000000000

/-! ## Window ticks -/

/-- The window-id-change test of main.go:2517 and main.go:2531, without its
conjunct on `lastWindowState`: a usable window whose id differs from a non-empty
`lastWindowID`. -/
def idChangeObserved (t : Tick) (s : State) : Bool :=
  t.present && s.lastWindowID != "" && t.windowID != "" && s.lastWindowID != t.windowID

/-- A tick that observes a usable 1080x1920 window with the given id. -/
def presentTick (id : String) (now : Int) : Tick where
  hasWindow := true
  found := { windowID := id, width := 1080, height := 1920, err := false }
  now := now
  writeOk := true

/-- A tick that observes no window. -/
def absentTick (now : Int) : Tick where
  hasWindow := false
  found := { windowID := "", width := 0, height := 0, err := false }
  now := now
  writeOk := true

/-- Five consecutive ticks that observe window "0x2". -/
def fivePresentTicks : List Tick :=
  [presentTick "0x2" (100 * second), presentTick "0x2" (101 * second),
   presentTick "0x2" (102 * second), presentTick "0x2" (103 * second),
   presentTick "0x2" (104 * second)]

/-- Four ticks whose observed presence alternates. -/
def flapTicks : List Tick :=
  [presentTick "0x1" (100 * second), absentTick (101 * second),
   presentTick "0x1" (102 * second), absentTick (103 * second)]

/-- Whether the effect is a write to a WebSocket. -/
def Effect.isWrite : Effect → Bool
  | Effect.wsWrite _ _ => true
  | _ => false

/-- The state `liveState` reaches after a confirmed disappearance: the session
is gone, its WebSocket 1 is preserved. -/
def goneState : State :=
  { liveState with
    activeSession := none
    preservedWebSocket := some 1
    lastWindowState := false
    lastWindowID := "" }

/-- The state in which `handleWindowStateChange` calls `handleWindowAppeared`
once the re-appearance of window "0x2" is confirmed from `goneState`. -/
def reappearedState : State :=
  { goneState with lastWindowState := true, lastWindowID := "0x2" }

/-- Successive invocations of `handleWindowAppeared` at the given instants:
the final state and all effects, in order. -/
def runAppeared : List Int → State → State × List Effect
  | [], s => (s, [])
  | t :: ts, s =>
    let r := handleWindowAppeared t s
    let rest := runAppeared ts r.1
    (rest.1, r.2 ++ rest.2)

/-- Five consecutive ticks that observe no window. -/
def fiveAbsentTicks : List Tick :=
  [absentTick (100 * second), absentTick (101 * second), absentTick (102 * second),
   absentTick (103 * second), absentTick (104 * second)]

/-! ## Peer connection state callbacks -/

/-- The values of `webrtc.ICEConnectionState` the callback distinguishes. -/
inductive ICEConnectionState where
  | new | checking | connected | completed | failed | disconnected | closed
deriving DecidableEq, Repr

/-- The values of `webrtc.PeerConnectionState`. -/
inductive PeerConnectionState where
  | new | connecting | connected | disconnected | failed | closed
deriving DecidableEq, Repr

/-- The callback registered with `OnICEConnectionStateChange` (main.go:1096):
the states failed, disconnected and closed call `cleanupWebRTCSession`. -/
def onICEConnectionStateChange (st : ICEConnectionState) (found : FindWindowResult) (now : Int)
    (writeOk : Bool) (s : State) : State × List Effect :=
  match st with
  | ICEConnectionState.failed => cleanupWebRTCSession found now writeOk s
  | ICEConnectionState.disconnected => cleanupWebRTCSession found now writeOk s
  | ICEConnectionState.closed => cleanupWebRTCSession found now writeOk s
  | _ => (s, [])

/-- The callback registered with `OnConnectionStateChange` (main.go:1133): the
states failed and closed call `cleanupWebRTCSession`. -/
def onConnectionStateChange (st : PeerConnectionState) (found : FindWindowResult) (now : Int)
    (writeOk : Bool) (s : State) : State × List Effect :=
  if st = PeerConnectionState.failed ∨ st = PeerConnectionState.closed then
    cleanupWebRTCSession found now writeOk s
  else (s, [])

/-! ## Teardown order and slot-clearing paths -/

/-- The teardown steps as the specification words them, in its order: cancel
the session context, kill the encoder process, wait for it, close the video
listener, close the audio listener, close the peer connection, close the
WebSocket unless it is the preserved one; a step whose resource is absent is
`none`. -/
def teardownSteps (s : WebRTCSession) (preservedWebSocket : Option Conn) : List (Option Effect) :=
  [ s.CancelFunc.map Effect.cancel,
    (s.FFmpegCmd.bind (fun c => c.Process)).map Effect.kill,
    (s.FFmpegCmd.bind (fun c => c.Process)).map Effect.wait,
    s.VideoConn.map Effect.udpClose,
    s.AudioConn.map Effect.udpClose,
    s.PeerConn.map (fun pc => Effect.pcClose pc.ref),
    (s.WebSocket.filter (fun w => decide (some w ≠ preservedWebSocket))).map Effect.wsClose ]

/-- The teardown order of the specification: the steps that are present, in
order. -/
def teardownOrder (s : WebRTCSession) (preservedWebSocket : Option Conn) : List Effect :=
  (teardownSteps s preservedWebSocket).reduceOption

/-- The function `cleanupActiveSession` (main.go:438), called by
`POST /api/webrtc/cleanup`. -/
def cleanupActiveSession (s : State) : State × List Effect :=
  match s.activeSession with
  | some a => ({ s with activeSession := none }, WebRTCSession.Cleanup (some a) s.preservedWebSocket)
  | none => (s, [])

/-- The deferred cleanup the signaling handler registers once the session is
built (main.go:1086-1093). -/
def deferredSessionCleanup (sessionID : String) (s : State) : State × List Effect :=
  match s.activeSession with
  | some a =>
    if a.ID = sessionID then
      ({ s with activeSession := none }, WebRTCSession.Cleanup (some a) s.preservedWebSocket)
    else (s, [])
  | none => (s, [])

/-- The deferred calls that run when the signaling handler returns after the
session was built, last registered first (main.go:1086, 961, 957, 929); the
last one releases `webrtcMutex`. -/
def signalReturn (sessionID : String) (conn : Conn) (s : State) : State × List Effect :=
  let r := deferredSessionCleanup sessionID s
  ({ r.1 with activeWebSocketConn := none, webrtcMutexHeld := false },
    r.2 ++ [Effect.wsClose conn])

/-- The path of the signaling handler taken when `waitForUxPlayWindow` returns
an error (main.go:1249-1258), after it wrote the status messages
`statusWrites` to the connection; the handler then returns. -/
def windowWaitFailed (statusWrites : List Msg) (sessionID : String) (conn : Conn) (s : State) :
    State × List Effect :=
  let s1 := { s with activeSession := none }
  let r := signalReturn sessionID conn s1
  (r.1, statusWrites.map (Effect.wsWrite conn)
    ++ [Effect.wsWrite conn
        (Msg.error "AirPlay window not available - please connect your device")]
    ++ r.2)

/-- An environment in which the whole construction succeeds. -/
def goodEnv : SignalEnv where
  reserveAt := 7000000000
  upgrade := some 1
  found := { windowID := "", width := 0, height := 0, err := false }
  checkAt := 7000000000
  defaultCodecsOk := true
  h264Ok := true
  newPeerConnection := some { ref := 1, senders := 0 }
  sessionAt := 7000000000
  context := 1
  cancel := 1
  startAt := 7000000000

/-- The session `signalHandler goodEnv` builds from `idleState`. -/
def builtSession : WebRTCSession :=
  { reservedSession 7000000000 with
    ID := "session_7"
    PeerConn := some { ref := 1, senders := 0 }
    WebSocket := some 1
    Context := some 1
    CancelFunc := some 1
    StartTime := 7000000000 }

/-! ## Capture pipeline: ports and session initialization -/

/-- What one iteration of the loop of `findFreePort` reads from its
environment: the value drawn by `rand.Intn(1000)` (taken modulo 1000) and
whether `ResolveUDPAddr` and `ListenUDP` succeed. -/
structure PortAttempt where
  rand : Nat
  resolveOk : Bool
  listenOk : Bool
deriving DecidableEq, Repr

/-- The loop of `findFreePort` (main.go:240-252) from iteration `i`, with `fuel`
iterations left. -/
def findFreePortFrom (attempts : Nat → PortAttempt) : Nat → Nat → Option Int
  | 0, _ => none
  | fuel + 1, i =>
    let port : Int := 5000 + ((attempts i).rand % 1000 : Nat)
    if !(attempts i).resolveOk then findFreePortFrom attempts fuel (i + 1)
    else if !(attempts i).listenOk then findFreePortFrom attempts fuel (i + 1)
    else some port

/-- The function `findFreePort` (main.go:239): `none` stands for its error. -/
def findFreePort (attempts : Nat → PortAttempt) : Option Int :=
  findFreePortFrom attempts 100 0

/-- The loop of `findFreePortWithRetry` (main.go:454-461); `probes i` is what the
`i`-th call of `findFreePort` reads. -/
def findFreePortWithRetryFrom (probes : Nat → Nat → PortAttempt) : Nat → Nat → Option Int
  | 0, _ => none
  | n + 1, i =>
    match findFreePort (probes i) with
    | some port => some port
    | none => findFreePortWithRetryFrom probes n (i + 1)

/-- The function `findFreePortWithRetry` (main.go:453). -/
def findFreePortWithRetry (retries : Nat) (probes : Nat → Nat → PortAttempt) : Option Int :=
  findFreePortWithRetryFrom probes retries 0

/-- The RTP port `50000 + (port % 1000)` of main.go:2856-2857; `%` is the
truncated remainder of Go. -/
def rtpPort (port : Int) : Int := 50000 + port.tmod 1000

/-- What `initializeWebRTCSession` reads from its environment: the port probes,
the outcome of the four track calls, the pid of the encoder when
`startFFmpegRTP` started it, and the sockets of the two `ListenPacket` calls. -/
structure InitEnv where
  videoProbes : Nat → Nat → PortAttempt
  audioProbes : Nat → Nat → PortAttempt
  videoTrackOk : Bool
  addVideoTrackOk : Bool
  audioTrackOk : Bool
  addAudioTrackOk : Bool
  ffmpeg : Option Nat
  videoListen : Option Nat
  audioListen : Option Nat

/-- The effect of a successful `AddTrack` on the peer connection `pcRef` as the
session slot sees it: one more sender. -/
def addTrack (pcRef : Nat) (s : State) : State :=
  match s.activeSession with
  | some a =>
    match a.PeerConn with
    | some pc =>
      if pc.ref = pcRef then
        { s with activeSession := some { a with PeerConn := some { pc with senders := pc.senders + 1 } } }
      else s
    | none => s
  | none => s

/-- The function `initializeWebRTCSession` (main.go:2810-2898) up to the start
of its forwarding goroutines, for the peer connection `pc` of the handler.  The
last component is true when it returns nil. -/
def initializeWebRTCSession (env : InitEnv) (pc : PeerConnection) (s : State) :
    State × List Effect × PeerConnection × Bool :=
  match findFreePortWithRetry 3 env.videoProbes with
  | none => (s, [], pc, false)
  | some videoPort =>
    match findFreePortWithRetry 3 env.audioProbes with
    | none => (s, [], pc, false)
    | some audioPort =>
      if !env.videoTrackOk then (s, [], pc, false)
      else if !env.addVideoTrackOk then (s, [], pc, false)
      else
        let pc1 := { pc with senders := pc.senders + 1 }
        let s1 := addTrack pc.ref s
        if !env.audioTrackOk then (s1, [], pc1, false)
        else if !env.addAudioTrackOk then (s1, [], pc1, false)
        else
          let pc2 := { pc1 with senders := pc1.senders + 1 }
          let s2 := addTrack pc.ref s1
          let videoRTPPort := rtpPort videoPort
          let audioRTPPort := rtpPort audioPort
          match env.ffmpeg with
          | none => (s2, [], pc2, false)
          | some pid =>
            match env.videoListen with
            | none => (s2, [Effect.spawn pid, Effect.kill pid], pc2, false)
            | some v =>
              match env.audioListen with
              | none =>
                (s2, [Effect.spawn pid, Effect.udpListen v, Effect.udpClose v, Effect.kill pid],
                  pc2, false)
              | some a =>
                let s3 :=
                  match s2.activeSession with
                  | some sess =>
                    { s2 with activeSession := some { sess with
                        FFmpegCmd := some { Process := some pid }
                        VideoPort := videoRTPPort
                        AudioPort := audioRTPPort
                        VideoConn := some v
                        AudioConn := some a } }
                  | none => s2
                (s3, [Effect.spawn pid, Effect.udpListen v, Effect.udpListen a], pc2, true)

/-- The effects of `initializeWebRTCSession` followed by the teardown of the
session then in the slot. -/
def initThenTeardown (env : InitEnv) (pc : PeerConnection) (s : State) : List Effect :=
  (initializeWebRTCSession env pc s).2.1
    ++ WebRTCSession.Cleanup (initializeWebRTCSession env pc s).1.activeSession
        (initializeWebRTCSession env pc s).1.preservedWebSocket

/-- Port probes whose first attempt draws `r` and succeeds. -/
def probesAt (r : Nat) : Nat → Nat → PortAttempt :=
  fun _ _ => { rand := r, resolveOk := true, listenOk := true }

/-- An environment in which the encoder 4242 starts and the video listener
cannot be opened. -/
def videoListenFails : InitEnv where
  videoProbes := probesAt 17
  audioProbes := probesAt 18
  videoTrackOk := true
  addVideoTrackOk := true
  audioTrackOk := true
  addAudioTrackOk := true
  ffmpeg := some 4242
  videoListen := none
  audioListen := some 2

/-- The state `signalHandler goodEnv` reaches from `idleState`: the built session
is in the slot, no track is attached yet. -/
def builtState : State := (signalHandler goodEnv idleState).1

/-! ## Window monitor: choice of the window -/

/-- One whitespace-separated field of an enumeration line, as `findWindow`
reads it: its text, whether it contains both "x" and "+", and the two numbers
`strconv.Atoi` gives for the part before the first "x" and for the part between
that "x" and the next "+" (0 when `Atoi` fails). -/
structure Field where
  text : String
  isSize : Bool
  w : Int
  h : Int
deriving DecidableEq, Repr

/-- One line of the output of `xwininfo -root -tree`, as `findWindow` reads it:
its fields (`strings.Fields`), whether it contains "0x" and "x", whether its
lower-cased text contains "uxplay", "appletv" or "airplay", and whether it
contains "OpenGL renderer".  The last component is not read by `findWindow`: it
says whether the title alone, the quoted name of the window, contains one of
the three words, which is what rule 1 of the specification speaks of. -/
structure WinLine where
  fields : List Field
  has0x : Bool
  nameMatch : Bool
  openglRenderer : Bool
  titleMatch : Bool
deriving DecidableEq, Repr

/-- The loop over the fields of a line (main.go:1484-1496, repeated for each
priority): the last field that holds a size sets `w` and `h`, which start
at 0. -/
def lineSize (fields : List Field) : Int × Int :=
  fields.foldl (fun acc f => if f.isSize then (f.w, f.h) else acc) (0, 0)

/-- The value `fields[0]` of a line. -/
def WinLine.id (l : WinLine) : String :=
  match l.fields with
  | f :: _ => f.text
  | [] => ""

/-- The width `findWindow` parses from a line. -/
def WinLine.w (l : WinLine) : Int := (lineSize l.fields).1

/-- The height `findWindow` parses from a line. -/
def WinLine.h (l : WinLine) : Int := (lineSize l.fields).2

/-- The test `0.45 <= w/h <= 0.6` of main.go:1504 and main.go:1586, for
`h > 0`.  The float64 comparison of the quotient agrees with this exact one for
all dimensions below 10^14. -/
def isPhoneAspect (w h : Int) : Bool := decide (45 * h ≤ 100 * w) && decide (100 * w ≤ 60 * h)

/-- The test `isVideoAspect` of main.go:1502-1504, for `h > 0`: the ratio is in
one of the bands 1.7-1.8, 1.3-1.4, 0.45-0.6. -/
def isVideoAspect (w h : Int) : Bool :=
  (decide (17 * h ≤ 10 * w) && decide (10 * w ≤ 18 * h))
    || (decide (13 * h ≤ 10 * w) && decide (10 * w ≤ 14 * h))
    || isPhoneAspect w h

/-- Whether the first pass (main.go:1477-1517) appends the line to
`potentialVideoWindows`. -/
def isPotentialVideo (l : WinLine) : Bool :=
  l.has0x && decide (2 ≤ l.fields.length) && decide (l.w > 100) && decide (l.h > 100)
    && isVideoAspect l.w l.h

/-- The list `potentialVideoWindows` built by the first pass: id, width and
height of each entry. -/
def potentialVideoWindows (lines : List WinLine) : List (String × Int × Int) :=
  (lines.filter isPotentialVideo).map (fun l => (l.id, l.w, l.h))

/-- The loop of priority 4 (main.go:1630-1639): the entry of largest area, the
earliest one among equals. -/
def largestWindow (first : String × Int × Int) (rest : List (String × Int × Int)) :
    String × Int × Int :=
  (rest.foldl
    (fun (acc : (String × Int × Int) × Int) win =>
      if win.2.1 * win.2.2 > acc.2 then (win, win.2.1 * win.2.2) else acc)
    (first, first.2.1 * first.2.2)).1

/-- The five priorities of `findWindow` (main.go:1533-1687) on the lines of the
enumeration. -/
def selectWindow (lines : List WinLine) : FindWindowResult :=
  match lines.find? (fun l => l.nameMatch && decide (2 ≤ l.fields.length)
      && decide (l.w > 100) && decide (l.h > 100)) with
  | some l => { windowID := l.id, width := l.w, height := l.h, err := false }
  | none =>
    match (potentialVideoWindows lines).find? (fun win =>
        isPhoneAspect win.2.1 win.2.2 && decide (win.2.1 ≥ 400) && decide (win.2.2 ≥ 700)) with
    | some win => { windowID := win.1, width := win.2.1, height := win.2.2, err := false }
    | none =>
      match lines.find? (fun l => l.openglRenderer && decide (2 ≤ l.fields.length)) with
      | some l => { windowID := l.id, width := l.w, height := l.h, err := false }
      | none =>
        match potentialVideoWindows lines with
        | first :: rest =>
          { windowID := (largestWindow first rest).1
            width := (largestWindow first rest).2.1
            height := (largestWindow first rest).2.2
            err := false }
        | [] =>
          match lines.find? (fun l => l.has0x && decide (2 ≤ l.fields.length)
              && decide (l.w > 100) && decide (l.h > 100)) with
          | some l => { windowID := l.id, width := l.w, height := l.h, err := false }
          | none => { windowID := "", width := 0, height := 0, err := false }

/-- What `findWindow` reads from the X server: whether `xset q` succeeds, and
the lines of the output of `xwininfo -root -tree`, or `none` when that command
fails. -/
structure XProbe where
  xsetOk : Bool
  xwininfo : Option (List WinLine)
deriving DecidableEq, Repr

/-- The function `findWindow` (main.go:1453). -/
def findWindow (x : XProbe) : FindWindowResult :=
  if !x.xsetOk then { windowID := "", width := 0, height := 0, err := true }
  else
    match x.xwininfo with
    | none => { windowID := "", width := 0, height := 0, err := true }
    | some lines => selectWindow lines

/-- What the window monitor reports for an enumeration: `findWindow` followed
by `getWindowCountAndID`. -/
def monitorReport (lines : List WinLine) : Int × String :=
  getWindowCountAndID (findWindow { xsetOk := true, xwininfo := some lines })

/-- The line `0x2c00002 "OpenGL renderer": ()  100x100+0+0  +0+0`. -/
def openglLine100 : WinLine where
  fields :=
    [ { text := "0x2c00002", isSize := false, w := 0, h := 0 },
      { text := "\"OpenGL", isSize := false, w := 0, h := 0 },
      { text := "renderer\":", isSize := false, w := 0, h := 0 },
      { text := "()", isSize := false, w := 0, h := 0 },
      { text := "100x100+0+0", isSize := true, w := 100, h := 100 },
      { text := "+0+0", isSize := false, w := 0, h := 0 } ]
  has0x := true
  nameMatch := false
  openglRenderer := true
  titleMatch := false

/-- The interface filter installed by `SetInterfaceFilter` (main.go:1039-1042);
`strings.HasPrefix(name, "veth")` compares the first four characters. -/
def interfaceFilter (interfaceName : String) : Bool :=
  interfaceName != "docker0" && interfaceName != "br-"
    && !(interfaceName.toList.take 4 == ['v', 'e', 't', 'h'])

/-! ## Window monitor: the choice as the specification words it -/

/-- A window of the enumeration: a line that carries a window id "0x..." and at
least one more field. -/
def isWindowLine (l : WinLine) : Bool := l.has0x && decide (2 ≤ l.fields.length)

/-- Both dimensions exceed 100. -/
def bigEnough (l : WinLine) : Bool := decide (l.w > 100) && decide (l.h > 100)

/-- Rule 1: the title contains uxplay, appletv or airplay and both dimensions
exceed 100. -/
def rule1 (l : WinLine) : Bool := l.titleMatch && bigEnough l

/-- Rule 1 as amended: the text of the line (title, instance or class name)
contains uxplay, appletv or airplay and both dimensions exceed 100. -/
def rule1Line (l : WinLine) : Bool := l.nameMatch && bigEnough l

/-- Rule 2: aspect w/h in [0.45, 0.6] with w >= 400 and h >= 700. -/
def rule2 (l : WinLine) : Bool :=
  isPhoneAspect l.w l.h && decide (l.w ≥ 400) && decide (l.h ≥ 700)

/-- Rule 3: an OpenGL renderer window. -/
def rule3 (l : WinLine) : Bool := l.openglRenderer

/-- A window in a video aspect band with both dimensions over 100. -/
def inVideoBand (l : WinLine) : Bool := isVideoAspect l.w l.h && bigEnough l

/-- Rule 4: a window in a video aspect band whose area is the largest among the
windows `ws` in a video aspect band. -/
def rule4 (ws : List WinLine) (l : WinLine) : Bool :=
  inVideoBand l && ws.all (fun m => !inVideoBand m || decide (m.w * m.h ≤ l.w * l.h))

/-- Rule 5: any window with both dimensions over 100. -/
def rule5 (l : WinLine) : Bool := bigEnough l

/-- The rules of the priority list, lowest number first, for a given rule 1. -/
def referenceRules (r1 : WinLine → Bool) (ws : List WinLine) : List (WinLine → Bool) :=
  [r1, rule2, rule3, rule4 ws, rule5]

/-- The choice of the priority list for a given rule 1: the first window, in
enumeration order, that matches the lowest-numbered rule any window matches;
the empty id when no rule matches. -/
def referenceChoiceWith (r1 : WinLine → Bool) (lines : List WinLine) : String × Int × Int :=
  match (referenceRules r1 (lines.filter isWindowLine)).find?
      (fun r => (lines.filter isWindowLine).any r) with
  | some r =>
    match (lines.filter isWindowLine).find? r with
    | some l => (l.id, l.w, l.h)
    | none => ("", 0, 0)
  | none => ("", 0, 0)

/-- The reference choice of the specification: rule 1 looks at the title. -/
def referenceChoice (lines : List WinLine) : String × Int × Int :=
  referenceChoiceWith rule1 lines

/-- The reference choice with rule 1 on the whole line. -/
def amendedChoice (lines : List WinLine) : String × Int × Int :=
  referenceChoiceWith rule1Line lines

/-- The fold of priority 4 on lines rather than on their triples. -/
def argmaxArea (acc : WinLine) (ls : List WinLine) : WinLine :=
  ls.foldl (fun acc x => if x.w * x.h > acc.w * acc.h then x else acc) acc

/-- The two lines
`0x1200001 "Video": ("vlc" "Vlc")  500x1000+0+0  +0+0` and
`0x1400001 "Living Room": ("uxplay" "UxPlay")  1080x1920+0+0  +0+0`. -/
def sampleLines : List WinLine :=
  [ { fields :=
        [ { text := "0x1200001", isSize := false, w := 0, h := 0 },
          { text := "\"Video\":", isSize := false, w := 0, h := 0 },
          { text := "(\"vlc\"", isSize := false, w := 0, h := 0 },
          { text := "\"Vlc\")", isSize := false, w := 0, h := 0 },
          { text := "500x1000+0+0", isSize := true, w := 500, h := 1000 },
          { text := "+0+0", isSize := false, w := 0, h := 0 } ]
      has0x := true
      nameMatch := false
      openglRenderer := false
      titleMatch := false },
    { fields :=
        [ { text := "0x1400001", isSize := false, w := 0, h := 0 },
          { text := "\"Living", isSize := false, w := 0, h := 0 },
          { text := "Room\":", isSize := false, w := 0, h := 0 },
          { text := "(\"uxplay\"", isSize := false, w := 0, h := 0 },
          { text := "\"UxPlay\")", isSize := false, w := 0, h := 0 },
          { text := "1080x1920+0+0", isSize := true, w := 1080, h := 1920 },
          { text := "+0+0", isSize := false, w := 0, h := 0 } ]
      has0x := true
      nameMatch := true
      openglRenderer := false
      titleMatch := false } ]

/-! ## Signaling endpoint: the message loop -/

/-- A decoded JSON value, as `json.Unmarshal` stores it in an `interface{}`;
an object is the list of the entries of its map, one for each key. -/
inductive JSONValue where
  | null
  | bool (b : Bool)
  | number (n : Int)
  | string (s : String)
  | array (items : List JSONValue)
  | object (fields : List (String × JSONValue))

/-- The map index expression `m[key]` on a `map[string]interface{}`: `none`
stands for the nil interface of a missing key. -/
def index (m : List (String × JSONValue)) (key : String) : Option JSONValue :=
  (m.find? (fun e => e.1 == key)).map (fun e => e.2)

/-- The type assertion `v.(string)`: the string, when the assertion holds. -/
def asString : Option JSONValue → Option String
  | some (JSONValue.string s) => some s
  | _ => none

/-- The type assertion `v.(map[string]interface{})`. -/
def asObject : Option JSONValue → Option (List (String × JSONValue))
  | some (JSONValue.object fields) => some fields
  | _ => none

/-- What the handler reads from its environment while it serves one offer: the
outcome of `SetRemoteDescription`, the window probes `waitForUxPlayWindowSimple`
makes before its timeout, the environment of `initializeWebRTCSession`, the SDP
of the answer when `CreateAnswer` succeeds, and the outcome of
`SetLocalDescription`. -/
structure OfferEnv where
  setRemoteOk : Bool
  windowProbes : List FindWindowResult
  init : InitEnv
  answer : Option String
  setLocalOk : Bool

/-- One return of `conn.ReadMessage()` in the message loop (main.go:1269): a
close error of the kinds the loop breaks on (with what the session cleanup
then reads), any other error, or a message with the result of `json.Unmarshal`
on it (`none` when it fails) and the environment of its handling. -/
inductive ReadResult where
  | closeError (found : FindWindowResult) (now : Int) (writeOk : Bool)
  | otherError
  | message (parsed : Option (List (String × JSONValue))) (env : OfferEnv)

/-- The function `waitForUxPlayWindowSimple` (main.go:258), over the probes it
makes before the timeout: the first usable window, or `none` for the timeout. -/
def waitForUxPlayWindowSimple (probes : List FindWindowResult) : Option FindWindowResult :=
  probes.find? (fun r =>
    !r.err && r.windowID != "" && decide (r.width ≥ 100) && decide (r.height ≥ 100))

/-- The first-offer initialization of main.go:1324-1343: the window wait and
`initializeWebRTCSession`.  The last component is the error message written
when it fails. -/
def firstOfferInit (env : OfferEnv) (pc : PeerConnection) (s : State) :
    State × List Effect × PeerConnection × Option String :=
  match waitForUxPlayWindowSimple env.windowProbes with
  | none => (s, [], pc, some "UxPlay window not available")
  | some _ =>
    let i := initializeWebRTCSession env.init pc s
    if i.2.2.2 then (i.1, i.2.1, i.2.2.1, none)
    else (i.1, i.2.1, i.2.2.1, some "Failed to initialize WebRTC session")

/-- The answer part of the offer case (main.go:1345-1380), on the peer
connection `pc`. -/
def answerOffer (env : OfferEnv) (conn : Conn) (pc : PeerConnection) : List Effect :=
  match env.answer with
  | none =>
    [Effect.createAnswer pc.ref, Effect.wsWrite conn (Msg.error "Failed to create answer")]
  | some sdp =>
    if !env.setLocalOk then
      [Effect.createAnswer pc.ref, Effect.setLocalDescription pc.ref,
        Effect.wsWrite conn (Msg.error "Failed to set local description")]
    else
      [Effect.createAnswer pc.ref, Effect.setLocalDescription pc.ref,
        Effect.wsWrite conn (Msg.answer sdp)]

/-- The offer case of the message loop once the SDP was read as a string
(main.go:1303-1380), for the connection `conn` and the peer connection `pc` of
the handler. -/
def handleOffer (env : OfferEnv) (conn : Conn) (pc : PeerConnection) (s : State) :
    State × List Effect × PeerConnection :=
  if !env.setRemoteOk then
    (s, [Effect.setRemoteDescription pc.ref,
      Effect.wsWrite conn (Msg.error "Failed to set remote description")], pc)
  else
    let hasNoTracks := pc.senders == 0
    if hasNoTracks then
      let i := firstOfferInit env pc s
      match i.2.2.2 with
      | some e =>
        (i.1, Effect.setRemoteDescription pc.ref :: i.2.1 ++ [Effect.wsWrite conn (Msg.error e)],
          i.2.2.1)
      | none =>
        (i.1, Effect.setRemoteDescription pc.ref :: i.2.1 ++ answerOffer env conn i.2.2.1, i.2.2.1)
    else
      (s, Effect.setRemoteDescription pc.ref :: answerOffer env conn pc, pc)

/-- The body of the message loop for one message (main.go:1283-1426). -/
def handleMessage (parsed : Option (List (String × JSONValue))) (env : OfferEnv) (conn : Conn)
    (pc : PeerConnection) (s : State) : State × List Effect × PeerConnection :=
  match parsed with
  | none => (s, [], pc)
  | some msg =>
    if asString (index msg "type") = some "offer" then
      match asString (index msg "sdp") with
      | none => (s, [], pc)
      | some _ => handleOffer env conn pc s
    else if asString (index msg "type") = some "ice-candidate" then
      match asObject (index msg "candidate") with
      | none => (s, [], pc)
      | some candidateData =>
        match asString (index candidateData "candidate") with
        | none => (s, [], pc)
        | some candidateStr => (s, [Effect.addICECandidate pc.ref candidateStr], pc)
    else (s, [], pc)

/-- The message loop of the signaling handler (main.go:1266-1430) over the
successive returns of `ReadMessage`, followed, when the loop breaks, by
`cleanupWebRTCSession` and the deferred calls of the handler.  When the list
ends the handler is blocked in `ReadMessage`. -/
def messageLoop (sessionID : String) (conn : Conn) :
    List ReadResult → PeerConnection → State → State × List Effect
  | [], _, s => (s, [])
  | ReadResult.closeError found now writeOk :: _, _, s =>
    let c := cleanupWebRTCSession found now writeOk s
    let r := signalReturn sessionID conn c.1
    (r.1, c.2 ++ r.2)
  | ReadResult.otherError :: rest, pc, s => messageLoop sessionID conn rest pc s
  | ReadResult.message parsed env :: rest, pc, s =>
    let h := handleMessage parsed env conn pc s
    let r := messageLoop sessionID conn rest h.2.2 h.1
    (r.1, h.2.1 ++ r.2)

/-- Whether the effect is a call of one of the three negotiation methods of the
peer connection. -/
def Effect.isNegotiation : Effect → Bool
  | Effect.setRemoteDescription _ => true
  | Effect.createAnswer _ => true
  | Effect.setLocalDescription _ => true
  | _ => false

/-- Whether the effect is a write of an `error` message. -/
def Effect.isErrorWrite : Effect → Bool
  | Effect.wsWrite _ (Msg.error _) => true
  | _ => false

/-- Whether the effect is a write of an `answer` message. -/
def Effect.isAnswerWrite : Effect → Bool
  | Effect.wsWrite _ (Msg.answer _) => true
  | _ => false

/-- Whether the effect belongs to the capture pipeline: the encoder process and
the RTP listeners. -/
def Effect.isPipeline : Effect → Bool
  | Effect.spawn _ => true
  | Effect.kill _ => true
  | Effect.udpListen _ => true
  | Effect.udpClose _ => true
  | _ => false

/-- The steps of an offer all succeed, in the words of the specification: the
remote description is accepted, on the first offer (no senders yet) the capture
pipeline and tracks are initialized, the answer is created and the local
description is set. -/
def offerSucceeds (env : OfferEnv) (pc : PeerConnection) (s : State) : Bool :=
  env.setRemoteOk
    && (decide (pc.senders ≠ 0) || (firstOfferInit env pc s).2.2.2.isNone)
    && env.answer.isSome
    && env.setLocalOk

/-- A message the handler drops, in the words of the specification: not valid
JSON, an offer whose `sdp` is not a string, an ice-candidate whose `candidate`
is not an object or lacks a string `candidate` field, or an unknown type. -/
def isDropped (parsed : Option (List (String × JSONValue))) : Bool :=
  match parsed with
  | none => true
  | some msg =>
    (decide (asString (index msg "type") = some "offer") && (asString (index msg "sdp")).isNone)
    || (decide (asString (index msg "type") = some "ice-candidate")
        && (match asObject (index msg "candidate") with
            | none => true
            | some c => (asString (index c "candidate")).isNone))
    || (!decide (asString (index msg "type") = some "offer")
        && !decide (asString (index msg "type") = some "ice-candidate"))

/-- An example offer message: type `offer`, sdp `v=0`. -/
def sampleOffer : List (String × JSONValue) :=
  [("type", JSONValue.string "offer"), ("sdp", JSONValue.string "v=0")]

/-- An environment in which the capture pipeline starts: ports, tracks, encoder
4242 and both listeners. -/
def goodInit : InitEnv where
  videoProbes := probesAt 17
  audioProbes := probesAt 18
  videoTrackOk := true
  addVideoTrackOk := true
  audioTrackOk := true
  addAudioTrackOk := true
  ffmpeg := some 4242
  videoListen := some 1
  audioListen := some 2

/-- An environment in which every step of an offer succeeds. -/
def goodOffer : OfferEnv where
  setRemoteOk := true
  windowProbes := [{ windowID := "0x1", width := 1080, height := 1920, err := false }]
  init := goodInit
  answer := some "v=0 answer"
  setLocalOk := true

/-- An example message of an unknown type, `ping`. -/
def pingMessage : List (String × JSONValue) := [("type", JSONValue.string "ping")]

/-! ## Capture pipeline of the session in the slot -/

/-- The capture pipeline of the session in the slot has been started, in the
words of the specification: the encoder is running and both RTP listeners are
open. -/
def pipelineStarted (s : State) : Bool :=
  match s.activeSession with
  | none => false
  | some a =>
    (a.FFmpegCmd.bind (fun c => c.Process)).isSome && a.VideoConn.isSome && a.AudioConn.isSome

/-- The arguments `videoRTPPort` and `audioRTPPort` of the call of
`startFFmpegRTP` at main.go:2861, when `initializeWebRTCSession` reaches it. -/
def encoderPorts (env : InitEnv) : Option (Int × Int) :=
  match findFreePortWithRetry 3 env.videoProbes with
  | none => none
  | some videoPort =>
    match findFreePortWithRetry 3 env.audioProbes with
    | none => none
    | some audioPort =>
      if !env.videoTrackOk then none
      else if !env.addVideoTrackOk then none
      else if !env.audioTrackOk then none
      else if !env.addAudioTrackOk then none
      else some (rtpPort videoPort, rtpPort audioPort)

/-- An environment in which both tracks are added and `startFFmpegRTP` then
fails. -/
def encoderFails : InitEnv where
  videoProbes := probesAt 17
  audioProbes := probesAt 18
  videoTrackOk := true
  addVideoTrackOk := true
  audioTrackOk := true
  addAudioTrackOk := true
  ffmpeg := none
  videoListen := some 1
  audioListen := some 2

/-- A first offer whose remote description is accepted and whose
initialization fails when the encoder is started. -/
def failingOffer : OfferEnv where
  setRemoteOk := true
  windowProbes := [{ windowID := "0x1", width := 1080, height := 1920, err := false }]
  init := encoderFails
  answer := some "v=0 answer"
  setLocalOk := true

/-- An environment in which the two port searches draw the same value 17: the
encoder 4242 starts, the video listener opens and the audio listener, asked for
the same port, does not. -/
def sameDraw : InitEnv where
  videoProbes := probesAt 17
  audioProbes := probesAt 17
  videoTrackOk := true
  addVideoTrackOk := true
  audioTrackOk := true
  addAudioTrackOk := true
  ffmpeg := some 4242
  videoListen := some 1
  audioListen := none

/-! ## Reachable states -/

/-- The state in which `main` starts the window monitor (main.go:690-705): the
initial values, with a window already present at startup recorded as the last
window. -/
def startupState (startTime : Int) (found : FindWindowResult) : State :=
  let initialCount := (getWindowCountAndID found).1
  let initialWindowID := (getWindowCountAndID found).2
  if decide (initialCount > 0) && initialWindowID != "" then
    { initState startTime with lastWindowID := initialWindowID, lastWindowState := true }
  else initState startTime

/-- The states the program reaches from its initial state by the handlers of
this development, each run with arbitrary values read from the environment:
a pass of the window monitor (which calls `handleWindowIDChanged`,
`handleWindowAppeared` or `handleWindowDisappeared`), the signaling handler up
to the construction of the session (with its connect-time window check), its
ready-flag branch, its window-wait failure path, the handling of one inbound
message, the session cleanup with the deferred calls of the handler, the two
peer-connection state callbacks and the cleanup endpoint. -/
inductive Reachable : State → Prop
  | init (startTime : Int) : Reachable (initState startTime)
  | startup (startTime : Int) (found : FindWindowResult) :
      Reachable (startupState startTime found)
  | tick (t : Tick) (s : State) : Reachable s → Reachable (handleWindowStateChange t s).1
  | signal (env : SignalEnv) (s : State) : Reachable s → Reachable (signalHandler env s).1
  | connectCheck (found : FindWindowResult) (now : Int) (s : State) :
      Reachable s → Reachable (connectTimeWindowCheck found now s)
  | readyFlag (pc : PeerConnection) (writeOk : Bool) (s : State) :
      Reachable s → Reachable (readyFlagBranch pc writeOk s).1
  | waitFailed (statusWrites : List Msg) (sessionID : String) (conn : Conn) (s : State) :
      Reachable s → Reachable (windowWaitFailed statusWrites sessionID conn s).1
  | message (parsed : Option (List (String × JSONValue))) (env : OfferEnv) (conn : Conn)
      (pc : PeerConnection) (s : State) :
      Reachable s → Reachable (handleMessage parsed env conn pc s).1
  | cleanup (found : FindWindowResult) (now : Int) (writeOk : Bool) (s : State) :
      Reachable s → Reachable (cleanupWebRTCSession found now writeOk s).1
  | handlerReturn (sessionID : String) (conn : Conn) (s : State) :
      Reachable s → Reachable (signalReturn sessionID conn s).1
  | iceState (st : ICEConnectionState) (found : FindWindowResult) (now : Int) (writeOk : Bool)
      (s : State) : Reachable s → Reachable (onICEConnectionStateChange st found now writeOk s).1
  | connState (st : PeerConnectionState) (found : FindWindowResult) (now : Int) (writeOk : Bool)
      (s : State) : Reachable s → Reachable (onConnectionStateChange st found now writeOk s).1
  | cleanupEndpoint (s : State) : Reachable s → Reachable (cleanupActiveSession s).1

/-- The ready flag, the window id stored with it and the confirmation
counter. -/
def flagsOf (s : State) : Bool × String × Nat :=
  (s.phoneReconnectedAndReady, s.reconnectedWindowID, s.windowStateCheckCount)

/-- The ready flag and its window id agree: the flag is set exactly when the
id is non-empty. -/
def flagAgrees (s : State) : Prop :=
  s.phoneReconnectedAndReady = true ↔ s.reconnectedWindowID ≠ ""

/-! ## AirPlay state: the size history -/

/-- The struct `SizeChangeEvent` (main.go:1820). -/
structure SizeChangeEvent where
  Timestamp : Int
  OldSize : String
  NewSize : String
  Reason : String
  Connected : Bool
deriving DecidableEq, Repr

/-- The struct `AirPlayState` (main.go:1810). -/
structure AirPlayState where
  Connected : Bool
  WindowSize : String
  LastUpdate : Int
  ConnectionStart : Int
  StreamingActive : Bool
  LastSizeChange : Int
  SizeHistory : List SizeChangeEvent
deriving DecidableEq, Repr

/-- The initial value of the variable `airPlayState` (main.go:50): the zero
struct with an empty history. -/
def airPlayState : AirPlayState where
  Connected := false
  WindowSize := ""
  LastUpdate := zeroTime
  ConnectionStart := zeroTime
  StreamingActive := false
  LastSizeChange := zeroTime
  SizeHistory := []

/-- The function `updateAirPlayState` (main.go:1828), run at instant `now` on
the value `a` of `airPlayState`. -/
def updateAirPlayState (newSize reason : String) (now : Int) (a : AirPlayState) : AirPlayState :=
  let oldSize := a.WindowSize
  let a1 :=
    if oldSize ≠ newSize then
      let event : SizeChangeEvent :=
        { Timestamp := now, OldSize := oldSize, NewSize := newSize, Reason := reason,
          Connected := a.Connected }
      let history := a.SizeHistory ++ [event]
      let history :=
        if history.length > 50 then history.drop (history.length - 50) else history
      { a with SizeHistory := history, LastSizeChange := now }
    else a
  { a1 with
    WindowSize := newSize
    LastUpdate := now
    StreamingActive := (newSize != "" && newSize != "1x1") }

/-- The arguments of one call of `updateAirPlayState` and its instant. -/
structure UpdateCall where
  newSize : String
  reason : String
  now : Int
deriving DecidableEq, Repr

/-- A sequence of calls of `updateAirPlayState`, in call order. -/
def runUpdates : List UpdateCall → AirPlayState → AirPlayState
  | [], a => a
  | c :: cs, a => runUpdates cs (updateAirPlayState c.newSize c.reason c.now a)

/-- The change events of a sequence of calls in the words of the
specification, in call order: one event for each call whose new size differs
from the window size current at the call, which is `current` at the first call
and the new size of the call before at every other. -/
def changeEvents (connected : Bool) : String → List UpdateCall → List SizeChangeEvent
  | _, [] => []
  | current, c :: cs =>
    if current ≠ c.newSize then
      { Timestamp := c.now, OldSize := current, NewSize := c.newSize, Reason := c.reason,
        Connected := connected } :: changeEvents connected c.newSize cs
    else changeEvents connected c.newSize cs

/-- The most recent `n` elements of a list. -/
def lastN (n : Nat) (l : List SizeChangeEvent) : List SizeChangeEvent := l.drop (l.length - n)

/-- Each event starts from the size the event before it ended with. -/
def linked (a b : SizeChangeEvent) : Prop := b.OldSize = a.NewSize

/-- Sixty calls that alternate between two sizes. -/
def sixtyCalls : List UpdateCall :=
  (List.range 60).map (fun i =>
    { newSize := if i % 2 = 0 then "1080x1920" else "1x1", reason := "window_detected",
      now := (i : Int) * second })

/-! ## Recording -/

/-- The package-level variables of recording.go:16-21. -/
structure Recording where
  recordingCmd : Option Cmd
  recordingFile : String
  recordingStart : Int
deriving DecidableEq, Repr

/-- The constant `recordsDir` (recording.go:23). -/
def recordsDir : String := "/var/airplay-records"

/-- The error values `StartRecording` and `StopRecording` return; `cause` is the
text of the wrapped error, and the error of `Process.Kill` is returned as it
is. -/
inductive RecordingError where
  | alreadyInProgress
  | mkdirFailed (cause : String)
  | ffmpegFailed (cause : String)
  | noActiveRecording
  | killFailed (cause : String)
deriving DecidableEq, Repr

/-- The text `err.Error()` of an error value. -/
def RecordingError.message : RecordingError → String
  | RecordingError.alreadyInProgress => "Recording already in progress"
  | RecordingError.mkdirFailed cause => "failed to create records dir: " ++ cause
  | RecordingError.ffmpegFailed cause => "failed to start ffmpeg: " ++ cause
  | RecordingError.noActiveRecording => "No active recording to stop"
  | RecordingError.killFailed cause => cause

/-- The elements of a path between its slashes (`strings.Split(path, "/")` on
the characters). -/
def splitSlash : List Char → List (List Char)
  | [] => [[]]
  | c :: cs =>
    if c = '/' then [] :: splitSlash cs
    else
      match splitSlash cs with
      | [] => [[c]]
      | e :: es => (c :: e) :: es

/-- The elements joined by slashes. -/
def joinSlash : List (List Char) → List Char
  | [] => []
  | [e] => e
  | e :: es => e ++ '/' :: joinSlash es

/-- The rules of `filepath.Clean` on the elements of a path, with the elements
kept so far in `out`, last first: empty and `.` elements are dropped, a `..`
removes the element before it, and a `..` with nothing before it is dropped in
a rooted path and kept otherwise. -/
def cleanElems (rooted : Bool) : List (List Char) → List (List Char) → List (List Char)
  | out, [] => out.reverse
  | out, e :: es =>
    if e = [] ∨ e = ['.'] then cleanElems rooted out es
    else if e = ['.', '.'] then
      match out with
      | top :: out1 =>
        if top = ['.', '.'] then cleanElems rooted (e :: out) es
        else cleanElems rooted out1 es
      | [] => if rooted then cleanElems rooted [] es else cleanElems rooted [e] es
    else cleanElems rooted (e :: out) es

/-- The library function `filepath.Clean` on Unix paths. -/
def filepathClean (path : String) : String :=
  if path = "" then "."
  else
    let rooted := decide (path.toList.head? = some '/')
    let out := cleanElems rooted [] (splitSlash path.toList)
    if rooted then String.mk ('/' :: joinSlash out)
    else if out = [] then "."
    else String.mk (joinSlash out)

/-- The library function `filepath.Join` on Unix paths: leading empty elements
are ignored, the rest is joined by slashes and cleaned. -/
def filepathJoin (elem : List String) : String :=
  match elem.dropWhile (fun e => e == "") with
  | [] => ""
  | rest => filepathClean (String.intercalate "/" rest)

/-- The library function `filepath.Ext`: the suffix of the last element of the
path that begins at its last dot, empty when it has no dot. -/
def filepathExt (path : String) : String :=
  match (splitSlash path.toList).getLast? with
  | none => ""
  | some last =>
    if '.' ∈ last then String.mk ('.' :: (last.reverse.takeWhile (fun c => c != '.')).reverse)
    else ""

/-- Whether the path lies inside the records directory: it continues
`recordsDir` by a slash and at least one more character. -/
def insideRecordsDir (path : String) : Bool :=
  (recordsDir.toList ++ ['/']).isPrefixOf path.toList
    && decide ((recordsDir.toList ++ ['/']).length < path.toList.length)

/-- What `StartRecording` reads from its environment: the formatted time of
recording.go:40, the error of `os.MkdirAll` (none when it succeeds), the result
of `cmd.Start` (the pid, or the text of the error) and the instant of
recording.go:65. -/
structure StartEnv where
  stamp : String
  mkdir : Option String
  start : Except String Nat
  now : Int

/-- The function `StartRecording` (recording.go:32).  The last component is the
output path of the encoder command on which `cmd.Start` is called. -/
def StartRecording (filename : String) (env : StartEnv) (r : Recording) :
    Recording × Option RecordingError × Option String :=
  if r.recordingCmd.isSome then (r, some RecordingError.alreadyInProgress, none)
  else
    let filename := if filename = "" then "airplay-" ++ env.stamp ++ ".mp4" else filename
    match env.mkdir with
    | some cause => (r, some (RecordingError.mkdirFailed cause), none)
    | none =>
      let outPath := filepathJoin [recordsDir, filename]
      match env.start with
      | Except.error cause => (r, some (RecordingError.ffmpegFailed cause), some outPath)
      | Except.ok pid =>
        ({ recordingCmd := some { Process := some pid }
           recordingFile := filename
           recordingStart := env.now }, none, some outPath)

/-- The function `StopRecording` (recording.go:70), run at instant `now`; `kill`
is the error of `Process.Kill` (none when it succeeds).  The result is the new
state, the file, the duration and the error. -/
def StopRecording (now : Int) (kill : Option String) (r : Recording) :
    Recording × String × Int × Option RecordingError :=
  match r.recordingCmd with
  | none => (r, "", 0, some RecordingError.noActiveRecording)
  | some _ =>
    ({ r with recordingCmd := none, recordingFile := "" }, r.recordingFile,
      timeSince now r.recordingStart, kill.map RecordingError.killFailed)

/-- The handler of `POST /api/record/start` (main.go:775): the new state, the
status code, the error text or the file of the reply, and the output path handed
to the encoder.  `body` is the `filename` bound from the request, none when
the binding fails. -/
def recordStart (body : Option String) (env : StartEnv) (r : Recording) :
    Recording × Nat × String × Option String :=
  match body with
  | none => (r, 400, "Invalid request", none)
  | some filename =>
    let x := StartRecording filename env r
    match x.2.1 with
    | some err =>
      if err.message = "Recording already in progress" then (x.1, 409, err.message, x.2.2)
      else (x.1, 500, "Failed to start recording", x.2.2)
    | none => (x.1, 200, filename, x.2.2)

/-- The handler of `POST /api/record/stop` (main.go:798): the new state, the
status code and the error text or the file of the reply. -/
def recordStop (now : Int) (kill : Option String) (r : Recording) : Recording × Nat × String :=
  let x := StopRecording now kill r
  match x.2.2.2 with
  | some err => (x.1, 400, err.message)
  | none => (x.1, 200, x.2.1)

/-- The path the handlers of `GET` and `DELETE /api/records/:filename`
(main.go:821, 831) serve or remove, none when they reply 400; the router gives
them one path element as `filename`. -/
def recordFilePath (filename : String) : Option String :=
  if filename = "" ∨ filename.utf8ByteSize > 128 ∨ filepathExt filename ≠ ".mp4" then none
  else some (filepathJoin [recordsDir, filename])

/-- An example recording state: no recording. -/
def noRecording : Recording where
  recordingCmd := none
  recordingFile := ""
  recordingStart := zeroTime

/-- An example recording state: the encoder 77 records clip.mp4 since instant
0. -/
def activeRecording : Recording where
  recordingCmd := some { Process := some 77 }
  recordingFile := "clip.mp4"
  recordingStart := 0

/-- An environment in which the records directory exists and the encoder 77
starts. -/
def startOk : StartEnv where
  stamp := "20250101-120000"
  mkdir := none
  start := Except.ok 77
  now := 0

/-- A single path element other than `.` and `..`: a non-empty name without a
slash. -/
def plainName (name : String) : Bool :=
  !name.toList.contains '/' && name != "" && name != "." && name != ".."

/-! ## The write mutex -/

/-- What one goroutine does to `websocketWriteMutex` and to a connection, in
program order: `Lock`, `Unlock`, and the start and the end of one call of
`WriteMessage`. -/
inductive SyncEvent where
  | lock
  | unlock
  | writeBegin (conn : Conn) (msg : Msg)
  | writeEnd (conn : Conn)
deriving DecidableEq, Repr

/-- One direct call of `conn.WriteMessage`. -/
def writeMessage (conn : Conn) (msg : Msg) : List SyncEvent :=
  [SyncEvent.writeBegin conn msg, SyncEvent.writeEnd conn]

/-- The function `safeWriteWebSocket` (main.go:233): the write between `Lock`
and the deferred `Unlock`. -/
def safeWriteWebSocket (conn : Conn) (msg : Msg) : List SyncEvent :=
  SyncEvent.lock :: writeMessage conn msg ++ [SyncEvent.unlock]

/-- The writes of an effect trace at the level of the mutex, for a code path
whose writes of the messages `safe` go through `safeWriteWebSocket` (or stand
between `Lock` and `Unlock`) and whose other writes call `WriteMessage`
directly. -/
def syncTrace (safe : Msg → Bool) : List Effect → List SyncEvent
  | [] => []
  | Effect.wsWrite conn msg :: es =>
    (if safe msg then safeWriteWebSocket conn msg else writeMessage conn msg) ++ syncTrace safe es
  | _ :: es => syncTrace safe es

/-- The function `notifyWebSocketClient` (main.go:3022) at the level of the
mutex: its write goes through `safeWriteWebSocket` (main.go:3036). -/
def Sync.notifyWebSocketClient (message : Msg) (writeOk : Bool) (s : State) : List SyncEvent :=
  syncTrace (fun _ => true) (AppleTV.notifyWebSocketClient message writeOk s).2

/-- The function `handleWindowAppeared` (main.go:2632) at the level of the
mutex: its write stands between `Lock` and `Unlock` (main.go:2685-2691). -/
def Sync.handleWindowAppeared (now : Int) (s : State) : List SyncEvent :=
  syncTrace (fun _ => true) (AppleTV.handleWindowAppeared now s).2

/-- The callback registered with `OnICECandidate` (main.go:1182) for a non-nil
candidate: the ice-candidate message goes through `safeWriteWebSocket`
(main.go:1205). -/
def Sync.onICECandidate (conn : Conn) (candidate : String) : List SyncEvent :=
  safeWriteWebSocket conn (Msg.ice_candidate candidate)

/-- The construction part of the signaling handler at the level of the mutex:
its error replies call `conn.WriteMessage` directly (main.go:1012, 1027,
1060). -/
def Sync.signalConstruct (env : SignalEnv) (s : State) : List SyncEvent :=
  syncTrace (fun _ => false) (AppleTV.signalConstruct env s).2.1

/-- The offer case of the message loop at the level of the mutex: the answer
goes through `safeWriteWebSocket` (main.go:1372), the error replies call
`conn.WriteMessage` directly (main.go:1313, 1331, 1338, 1351, 1362). -/
def Sync.handleOffer (env : OfferEnv) (conn : Conn) (pc : PeerConnection) (s : State) :
    List SyncEvent :=
  syncTrace (fun m => match m with
    | Msg.answer _ => true
    | _ => false) (AppleTV.handleOffer env conn pc s).2.1

/-- The test `err == nil && windowID != "" && width >= 100 && height >= 100` of
main.go:300. -/
def usableWindow (r : FindWindowResult) : Bool :=
  !r.err && r.windowID != "" && decide (r.width ≥ 100) && decide (r.height ≥ 100)

/-- One pass of the loop of `waitForUxPlayWindow` (main.go:297-334): the result
of its window probe, the instant of the pass, the text of the remaining
seconds, and whether `ReadMessage` returned an error other than a timeout. -/
structure WaitPass where
  found : FindWindowResult
  now : Int
  remaining : String
  readError : Bool
deriving DecidableEq, Repr

/-- The loop of `waitForUxPlayWindow` at the level of the mutex, over the passes
made before the timeout; `lastNotification` is the local variable of that
name.  The status on success goes through `safeWriteWebSocket` (main.go:305),
the periodic status calls `conn.WriteMessage` directly (main.go:316). -/
def Sync.waitLoop (conn : Conn) : Int → List WaitPass → List SyncEvent
  | _, [] => []
  | lastNotification, p :: ps =>
    if usableWindow p.found then
      safeWriteWebSocket conn (Msg.status "AirPlay window found, starting WebRTC...")
    else
      let due := decide (timeSince p.now lastNotification ≥ 5 * second)
      (if due then
          writeMessage conn
            (Msg.status ("Still waiting for AirPlay connection... (" ++ p.remaining
              ++ "s remaining)"))
        else [])
      ++ (if p.readError then []
          else Sync.waitLoop conn (if due then p.now else lastNotification) ps)

/-- The function `waitForUxPlayWindow` (main.go:287) at the level of the mutex:
the initial status goes through `safeWriteWebSocket` (main.go:295). -/
def Sync.waitForUxPlayWindow (conn : Conn) (passes : List WaitPass) : List SyncEvent :=
  safeWriteWebSocket conn (Msg.status "Waiting for AirPlay connection...")
    ++ Sync.waitLoop conn zeroTime passes

/-- Whether every write of a goroutine is performed while it holds the mutex:
the scan keeps whether the mutex is held and whether a write is in
progress. -/
def disciplinedFrom : Bool → Bool → List SyncEvent → Bool
  | _, _, [] => true
  | held, writing, SyncEvent.lock :: es => !held && disciplinedFrom true writing es
  | held, writing, SyncEvent.unlock :: es => held && !writing && disciplinedFrom false writing es
  | held, writing, SyncEvent.writeBegin _ _ :: es =>
    held && !writing && disciplinedFrom held true es
  | held, writing, SyncEvent.writeEnd _ :: es => held && writing && disciplinedFrom held false es

/-- Every write of the goroutine is performed while it holds the mutex. -/
def disciplined (es : List SyncEvent) : Bool := disciplinedFrom false false es

/-- The mutex and the writes in progress while two goroutines run: which of the
two holds the mutex, the connection each is writing to, and whether two
writes on one connection were in progress at the same time. -/
structure SyncState where
  holder : Option Bool
  writingA : Option Conn
  writingB : Option Conn
  overlapped : Bool
deriving DecidableEq, Repr

/-- Nothing held, nothing in progress. -/
def SyncState.init : SyncState where
  holder := none
  writingA := none
  writingB := none
  overlapped := false

/-- One event of goroutine `g` (false for the first, true for the second):
`none` when the goroutine cannot take the step (the mutex is held by the
other one, or it unlocks a mutex it does not hold). -/
def syncStep (g : Bool) (e : SyncEvent) (st : SyncState) : Option SyncState :=
  match e with
  | SyncEvent.lock => if st.holder = none then some { st with holder := some g } else none
  | SyncEvent.unlock => if st.holder = some g then some { st with holder := none } else none
  | SyncEvent.writeBegin conn _ =>
    if g then
      some { st with writingB := some conn
                     overlapped := st.overlapped || decide (st.writingA = some conn) }
    else
      some { st with writingA := some conn
                     overlapped := st.overlapped || decide (st.writingB = some conn) }
  | SyncEvent.writeEnd _ =>
    if g then some { st with writingB := none } else some { st with writingA := none }

/-- The run of a schedule: each element names the goroutine that takes its next
event.  The result is `none` when the schedule asks for a step that cannot be
taken. -/
def runSchedule : List Bool → List SyncEvent → List SyncEvent → SyncState → Option SyncState
  | [], _, _, st => some st
  | false :: sch, e :: a, b, st => (syncStep false e st).bind (runSchedule sch a b)
  | true :: sch, a, e :: b, st => (syncStep true e st).bind (runSchedule sch a b)
  | _, _, _, _ => none

/-- Two goroutines can have writes on one connection in progress at the same
time. -/
def concurrentWrites (a b : List SyncEvent) : Prop :=
  ∃ sch st, runSchedule sch a b SyncState.init = some st ∧ st.overlapped = true

/-- A first pass of the wait loop that finds no window, 10 s after the epoch. -/
def emptyPass : WaitPass where
  found := { windowID := "", width := 0, height := 0, err := false }
  now := 10 * second
  remaining := "60"
  readError := false

/-- The state in which the handler waits for a window: it built its session
on connection 1 while the monitor still records window "0x1", which has just
vanished. -/
def waitingState : State :=
  (signalHandler goodEnv { idleState with lastWindowState := true, lastWindowID := "0x1" }).1

/-- The write a mutex-level event starts, as an effect. -/
def SyncEvent.toEffect : SyncEvent → Option Effect
  | SyncEvent.writeBegin conn msg => some (Effect.wsWrite conn msg)
  | _ => none

/-! ## The invocation that holds the handler mutex -/

/-- The local variables `sessionID`, `conn` and `peerConnection` (main.go:1068,
952, 1053) of an invocation of the signaling handler that has built its
session and has not returned yet. -/
structure Invocation where
  sessionID : String
  conn : Conn
  pc : PeerConnection
deriving DecidableEq, Repr

/-- The invocation that goes on running after `signalHandler`: only the outcome
`constructed` leaves the handler in progress; after `blocked` nothing of it has
run, after every other outcome it has returned. -/
def SetupOutcome.invocation : SetupOutcome → Option Invocation
  | SetupOutcome.constructed sessionID conn pc =>
    some { sessionID := sessionID, conn := conn, pc := pc }
  | _ => none

/-- The executions of the program, with the invocation of the signaling handler
that is in progress between two steps (`none` when there is none).  The monitor
tick, the two peer-connection callbacks and the cleanup endpoint run at any
time.  A request is served from its entry to the construction of the session
when no invocation is in progress; a request that arrives while one is in
progress waits in `webrtcMutex.Lock()` (main.go:928) and is the `request` step
taken after that invocation has returned.  The invocation in progress runs its
ready-flag branch, handles a message, takes the window-wait failure return, or
leaves its message loop on a close error and returns; these steps use its own
`sessionID`, `conn` and `peerConnection`. -/
inductive Serving : State → Option Invocation → Prop
  | init (startTime : Int) : Serving (initState startTime) none
  | startup (startTime : Int) (found : FindWindowResult) :
      Serving (startupState startTime found) none
  | tick (t : Tick) (s : State) (i : Option Invocation) :
      Serving s i → Serving (handleWindowStateChange t s).1 i
  | iceState (st : ICEConnectionState) (found : FindWindowResult) (now : Int) (writeOk : Bool)
      (s : State) (i : Option Invocation) :
      Serving s i → Serving (onICEConnectionStateChange st found now writeOk s).1 i
  | connState (st : PeerConnectionState) (found : FindWindowResult) (now : Int) (writeOk : Bool)
      (s : State) (i : Option Invocation) :
      Serving s i → Serving (onConnectionStateChange st found now writeOk s).1 i
  | cleanupEndpoint (s : State) (i : Option Invocation) :
      Serving s i → Serving (cleanupActiveSession s).1 i
  | request (env : SignalEnv) (s : State) :
      Serving s none → Serving (signalHandler env s).1 (signalHandler env s).2.2.invocation
  | readyFlag (writeOk : Bool) (s : State) (i : Invocation) :
      Serving s (some i) → Serving (readyFlagBranch i.pc writeOk s).1 (some i)
  | waitFailed (statusWrites : List Msg) (s : State) (i : Invocation) :
      Serving s (some i) → Serving (windowWaitFailed statusWrites i.sessionID i.conn s).1 none
  | message (parsed : Option (List (String × JSONValue))) (env : OfferEnv) (s : State)
      (i : Invocation) :
      Serving s (some i) →
        Serving (handleMessage parsed env i.conn i.pc s).1
          (some { i with pc := (handleMessage parsed env i.conn i.pc s).2.2 })
  | loopEnd (found : FindWindowResult) (now : Int) (writeOk : Bool) (s : State)
      (i : Invocation) :
      Serving s (some i) →
        Serving (messageLoop i.sessionID i.conn [ReadResult.closeError found now writeOk]
          i.pc s).1 none

/-- An environment of a second request: connection 2 and peer connection 2,
9 s after the epoch. -/
def secondEnv : SignalEnv where
  reserveAt := 9000000000
  upgrade := some 2
  found := { windowID := "", width := 0, height := 0, err := false }
  checkAt := 9000000000
  defaultCodecsOk := true
  h264Ok := true
  newPeerConnection := some { ref := 2, senders := 0 }
  sessionAt := 9000000000
  context := 2
  cancel := 2
  startAt := 9000000000

/-- The mutex flag and the slot: what the admission step reads. -/
def guardOf (s : State) : Bool × Option WebRTCSession := (s.webrtcMutexHeld, s.activeSession)

/-! ## Executions within the startup grace -/

/-- The states the program reaches from its start by the handlers of
`Reachable` when every clock reading that a handler compares with `startTime`
(main.go:991, 2640, 2716) is taken less than 30 s after it: the passes of the
window monitor and the connect-time window check of the signaling handler.  The
other handlers do not read `startTime`. -/
inductive ReachableInGrace : State → Prop
  | init (startTime : Int) : ReachableInGrace (initState startTime)
  | startup (startTime : Int) (found : FindWindowResult) :
      ReachableInGrace (startupState startTime found)
  | tick (t : Tick) (s : State) :
      ReachableInGrace s → timeSince t.now s.startTime < 30 * second →
        ReachableInGrace (handleWindowStateChange t s).1
  | signal (env : SignalEnv) (s : State) :
      ReachableInGrace s → timeSince env.checkAt s.startTime < 30 * second →
        ReachableInGrace (signalHandler env s).1
  | connectCheck (found : FindWindowResult) (now : Int) (s : State) :
      ReachableInGrace s → timeSince now s.startTime < 30 * second →
        ReachableInGrace (connectTimeWindowCheck found now s)
  | readyFlag (pc : PeerConnection) (writeOk : Bool) (s : State) :
      ReachableInGrace s → ReachableInGrace (readyFlagBranch pc writeOk s).1
  | waitFailed (statusWrites : List Msg) (sessionID : String) (conn : Conn) (s : State) :
      ReachableInGrace s → ReachableInGrace (windowWaitFailed statusWrites sessionID conn s).1
  | message (parsed : Option (List (String × JSONValue))) (env : OfferEnv) (conn : Conn)
      (pc : PeerConnection) (s : State) :
      ReachableInGrace s → ReachableInGrace (handleMessage parsed env conn pc s).1
  | cleanup (found : FindWindowResult) (now : Int) (writeOk : Bool) (s : State) :
      ReachableInGrace s → ReachableInGrace (cleanupWebRTCSession found now writeOk s).1
  | handlerReturn (sessionID : String) (conn : Conn) (s : State) :
      ReachableInGrace s → ReachableInGrace (signalReturn sessionID conn s).1
  | iceState (st : ICEConnectionState) (found : FindWindowResult) (now : Int) (writeOk : Bool)
      (s : State) :
      ReachableInGrace s → ReachableInGrace (onICEConnectionStateChange st found now writeOk s).1
  | connState (st : PeerConnectionState) (found : FindWindowResult) (now : Int) (writeOk : Bool)
      (s : State) :
      ReachableInGrace s → ReachableInGrace (onConnectionStateChange st found now writeOk s).1
  | cleanupEndpoint (s : State) : ReachableInGrace s → ReachableInGrace (cleanupActiveSession s).1

/-- The result of a window probe that finds the usable window "0x1". -/
def windowOne : FindWindowResult :=
  { windowID := "0x1", width := 1080, height := 1920, err := false }

/-- A first request, 7 s after the epoch, whose connect-time probe finds window
"0x1"; everything else as in `goodEnv`. -/
def graceEnv : SignalEnv := { goodEnv with found := windowOne }

/-- The state 7 s after a start at instant 0 with window "0x1" present: the
handler of the request `graceEnv` has built session "session_7" on
connection 1 and holds `webrtcMutex`. -/
def graceState : State := (signalHandler graceEnv (startupState 0 windowOne)).1

/-! ## Theorems: the session slot -/

theorem connectTimeWindowCheck_activeSession (found : FindWindowResult) (now : Int) (s : State) :
    (connectTimeWindowCheck found now s).activeSession = s.activeSession := by
  unfold connectTimeWindowCheck
  simp only []
  split_ifs <;> rfl

/-- Claim C2 (the code departs from it): after a reservation, the handler
returns with the placeholder still in the slot when the WebSocket upgrade, the
default-codec registration or the H.264 registration fails, so that the next
connection is rejected with a conflict; only the failure of the
peer-connection creation clears the slot. -/
theorem signalHandler_failure_keeps_placeholder (env next : SignalEnv) (s : State)
    (h : s.activeSession = none) :
    (((signalHandler env s).2.2 = SetupOutcome.upgradeFailed
        ∨ (signalHandler env s).2.2 = SetupOutcome.defaultCodecsFailed
        ∨ (signalHandler env s).2.2 = SetupOutcome.h264Failed) →
      (signalHandler env s).1.activeSession = some (reservedSession env.reserveAt)
        ∧ (signalHandler next (signalHandler env s).1).2.2 = SetupOutcome.rejected)
    ∧ ((signalHandler env s).2.2 = SetupOutcome.peerConnectionFailed →
      (signalHandler env s).1.activeSession = none) := by
  have hc := connectTimeWindowCheck_activeSession env.found env.checkAt
  have key : ∀ st : State, st.activeSession = some (reservedSession env.reserveAt) →
      st.webrtcMutexHeld = false → (signalHandler next st).2.2 = SetupOutcome.rejected := by
    intro st hst hm
    simp [signalHandler, signalAdmission, hst, hm]
  cases hm : s.webrtcMutexHeld with
  | true =>
    have e : signalHandler env s = (s, [], SetupOutcome.blocked) := by
      simp [signalHandler, signalAdmission, hm]
    rw [e]
    exact ⟨fun hp => by simp at hp, fun hp => by simp at hp⟩
  | false =>
    cases hu : env.upgrade with
    | none =>
      have e : signalHandler env s
          = ({ s with activeSession := some (reservedSession env.reserveAt),
                      webrtcMutexHeld := false },
              [], SetupOutcome.upgradeFailed) := by
        simp [signalHandler, signalAdmission, signalConstruct, h, hu, hm]
      rw [e]
      exact ⟨fun _ => ⟨rfl, key _ rfl rfl⟩, fun hp => by simp at hp⟩
    | some conn =>
      by_cases hd : env.defaultCodecsOk = true
      · by_cases hh : env.h264Ok = true
        · cases hp : env.newPeerConnection with
          | none =>
            simp [signalHandler, signalAdmission, signalConstruct, h, hu, hd, hh, hp, hm]
          | some pc =>
            simp [signalHandler, signalAdmission, signalConstruct, h, hu, hd, hh, hp, hc, hm]
        · simp only [Bool.not_eq_true] at hh
          have e : (signalHandler env s).1.activeSession = some (reservedSession env.reserveAt)
              ∧ (signalHandler env s).1.webrtcMutexHeld = false
              ∧ (signalHandler env s).2.2 = SetupOutcome.h264Failed := by
            simp [signalHandler, signalAdmission, signalConstruct, h, hu, hd, hh, hc, hm]
          refine ⟨fun _ => ⟨e.1, key _ e.1 e.2.1⟩, fun hp => ?_⟩
          rw [e.2.2] at hp
          simp at hp
      · simp only [Bool.not_eq_true] at hd
        have e : (signalHandler env s).1.activeSession = some (reservedSession env.reserveAt)
            ∧ (signalHandler env s).1.webrtcMutexHeld = false
            ∧ (signalHandler env s).2.2 = SetupOutcome.defaultCodecsFailed := by
          simp [signalHandler, signalAdmission, signalConstruct, h, hu, hd, hc, hm]
        refine ⟨fun _ => ⟨e.1, key _ e.1 e.2.1⟩, fun hp => ?_⟩
        rw [e.2.2] at hp
        simp at hp

theorem signalHandler_failure_keeps_placeholder_witness :
    (signalHandler plainGetEnv idleState).1.activeSession
        = some (reservedSession plainGetEnv.reserveAt)
      ∧ (signalHandler plainGetEnv (signalHandler plainGetEnv idleState).1).2.2
        = SetupOutcome.rejected :=
  (signalHandler_failure_keeps_placeholder plainGetEnv plainGetEnv idleState rfl).1
    (Or.inl (by simp [signalHandler, signalAdmission, signalConstruct, idleState, initState,
      plainGetEnv]))

/-! ## Theorems: confirmation filtering -/

theorem handleWindowIDChanged_window (id : String) (now : Int) (w : Bool) (s : State) :
    (handleWindowIDChanged id now w s).1.lastWindowState = s.lastWindowState
      ∧ (handleWindowIDChanged id now w s).1.lastWindowID = s.lastWindowID
      ∧ (handleWindowIDChanged id now w s).1.windowStateCheckCount = s.windowStateCheckCount := by
  obtain ⟨as, pw, lws, lwid, c, awc, are, laa, pr, rw, st, wm⟩ := s
  cases as <;> cases awc <;> cases w <;> cases are <;>
    simp [handleWindowIDChanged, notifyWebSocketClient, hasLiveMedia] <;>
    split_ifs <;> simp

theorem handleWindowAppeared_window (now : Int) (s : State) :
    (handleWindowAppeared now s).1.lastWindowState = s.lastWindowState
      ∧ (handleWindowAppeared now s).1.lastWindowID = s.lastWindowID
      ∧ (handleWindowAppeared now s).1.windowStateCheckCount = s.windowStateCheckCount := by
  obtain ⟨as, pw, lws, lwid, c, awc, are, laa, pr, rw, st, wm⟩ := s
  cases pw <;> cases awc <;>
    simp [handleWindowAppeared] <;>
    split_ifs <;> simp

theorem handleWindowDisappeared_window (w : Bool) (s : State) :
    (handleWindowDisappeared w s).1.lastWindowState = s.lastWindowState
      ∧ (handleWindowDisappeared w s).1.lastWindowID = ""
      ∧ (handleWindowDisappeared w s).1.windowStateCheckCount = s.windowStateCheckCount := by
  obtain ⟨as, pw, lws, lwid, c, awc, are, laa, pr, rw, st, wm⟩ := s
  cases as <;> cases awc <;> cases w <;>
    simp [handleWindowDisappeared, notifyWebSocketClient]

theorem handleWindowStateChange_window (t : Tick) (s : State) :
    (idChangeObserved t s = true
        ∧ (handleWindowStateChange t s).1.lastWindowState = true
        ∧ (handleWindowStateChange t s).1.windowStateCheckCount = 0)
    ∨ (idChangeObserved t s = false ∧ t.present = s.lastWindowState
        ∧ (handleWindowStateChange t s).1.lastWindowState = s.lastWindowState
        ∧ (handleWindowStateChange t s).1.windowStateCheckCount = 0)
    ∨ (idChangeObserved t s = false ∧ t.present = !s.lastWindowState
        ∧ s.windowStateCheckCount + 1 < 5
        ∧ (handleWindowStateChange t s).1.lastWindowState = s.lastWindowState
        ∧ (handleWindowStateChange t s).1.windowStateCheckCount = s.windowStateCheckCount + 1)
    ∨ (idChangeObserved t s = false ∧ t.present = !s.lastWindowState
        ∧ 5 ≤ s.windowStateCheckCount + 1
        ∧ (handleWindowStateChange t s).1.lastWindowState = t.present
        ∧ (handleWindowStateChange t s).1.windowStateCheckCount = 0) := by
  unfold handleWindowStateChange idChangeObserved Tick.present Tick.windowID
  generalize getWindowCountAndID t.found = obs
  obtain ⟨cnt, id⟩ := obs
  obtain ⟨as, pw, lws, lwid, c, awc, are, laa, pr, rw, st, wm⟩ := s
  simp only []
  by_cases hp : cnt > 0 <;> cases lws <;> by_cases h1 : lwid = "" <;> by_cases h2 : id = ""
    <;> by_cases h3 : lwid = id <;> by_cases h4 : c + 1 < 5
    <;> simp [hp, h1, h2, h3, h4, handleWindowIDChanged_window, handleWindowAppeared_window,
          handleWindowDisappeared_window, WINDOW_STATE_CONFIRMATION_CHECKS]
    <;> omega

theorem runTicks_append_state (l : List Tick) (t : Tick) (s : State) :
    (runTicks (l ++ [t]) s).1 = (handleWindowStateChange t (runTicks l s).1).1 := by
  induction l generalizing s with
  | nil => simp [runTicks]
  | cons a l ih => simp [runTicks, ih]

theorem stateAfter_zero (ts : List Tick) (s : State) : stateAfter ts s 0 = s := by
  simp [stateAfter, runTicks]

theorem stateAfter_succ (ts : List Tick) (s : State) (n : Nat) (t : Tick)
    (ht : ts[n]? = some t) :
    stateAfter ts s (n + 1) = (handleWindowStateChange t (stateAfter ts s n)).1 := by
  unfold stateAfter
  rw [List.take_succ, ht]
  exact runTicks_append_state _ _ _

theorem streak_counts_opposite_ticks (ts : List Tick) (s0 : State)
    (h0 : s0.windowStateCheckCount = 0) (n : Nat) (hn : n ≤ ts.length) :
    (stateAfter ts s0 n).windowStateCheckCount ≤ n
      ∧ ∀ k, k < (stateAfter ts s0 n).windowStateCheckCount →
          ∃ t, ts[n - 1 - k]? = some t ∧ t.present = !(stateAfter ts s0 n).lastWindowState := by
  induction n with
  | zero => simp [stateAfter_zero, h0]
  | succ n ih =>
    have hlt : n < ts.length := hn
    obtain ⟨ihc, ihk⟩ := ih (Nat.le_of_lt hlt)
    obtain ⟨t, ht⟩ : ∃ t, ts[n]? = some t := ⟨ts[n], by simp⟩
    rw [stateAfter_succ ts s0 n t ht]
    rcases handleWindowStateChange_window t (stateAfter ts s0 n) with
      ⟨_, _, hc⟩ | ⟨_, _, _, hc⟩ | ⟨_, hp, _, hl, hc⟩ | ⟨_, _, _, _, hc⟩
    · simp [hc]
    · simp [hc]
    · rw [hc, hl]
      refine ⟨by omega, fun k hk => ?_⟩
      rcases Nat.eq_zero_or_pos k with rfl | hk0
      · exact ⟨t, by simpa using ht, hp⟩
      · obtain ⟨u, hu, hup⟩ := ihk (k - 1) (by omega)
        refine ⟨u, ?_, hup⟩
        have e : n + 1 - 1 - k = n - 1 - (k - 1) := by omega
        rw [e]; exact hu
    · simp [hc]

/-- Claim C3, as stated, fails: from the initial state, a tick that sees window
"0x1" followed by a tick that sees window "0x2" sets lastWindowState to true
at the second tick, after two observations of presence; and from a state whose
streak already stands at 4, the first tick of a sequence changes it. -/
theorem lastWindowState_changes_without_five_ticks :
    (stateAfter [presentTick "0x1" (100 * second), presentTick "0x2" (101 * second)]
        idleState 1).lastWindowState = false
      ∧ (stateAfter [presentTick "0x1" (100 * second), presentTick "0x2" (101 * second)]
        idleState 2).lastWindowState = true
      ∧ (stateAfter [presentTick "0x1" (100 * second)]
        { idleState with windowStateCheckCount := 4 } 0).lastWindowState = false
      ∧ (stateAfter [presentTick "0x1" (100 * second)]
        { idleState with windowStateCheckCount := 4 } 1).lastWindowState = true := by
  decide

/-- Claim C3, amended: from a starting state whose streak is 0, lastWindowState
changes at tick `n` only if that tick and the four ticks immediately before it
all observed the new presence value, or lastWindowState was false and the tick
observed a usable window whose id differs from a non-empty lastWindowID (the
window-id-change path, which accepts at once). -/
theorem lastWindowState_change_needs_confirmation (ts : List Tick) (s0 : State)
    (h0 : s0.windowStateCheckCount = 0) (n : Nat) (t : Tick) (ht : ts[n]? = some t)
    (hch : (stateAfter ts s0 (n + 1)).lastWindowState ≠ (stateAfter ts s0 n).lastWindowState) :
    (4 ≤ n ∧ ∀ k, k ≤ 4 →
        ∃ u, ts[n - k]? = some u ∧ u.present = (stateAfter ts s0 (n + 1)).lastWindowState)
    ∨ ((stateAfter ts s0 n).lastWindowState = false
        ∧ (stateAfter ts s0 (n + 1)).lastWindowState = true
        ∧ t.present = true ∧ t.windowID ≠ ""
        ∧ (stateAfter ts s0 n).lastWindowID ≠ ""
        ∧ (stateAfter ts s0 n).lastWindowID ≠ t.windowID) := by
  have hlt : n < ts.length := by
    by_contra hge
    rw [List.getElem?_eq_none (Nat.le_of_not_lt hge)] at ht
    exact Option.noConfusion ht
  obtain ⟨ihc, ihk⟩ := streak_counts_opposite_ticks ts s0 h0 n (Nat.le_of_lt hlt)
  rw [stateAfter_succ ts s0 n t ht] at hch ⊢
  rcases handleWindowStateChange_window t (stateAfter ts s0 n) with
    ⟨hid, hl, _⟩ | ⟨_, _, hl, _⟩ | ⟨_, _, _, hl, _⟩ | ⟨_, hp, h5, hl, _⟩
  · right
    rw [hl] at hch
    simp only [idChangeObserved, Bool.and_eq_true, bne_iff_ne, ne_eq] at hid
    obtain ⟨⟨⟨h1, h2⟩, h3⟩, h4⟩ := hid
    refine ⟨?_, hl, h1, h3, h2, h4⟩
    cases hs : (stateAfter ts s0 n).lastWindowState
    · rfl
    · exact absurd hs.symm hch
  · exact absurd hl hch
  · exact absurd hl hch
  · left
    refine ⟨by omega, fun k hk => ?_⟩
    rw [hl]
    rcases Nat.eq_zero_or_pos k with rfl | hk0
    · exact ⟨t, by simpa using ht, rfl⟩
    · obtain ⟨u, hu, hup⟩ := ihk (k - 1) (by omega)
      refine ⟨u, ?_, by rw [hup, hp]⟩
      have e : n - k = n - 1 - (k - 1) := by omega
      rw [e]; exact hu

theorem lastWindowState_change_needs_confirmation_witness :
    (4 ≤ 4 ∧ ∀ k, k ≤ 4 →
        ∃ u, fivePresentTicks[4 - k]? = some u
          ∧ u.present = (stateAfter fivePresentTicks idleState (4 + 1)).lastWindowState)
    ∨ ((stateAfter fivePresentTicks idleState 4).lastWindowState = false
        ∧ (stateAfter fivePresentTicks idleState (4 + 1)).lastWindowState = true
        ∧ (presentTick "0x2" (104 * second)).present = true
        ∧ (presentTick "0x2" (104 * second)).windowID ≠ ""
        ∧ (stateAfter fivePresentTicks idleState 4).lastWindowID ≠ ""
        ∧ (stateAfter fivePresentTicks idleState 4).lastWindowID
            ≠ (presentTick "0x2" (104 * second)).windowID) :=
  lastWindowState_change_needs_confirmation fivePresentTicks idleState rfl 4
    (presentTick "0x2" (104 * second)) rfl (by decide)

/-- Claim C4: when the observed presence alternates on every tick and the
streak starts at 0, windowStateCheckCount is at most 1 after every tick. -/
theorem flapping_streak_at_most_one (ts : List Tick) (s0 : State)
    (h0 : s0.windowStateCheckCount = 0)
    (halt : List.Chain' (fun a b : Tick => a.present ≠ b.present) ts)
    (n : Nat) (hn : n ≤ ts.length) :
    (stateAfter ts s0 n).windowStateCheckCount ≤ 1 := by
  by_contra hgt
  obtain ⟨hc, hk⟩ := streak_counts_opposite_ticks ts s0 h0 n hn
  obtain ⟨t, ht, htp⟩ := hk 0 (by omega)
  obtain ⟨u, hu, hup⟩ := hk 1 (by omega)
  have h2 : n - 2 < ts.length - 1 := by omega
  have hget := List.chain'_iff_get.mp halt (n - 2) h2
  have e1 : ts[n - 1 - 1]? = some (ts.get ⟨n - 2, by omega⟩) := by
    simp [List.getElem?_eq_getElem, show n - 1 - 1 = n - 2 by omega]
  have e0 : ts[n - 1 - 0]? = some (ts.get ⟨n - 2 + 1, by omega⟩) := by
    have : n - 1 - 0 = n - 2 + 1 := by omega
    rw [this]
    simp [List.getElem?_eq_getElem]
  rw [e1] at hu
  rw [e0] at ht
  cases hu
  cases ht
  exact hget (hup.trans htp.symm)

theorem flapping_streak_at_most_one_witness :
    (stateAfter flapTicks idleState 4).windowStateCheckCount ≤ 1 :=
  flapping_streak_at_most_one flapTicks idleState rfl
    (by simp [flapTicks, presentTick, absentTick, Tick.present, getWindowCountAndID])
    4 (by decide)

/-! ## Theorems: startup grace -/

theorem Cleanup_no_write (sess : Option WebRTCSession) (p : Option Conn) :
    ∀ e ∈ WebRTCSession.Cleanup sess p, e.isWrite = false := by
  intro e he
  cases sess with
  | none => simp [WebRTCSession.Cleanup] at he
  | some a =>
    simp only [WebRTCSession.Cleanup, List.mem_append] at he
    rcases he with ((((he | he) | he) | he) | he) | he
    all_goals
      revert he
      split
      all_goals try split
      all_goals
        intro he
        simp at he
        try (rcases he with rfl | rfl <;> rfl)

theorem isReconnectionReady_isWrite (e : Effect) (h : e.isWrite = false) :
    e.isReconnectionReady = false := by
  cases e <;> simp_all [Effect.isWrite, Effect.isReconnectionReady]

theorem handleWindowDisappeared_effects (w : Bool) (s : State) :
    (handleWindowDisappeared w s).2
      = (match s.activeWebSocketConn with
          | some c =>
            [Effect.wsWrite c (Msg.airplay_disconnected "iPhone disconnected from AppleTV")]
          | none => [])
        ++ (match s.activeSession with
          | some sess => WebRTCSession.Cleanup (some sess) sess.WebSocket
          | none => []) := by
  obtain ⟨as, pw, lws, lwid, c, awc, are, laa, pr, rw, st, wm⟩ := s
  cases as <;> cases awc <;> cases w <;>
    simp [handleWindowDisappeared, notifyWebSocketClient]

theorem handleWindowDisappeared_no_ready (w : Bool) (s : State) :
    ∀ e ∈ (handleWindowDisappeared w s).2, e.isReconnectionReady = false := by
  intro e he
  rw [handleWindowDisappeared_effects, List.mem_append] at he
  rcases he with he | he
  · cases hc : s.activeWebSocketConn with
    | none => simp [hc] at he
    | some c =>
      simp [hc] at he
      subst he
      rfl
  · cases hs : s.activeSession with
    | none => simp [hs] at he
    | some sess =>
      simp only [hs] at he
      exact isReconnectionReady_isWrite e (Cleanup_no_write _ _ e he)

theorem handleWindowAppeared_in_grace (now : Int) (s : State)
    (hg : timeSince now s.startTime < 30 * second) : handleWindowAppeared now s = (s, []) := by
  simp [handleWindowAppeared, hg]

theorem handleWindowIDChanged_in_grace (id : String) (now : Int) (w : Bool) (s : State)
    (hg : timeSince now s.startTime < 30 * second) :
    handleWindowIDChanged id now w s = (s, []) := by
  simp [handleWindowIDChanged, hg]

theorem handleWindowDisappeared_flag (w : Bool) (s : State) :
    (handleWindowDisappeared w s).1.phoneReconnectedAndReady = false
      ∧ (handleWindowDisappeared w s).1.reconnectedWindowID = "" := by
  obtain ⟨as, pw, lws, lwid, c, awc, are, laa, pr, rw, st, wm⟩ := s
  cases as <;> cases awc <;> cases w <;>
    simp [handleWindowDisappeared, notifyWebSocketClient]

theorem handleWindowStateChange_dispatch (t : Tick) (s : State) :
    ∃ (a : Bool) (b : String) (c : Nat),
      handleWindowStateChange t s
          = handleWindowIDChanged t.windowID t.now t.writeOk
              { s with lastWindowState := a, lastWindowID := b, windowStateCheckCount := c }
        ∨ handleWindowStateChange t s
          = ({ s with lastWindowState := a, lastWindowID := b, windowStateCheckCount := c }, [])
        ∨ handleWindowStateChange t s
          = handleWindowAppeared t.now
              { s with lastWindowState := a, lastWindowID := b, windowStateCheckCount := c }
        ∨ handleWindowStateChange t s
          = handleWindowDisappeared t.writeOk
              { s with lastWindowState := a, lastWindowID := b, windowStateCheckCount := c } := by
  unfold handleWindowStateChange Tick.windowID
  simp only []
  split_ifs
  all_goals first
    | exact ⟨_, _, _, Or.inl rfl⟩
    | exact ⟨_, _, _, Or.inr (Or.inl rfl)⟩
    | exact ⟨_, _, _, Or.inr (Or.inr (Or.inl rfl))⟩
    | exact ⟨_, _, _, Or.inr (Or.inr (Or.inr rfl))⟩

/-! ## Theorems: re-appearance and cooldown -/

/-- Claim C6, as stated, fails: with a preserved signaling connection,
handleWindowAppeared writes reconnection_ready and also leaves
phoneReconnectedAndReady set. -/
theorem handleWindowAppeared_writes_and_leaves_flag :
    (handleWindowAppeared (104 * second) reappearedState).2
        = [Effect.wsWrite 1
            (Msg.reconnection_ready "iPhone reconnected - auto-reconnecting in 5 seconds"
              "0x2")]
      ∧ (handleWindowAppeared (104 * second) reappearedState).1.phoneReconnectedAndReady
        = true := by
  decide

theorem handleWindowAppeared_effects (s : State) (now : Int)
    (hg : 30 * second ≤ timeSince now s.startTime)
    (hc : AUTO_RECONNECT_COOLDOWN ≤ timeSince now s.lastAutoReconnectAttempt)
    (hm : hasLiveMedia s = false) :
    (handleWindowAppeared now s).2
      = match s.preservedWebSocket, s.activeWebSocketConn with
        | some p, _ =>
          [Effect.wsWrite p
            (Msg.reconnection_ready "iPhone reconnected - auto-reconnecting in 5 seconds"
              s.lastWindowID)]
        | none, some a =>
          [Effect.wsWrite a
            (Msg.reconnection_ready "iPhone reconnected - auto-reconnecting in 5 seconds"
              s.lastWindowID)]
        | none, none => [] := by
  have hg' : ¬ timeSince now s.startTime < 30 * second := not_lt.mpr hg
  have hc' : ¬ timeSince now s.lastAutoReconnectAttempt < AUTO_RECONNECT_COOLDOWN :=
    not_lt.mpr hc
  obtain ⟨as, pw, lws, lwid, c, awc, are, laa, pr, rw, st, wm⟩ := s
  simp only [] at hg' hc'
  simp only [hasLiveMedia] at hm
  cases pw <;> cases awc <;>
    simp [handleWindowAppeared, hg', hc', hasLiveMedia, hm]

/-- Claim C6, amended: after the startup grace and the cooldown, with no live
media, handleWindowAppeared sets phoneReconnectedAndReady and
reconnectedWindowID = lastWindowID in every case; when a signaling connection
is available (the preserved one, else the active one) it writes exactly one
reconnection_ready, to that connection, and the flag stays set; when none is
available it writes nothing. -/
theorem handleWindowAppeared_notifies_and_keeps_flag (s : State) (now : Int)
    (hg : 30 * second ≤ timeSince now s.startTime)
    (hc : AUTO_RECONNECT_COOLDOWN ≤ timeSince now s.lastAutoReconnectAttempt)
    (hm : hasLiveMedia s = false) :
    (handleWindowAppeared now s).1.phoneReconnectedAndReady = true
      ∧ (handleWindowAppeared now s).1.reconnectedWindowID = s.lastWindowID
      ∧ (∀ p, s.preservedWebSocket = some p →
          (handleWindowAppeared now s).2
            = [Effect.wsWrite p
                (Msg.reconnection_ready "iPhone reconnected - auto-reconnecting in 5 seconds"
                  s.lastWindowID)])
      ∧ (∀ a, s.preservedWebSocket = none → s.activeWebSocketConn = some a →
          (handleWindowAppeared now s).2
            = [Effect.wsWrite a
                (Msg.reconnection_ready "iPhone reconnected - auto-reconnecting in 5 seconds"
                  s.lastWindowID)])
      ∧ (s.preservedWebSocket = none → s.activeWebSocketConn = none →
          (handleWindowAppeared now s).2 = []) := by
  have hg' : ¬ timeSince now s.startTime < 30 * second := not_lt.mpr hg
  have hc' : ¬ timeSince now s.lastAutoReconnectAttempt < AUTO_RECONNECT_COOLDOWN :=
    not_lt.mpr hc
  obtain ⟨as, pw, lws, lwid, c, awc, are, laa, pr, rw, st, wm⟩ := s
  simp only [] at hg' hc'
  simp only [hasLiveMedia] at hm
  cases pw <;> cases awc <;>
    simp [handleWindowAppeared, hg', hc', hasLiveMedia, hm]

theorem handleWindowAppeared_notifies_and_keeps_flag_witness :
    (handleWindowAppeared (104 * second) reappearedState).1.phoneReconnectedAndReady = true
      ∧ (handleWindowAppeared (104 * second) reappearedState).1.reconnectedWindowID
        = reappearedState.lastWindowID :=
  ⟨(handleWindowAppeared_notifies_and_keeps_flag reappearedState (104 * second)
      (by decide) (by decide) (by decide)).1,
   (handleWindowAppeared_notifies_and_keeps_flag reappearedState (104 * second)
      (by decide) (by decide) (by decide)).2.1⟩

theorem timeSince_lt_of_sub_lt (now t d : Int) (h0 : t ≤ now) (hd : now - t < d) :
    timeSince now t < d := by
  unfold timeSince maxDuration minDuration
  split_ifs <;> omega

theorem handleWindowAppeared_in_cooldown (now : Int) (s : State)
    (hc : timeSince now s.lastAutoReconnectAttempt < AUTO_RECONNECT_COOLDOWN) :
    handleWindowAppeared now s = (s, []) := by
  unfold handleWindowAppeared
  split_ifs <;> rfl

theorem handleWindowAppeared_stamp (s : State) (now : Int)
    (hg : 30 * second ≤ timeSince now s.startTime)
    (hc : AUTO_RECONNECT_COOLDOWN ≤ timeSince now s.lastAutoReconnectAttempt) :
    (handleWindowAppeared now s).1.lastAutoReconnectAttempt = now := by
  have hg' : ¬ timeSince now s.startTime < 30 * second := not_lt.mpr hg
  have hc' : ¬ timeSince now s.lastAutoReconnectAttempt < AUTO_RECONNECT_COOLDOWN :=
    not_lt.mpr hc
  obtain ⟨as, pw, lws, lwid, c, awc, are, laa, pr, rw, st, wm⟩ := s
  simp only [] at hg' hc'
  cases pw <;> cases awc <;>
    simp [handleWindowAppeared, hg', hc'] <;> split_ifs <;> rfl

/-- Claim C7: five invocations of handleWindowAppeared at instants
t1 ≤ ... ≤ t5 with t5 - t1 < 5 s, the first one past the startup grace and the
cooldown, with a signaling connection available and no live media, write
exactly one reconnection_ready in total, and each of the four later
invocations leaves the whole state unchanged, phoneReconnectedAndReady,
reconnectedWindowID and lastAutoReconnectAttempt included. -/
theorem appear_burst_notifies_once (s : State) (t1 t2 t3 t4 t5 : Int)
    (hg : 30 * second ≤ timeSince t1 s.startTime)
    (hc : AUTO_RECONNECT_COOLDOWN ≤ timeSince t1 s.lastAutoReconnectAttempt)
    (hm : hasLiveMedia s = false)
    (hconn : s.preservedWebSocket ≠ none ∨ s.activeWebSocketConn ≠ none)
    (h12 : t1 ≤ t2) (h23 : t2 ≤ t3) (h34 : t3 ≤ t4) (h45 : t4 ≤ t5)
    (hburst : t5 - t1 < 5 * second) :
    ((runAppeared [t1, t2, t3, t4, t5] s).2.filter Effect.isReconnectionReady).length = 1
      ∧ handleWindowAppeared t2 (handleWindowAppeared t1 s).1
        = ((handleWindowAppeared t1 s).1, [])
      ∧ handleWindowAppeared t3 (handleWindowAppeared t1 s).1
        = ((handleWindowAppeared t1 s).1, [])
      ∧ handleWindowAppeared t4 (handleWindowAppeared t1 s).1
        = ((handleWindowAppeared t1 s).1, [])
      ∧ handleWindowAppeared t5 (handleWindowAppeared t1 s).1
        = ((handleWindowAppeared t1 s).1, [])
      ∧ (runAppeared [t1, t2, t3, t4, t5] s).1 = (handleWindowAppeared t1 s).1 := by
  have hstamp := handleWindowAppeared_stamp s t1 hg hc
  have hcool : ∀ t, t1 ≤ t → t ≤ t5 →
      handleWindowAppeared t (handleWindowAppeared t1 s).1
        = ((handleWindowAppeared t1 s).1, []) := by
    intro t h1 h5
    apply handleWindowAppeared_in_cooldown
    rw [hstamp]
    exact timeSince_lt_of_sub_lt t t1 _ h1 (by unfold AUTO_RECONNECT_COOLDOWN; omega)
  have e2 := hcool t2 h12 (by omega)
  have e3 := hcool t3 (by omega) (by omega)
  have e4 := hcool t4 (by omega) h45
  have e5 := hcool t5 (by omega) (le_refl _)
  have hrun : runAppeared [t1, t2, t3, t4, t5] s
      = ((handleWindowAppeared t1 s).1, (handleWindowAppeared t1 s).2) := by
    simp [runAppeared, e2, e3, e4, e5]
  refine ⟨?_, e2, e3, e4, e5, by rw [hrun]⟩
  rw [hrun]
  rw [handleWindowAppeared_effects s t1 hg hc hm]
  cases hpw : s.preservedWebSocket with
  | some p => simp [Effect.isReconnectionReady]
  | none =>
    cases haw : s.activeWebSocketConn with
    | some a => simp [Effect.isReconnectionReady]
    | none => simp [hpw, haw] at hconn

theorem appear_burst_notifies_once_witness :
    ((runAppeared [104 * second, 105 * second, 106 * second, 107 * second, 108 * second]
        reappearedState).2.filter Effect.isReconnectionReady).length = 1 :=
  (appear_burst_notifies_once reappearedState (104 * second) (105 * second) (106 * second)
    (107 * second) (108 * second) (by decide) (by decide) (by decide) (by decide)
    (by decide) (by decide) (by decide) (by decide) (by decide)).1

/-! ## Theorems: confirmed disappearance -/

theorem absentTick_waits (t : Tick) (s : State) (hp : t.present = false)
    (hl : s.lastWindowState = true) (hc : s.windowStateCheckCount + 1 < 5) :
    handleWindowStateChange t s
      = ({ s with windowStateCheckCount := s.windowStateCheckCount + 1 }, []) := by
  unfold Tick.present at hp
  obtain ⟨as, pw, lws, lwid, c, awc, are, laa, pr, rw, st, wm⟩ := s
  simp only [] at hl hc
  subst hl
  simp [handleWindowStateChange, hp, WINDOW_STATE_CONFIRMATION_CHECKS, hc]

theorem absentTick_confirms (t : Tick) (s : State) (hp : t.present = false)
    (hl : s.lastWindowState = true) (hc : 5 ≤ s.windowStateCheckCount + 1) :
    handleWindowStateChange t s
      = handleWindowDisappeared t.writeOk
          { s with lastWindowState := false, windowStateCheckCount := 0 } := by
  unfold Tick.present at hp
  obtain ⟨as, pw, lws, lwid, c, awc, are, laa, pr, rw, st, wm⟩ := s
  simp only [] at hl hc
  subst hl
  have hc' : ¬ c + 1 < 5 := by omega
  simp [handleWindowStateChange, hp, WINDOW_STATE_CONFIRMATION_CHECKS, hc']

theorem absentTick_idle (t : Tick) (s : State) (hp : t.present = false)
    (hl : s.lastWindowState = false) :
    handleWindowStateChange t s = ({ s with windowStateCheckCount := 0 }, []) := by
  unfold Tick.present at hp
  obtain ⟨as, pw, lws, lwid, c, awc, are, laa, pr, rw, st, wm⟩ := s
  simp only [] at hl
  subst hl
  simp [handleWindowStateChange, hp]

theorem handleWindowDisappeared_slot (w : Bool) (s : State) (sess : WebRTCSession)
    (hs : s.activeSession = some sess) :
    (handleWindowDisappeared w s).1.activeSession = none
      ∧ (handleWindowDisappeared w s).1.preservedWebSocket = sess.WebSocket := by
  obtain ⟨as, pw, lws, lwid, c, awc, are, laa, pr, rw, st, wm⟩ := s
  simp only [] at hs
  subst hs
  cases awc <;> cases w <;> simp [handleWindowDisappeared, notifyWebSocketClient]

theorem handleWindowDisappeared_effects_live (w : Bool) (s : State) (sess : WebRTCSession)
    (conn : Conn) (hs : s.activeSession = some sess) (hw : s.activeWebSocketConn = some conn) :
    (handleWindowDisappeared w s).2
      = Effect.wsWrite conn (Msg.airplay_disconnected "iPhone disconnected from AppleTV")
        :: WebRTCSession.Cleanup (some sess) sess.WebSocket := by
  rw [handleWindowDisappeared_effects, hs, hw]
  rfl

theorem runTicks_absent_idle (ts : List Tick) (s : State) (hl : s.lastWindowState = false)
    (habs : ∀ t ∈ ts, t.present = false) :
    (runTicks ts s).2.flatten = []
      ∧ (runTicks ts s).1.activeSession = s.activeSession
      ∧ (runTicks ts s).1.preservedWebSocket = s.preservedWebSocket := by
  induction ts generalizing s with
  | nil => simp [runTicks]
  | cons t ts ih =>
    have ht := absentTick_idle t s (habs t (List.mem_cons_self _ _)) hl
    have := ih { s with windowStateCheckCount := 0 } hl
      (fun u hu => habs u (List.mem_cons_of_mem _ hu))
    simp only [runTicks, ht, List.flatten_cons, List.nil_append]
    exact this

theorem runTicks_absent_live (ts : List Tick) (s : State) (sess : WebRTCSession) (conn : Conn)
    (hl : s.lastWindowState = true) (hs : s.activeSession = some sess)
    (hw : s.activeWebSocketConn = some conn) (habs : ∀ t ∈ ts, t.present = false)
    (hne : ts ≠ []) (hlen : 5 ≤ s.windowStateCheckCount + ts.length) :
    (runTicks ts s).2.flatten
        = Effect.wsWrite conn (Msg.airplay_disconnected "iPhone disconnected from AppleTV")
          :: WebRTCSession.Cleanup (some sess) sess.WebSocket
      ∧ (runTicks ts s).1.activeSession = none
      ∧ (runTicks ts s).1.preservedWebSocket = sess.WebSocket := by
  induction ts generalizing s with
  | nil => exact absurd rfl hne
  | cons t ts ih =>
    have hp := habs t (List.mem_cons_self _ _)
    have hrest : ∀ u ∈ ts, u.present = false := fun u hu => habs u (List.mem_cons_of_mem _ hu)
    by_cases hc : s.windowStateCheckCount + 1 < 5
    · have ht := absentTick_waits t s hp hl hc
      have hts : ts ≠ [] := by
        intro h
        subst h
        simp at hlen
        omega
      have := ih { s with windowStateCheckCount := s.windowStateCheckCount + 1 } hl hs hw hrest
        hts (by simp only [List.length_cons] at hlen; simp only []; omega)
      simp only [runTicks, ht, List.flatten_cons, List.nil_append]
      exact this
    · have ht := absentTick_confirms t s hp hl (by omega)
      have hslot := handleWindowDisappeared_slot t.writeOk
        { s with lastWindowState := false, windowStateCheckCount := 0 } sess hs
      have hwin := handleWindowDisappeared_window t.writeOk
        { s with lastWindowState := false, windowStateCheckCount := 0 }
      have heff := handleWindowDisappeared_effects_live t.writeOk
        { s with lastWindowState := false, windowStateCheckCount := 0 } sess conn hs hw
      have hidle := runTicks_absent_idle ts (handleWindowStateChange t s).1
        (by rw [ht, hwin.1]) hrest
      simp only [runTicks, List.flatten_cons]
      rw [hidle.1, hidle.2.1, hidle.2.2, ht, heff, hslot.1, hslot.2]
      simp

theorem Cleanup_preserved_no_close (sess : WebRTCSession) (c : Conn) :
    Effect.wsClose c ∉ WebRTCSession.Cleanup (some sess) sess.WebSocket := by
  obtain ⟨id, pc, cmd, vc, ac, vp, ap, ws, ctx, cf, st⟩ := sess
  cases pc <;> cases cmd <;> cases vc <;> cases ac <;> cases ws <;> cases cf <;>
    simp [WebRTCSession.Cleanup] <;> split <;> simp

theorem isAirplayDisconnected_isWrite (e : Effect) (h : e.isWrite = false) :
    e.isAirplayDisconnected = false := by
  cases e <;> simp_all [Effect.isWrite, Effect.isAirplayDisconnected]

/-- Claim C8: from any state with a live session, lastWindowState = true and an
open signaling connection, five consecutive ticks that observe no usable window
write exactly one airplay_disconnected message, to that connection, clear the
slot (so that the status endpoint reports active = false) and close no
WebSocket: the session's WebSocket is moved to preservedWebSocket. -/
theorem five_absent_ticks_tear_down (s : State) (sess : WebRTCSession) (conn : Conn)
    (ts : List Tick) (hs : s.activeSession = some sess) (hl : s.lastWindowState = true)
    (hw : s.activeWebSocketConn = some conn) (hlen : ts.length = 5)
    (habs : ∀ t ∈ ts, t.present = false) :
    ((runTicks ts s).2.flatten.filter Effect.isAirplayDisconnected).length = 1
      ∧ Effect.wsWrite conn (Msg.airplay_disconnected "iPhone disconnected from AppleTV")
          ∈ (runTicks ts s).2.flatten
      ∧ (runTicks ts s).1.activeSession = none
      ∧ statusActive (runTicks ts s).1 = false
      ∧ (∀ c, Effect.wsClose c ∉ (runTicks ts s).2.flatten)
      ∧ (runTicks ts s).1.preservedWebSocket = sess.WebSocket := by
  have hne : ts ≠ [] := by
    intro h
    rw [h] at hlen
    simp at hlen
  obtain ⟨heff, hslot, hpres⟩ :=
    runTicks_absent_live ts s sess conn hl hs hw habs hne (by omega)
  have hnone : (WebRTCSession.Cleanup (some sess) sess.WebSocket).filter
      Effect.isAirplayDisconnected = [] := by
    rw [List.filter_eq_nil_iff]
    intro e he
    simp [isAirplayDisconnected_isWrite e (Cleanup_no_write _ _ e he)]
  refine ⟨?_, ?_, hslot, by simp [statusActive, hslot], ?_, hpres⟩
  · rw [heff, List.filter_cons]
    simp [Effect.isAirplayDisconnected, hnone]
  · rw [heff]
    exact List.mem_cons_self _ _
  · intro c hc
    rw [heff] at hc
    rcases List.mem_cons.mp hc with h | h
    · exact Effect.noConfusion h
    · exact Cleanup_preserved_no_close sess c h

theorem five_absent_ticks_tear_down_witness :
    ((runTicks fiveAbsentTicks liveState).2.flatten.filter
        Effect.isAirplayDisconnected).length = 1
      ∧ (runTicks fiveAbsentTicks liveState).1.activeSession = none :=
  ⟨(five_absent_ticks_tear_down liveState liveSession 1 fiveAbsentTicks rfl rfl rfl rfl
      (by decide)).1,
   (five_absent_ticks_tear_down liveState liveSession 1 fiveAbsentTicks rfl rfl rfl rfl
      (by decide)).2.2.1⟩

/-! ## Theorems: re-appearance after a disappearance, window-id change -/

theorem present_windowID_ne (t : Tick) (hp : t.present = true) : t.windowID ≠ "" := by
  unfold Tick.present Tick.windowID getWindowCountAndID at *
  split_ifs at hp ⊢ with h
  · simp at hp
  · simp only [Bool.or_eq_true, not_or, Bool.not_eq_true] at h
    intro he
    have := h.1.1.2
    simp only [] at he
    simp [he] at this

theorem presentTick_waits (t : Tick) (s : State) (hp : t.present = true)
    (hl : s.lastWindowState = false)
    (hid : s.lastWindowID = "" ∨ s.lastWindowID = t.windowID)
    (hc : s.windowStateCheckCount + 1 < 5) :
    handleWindowStateChange t s
      = ({ s with
            lastWindowID := t.windowID
            windowStateCheckCount := s.windowStateCheckCount + 1 }, []) := by
  have hne := present_windowID_ne t hp
  unfold Tick.present at hp
  unfold Tick.windowID at hne hid ⊢
  obtain ⟨as, pw, lws, lwid, c, awc, are, laa, pr, rw, st, wm⟩ := s
  simp only [] at hl hc hid
  subst hl
  rcases hid with hid | hid <;> subst hid <;>
    simp [handleWindowStateChange, hp, hne, WINDOW_STATE_CONFIRMATION_CHECKS, hc]

theorem presentTick_confirms (t : Tick) (s : State) (hp : t.present = true)
    (hl : s.lastWindowState = false)
    (hid : s.lastWindowID = "" ∨ s.lastWindowID = t.windowID)
    (hc : 5 ≤ s.windowStateCheckCount + 1) :
    handleWindowStateChange t s
      = handleWindowAppeared t.now
          { s with
            lastWindowState := true
            lastWindowID := t.windowID
            windowStateCheckCount := 0 } := by
  have hne := present_windowID_ne t hp
  unfold Tick.present at hp
  unfold Tick.windowID at hne hid ⊢
  obtain ⟨as, pw, lws, lwid, c, awc, are, laa, pr, rw, st, wm⟩ := s
  simp only [] at hl hc hid
  subst hl
  have hc' : ¬ c + 1 < 5 := by omega
  rcases hid with hid | hid <;> subst hid <;>
    simp [handleWindowStateChange, hp, hne, WINDOW_STATE_CONFIRMATION_CHECKS, hc']

theorem runTicks_absent_idle_window (ts : List Tick) (s : State)
    (hl : s.lastWindowState = false) (hc : s.windowStateCheckCount = 0)
    (habs : ∀ t ∈ ts, t.present = false) :
    (runTicks ts s).1.lastWindowState = false
      ∧ (runTicks ts s).1.lastWindowID = s.lastWindowID
      ∧ (runTicks ts s).1.windowStateCheckCount = 0 := by
  induction ts generalizing s with
  | nil => simp [runTicks, hl, hc]
  | cons t ts ih =>
    have ht := absentTick_idle t s (habs t (List.mem_cons_self _ _)) hl
    have := ih { s with windowStateCheckCount := 0 } hl rfl
      (fun u hu => habs u (List.mem_cons_of_mem _ hu))
    simp only [runTicks, ht]
    exact this

theorem disappearance_leaves_waiting_state (ts : List Tick) (s : State)
    (hl : s.lastWindowState = true) (habs : ∀ t ∈ ts, t.present = false)
    (hne : ts ≠ []) (hlen : 5 ≤ s.windowStateCheckCount + ts.length) :
    (runTicks ts s).1.lastWindowState = false
      ∧ (runTicks ts s).1.lastWindowID = ""
      ∧ (runTicks ts s).1.windowStateCheckCount = 0 := by
  induction ts generalizing s with
  | nil => exact absurd rfl hne
  | cons t ts ih =>
    have hp := habs t (List.mem_cons_self _ _)
    have hrest : ∀ u ∈ ts, u.present = false := fun u hu => habs u (List.mem_cons_of_mem _ hu)
    by_cases hc : s.windowStateCheckCount + 1 < 5
    · have ht := absentTick_waits t s hp hl hc
      have hts : ts ≠ [] := by
        intro h
        subst h
        simp at hlen
        omega
      have := ih { s with windowStateCheckCount := s.windowStateCheckCount + 1 } hl hrest
        hts (by simp only [List.length_cons] at hlen; simp only []; omega)
      simp only [runTicks, ht]
      exact this
    · have ht := absentTick_confirms t s hp hl (by omega)
      have hwin := handleWindowDisappeared_window t.writeOk
        { s with lastWindowState := false, windowStateCheckCount := 0 }
      have hidle := runTicks_absent_idle_window ts (handleWindowStateChange t s).1
        (by rw [ht, hwin.1]) (by rw [ht, hwin.2.2]) hrest
      simp only [runTicks]
      rw [hidle.1, hidle.2.1, hidle.2.2, ht, hwin.2.1]
      exact ⟨rfl, rfl, rfl⟩

theorem goneState_reached : (runTicks fiveAbsentTicks liveState).1 = goneState := by
  decide

/-- Claim C9: from the state a confirmed disappearance of a live session
leaves (no session, lastWindowState = false, lastWindowID and the streak reset,
the signaling WebSocket preserved), five consecutive ticks that observe a usable
window with id W2, the fifth one past the startup grace and the cooldown, write
nothing on the first four ticks and exactly one reconnection_ready, carrying
windowID = W2, to the preserved WebSocket on the fifth. -/
theorem five_present_ticks_notify_once (s : State) (ws : Conn) (W2 : String)
    (t1 t2 t3 t4 t5 : Tick)
    (hs : s.activeSession = none) (hp : s.preservedWebSocket = some ws)
    (hl : s.lastWindowState = false) (hid : s.lastWindowID = "")
    (hc : s.windowStateCheckCount = 0)
    (h1 : t1.present = true ∧ t1.windowID = W2) (h2 : t2.present = true ∧ t2.windowID = W2)
    (h3 : t3.present = true ∧ t3.windowID = W2) (h4 : t4.present = true ∧ t4.windowID = W2)
    (h5 : t5.present = true ∧ t5.windowID = W2)
    (hg : 30 * second ≤ timeSince t5.now s.startTime)
    (hcool : AUTO_RECONNECT_COOLDOWN ≤ timeSince t5.now s.lastAutoReconnectAttempt) :
    (runTicks [t1, t2, t3, t4, t5] s).2
        = [[], [], [], [],
            [Effect.wsWrite ws
              (Msg.reconnection_ready "iPhone reconnected - auto-reconnecting in 5 seconds"
                W2)]]
      ∧ ((runTicks [t1, t2, t3, t4, t5] s).2.flatten.filter
          Effect.isReconnectionReady).length = 1
      ∧ (runTicks [t1, t2, t3, t4, t5] s).1.lastWindowState = true
      ∧ (runTicks [t1, t2, t3, t4, t5] s).1.lastWindowID = W2 := by
  obtain ⟨as, pw, lws, lwid, c, awc, are, laa, pr, rw, st, wm⟩ := s
  simp only [] at hs hp hl hid hc hg hcool
  subst hs hp hl hid hc
  obtain ⟨p1, w1⟩ := h1
  obtain ⟨p2, w2⟩ := h2
  obtain ⟨p3, w3⟩ := h3
  obtain ⟨p4, w4⟩ := h4
  obtain ⟨p5, w5⟩ := h5
  have e1 := presentTick_waits t1
    ⟨none, some ws, false, "", 0, awc, are, laa, pr, rw, st, wm⟩ p1 rfl (Or.inl rfl) (by simp)
  have e2 := presentTick_waits t2
    ⟨none, some ws, false, W2, 1, awc, are, laa, pr, rw, st, wm⟩ p2 rfl (Or.inr w2.symm) (by simp)
  have e3 := presentTick_waits t3
    ⟨none, some ws, false, W2, 2, awc, are, laa, pr, rw, st, wm⟩ p3 rfl (Or.inr w3.symm) (by simp)
  have e4 := presentTick_waits t4
    ⟨none, some ws, false, W2, 3, awc, are, laa, pr, rw, st, wm⟩ p4 rfl (Or.inr w4.symm) (by simp)
  have e5 := presentTick_confirms t5
    ⟨none, some ws, false, W2, 4, awc, are, laa, pr, rw, st, wm⟩ p5 rfl (Or.inr w5.symm) (by simp)
  simp only [w1, w2, w3, w4, w5] at e1 e2 e3 e4 e5
  have hg' : ¬ timeSince t5.now st < 30 * second := not_lt.mpr hg
  have hc' : ¬ timeSince t5.now laa < AUTO_RECONNECT_COOLDOWN := not_lt.mpr hcool
  have e6 : handleWindowAppeared t5.now ⟨none, some ws, true, W2, 0, awc, are, laa, pr, rw, st, wm⟩
      = (⟨none, none, true, W2, 0, awc, are, t5.now, true, W2, st, wm⟩,
          [Effect.wsWrite ws
            (Msg.reconnection_ready "iPhone reconnected - auto-reconnecting in 5 seconds"
              W2)]) := by
    simp [handleWindowAppeared, hg', hc', hasLiveMedia]
  simp [runTicks, e1, e2, e3, e4, e5, e6, Effect.isReconnectionReady]

theorem five_present_ticks_notify_once_witness :
    (runTicks fivePresentTicks goneState).2
      = [[], [], [], [],
          [Effect.wsWrite 1
            (Msg.reconnection_ready "iPhone reconnected - auto-reconnecting in 5 seconds"
              "0x2")]] :=
  (five_present_ticks_notify_once goneState 1 "0x2"
    (presentTick "0x2" (100 * second)) (presentTick "0x2" (101 * second))
    (presentTick "0x2" (102 * second)) (presentTick "0x2" (103 * second))
    (presentTick "0x2" (104 * second)) rfl rfl rfl rfl rfl
    (by decide) (by decide) (by decide) (by decide) (by decide) (by decide) (by decide)).1

theorem Cleanup_closes_unpreserved (sess : WebRTCSession) (p : Option Conn) (w : Conn)
    (hws : sess.WebSocket = some w) (hp : p ≠ some w) :
    Effect.wsClose w ∈ WebRTCSession.Cleanup (some sess) p := by
  have hp' : ¬ some w = p := fun h => hp h.symm
  simp only [WebRTCSession.Cleanup, hws, List.mem_append]
  right
  simp [hp']

/-- Claim C10 (the code departs from it): for a live session tracking window W1
whose WebSocket w is the open signaling connection and is not the preserved
one, a tick past the startup grace and the cooldown that observes a usable
window W2 different from W1 clears the slot and writes reconnection_ready with
windowID = W2 to w, but only after the teardown has closed w. -/
theorem id_change_closes_signaling_socket (s : State) (sess : WebRTCSession) (w : Conn)
    (t : Tick)
    (hs : s.activeSession = some sess) (hws : sess.WebSocket = some w)
    (hpw : s.preservedWebSocket ≠ some w) (haw : s.activeWebSocketConn = some w)
    (hl : s.lastWindowState = true) (hid : s.lastWindowID ≠ "")
    (hp : t.present = true) (hne : s.lastWindowID ≠ t.windowID)
    (ha : s.autoReconnectEnabled = true)
    (hg : 30 * second ≤ timeSince t.now s.startTime)
    (hc : AUTO_RECONNECT_COOLDOWN ≤ timeSince t.now s.lastAutoReconnectAttempt) :
    (handleWindowStateChange t s).1.activeSession = none
      ∧ (handleWindowStateChange t s).2
        = WebRTCSession.Cleanup (some sess) s.preservedWebSocket
          ++ [Effect.wsWrite w
              (Msg.reconnection_ready
                "iPhone reconnected with new window - auto-reconnecting in 5 seconds"
                t.windowID)]
      ∧ Effect.wsClose w ∈ WebRTCSession.Cleanup (some sess) s.preservedWebSocket := by
  refine ⟨?_, ?_, Cleanup_closes_unpreserved sess _ w hws hpw⟩
  all_goals
    have hwne := present_windowID_ne t hp
    have hg' : ¬ timeSince t.now s.startTime < 30 * second := not_lt.mpr hg
    have hc' : ¬ timeSince t.now s.lastAutoReconnectAttempt < AUTO_RECONNECT_COOLDOWN :=
      not_lt.mpr hc
    unfold Tick.present at hp
    unfold Tick.windowID at hwne hne
    try unfold Tick.windowID
    obtain ⟨as, pw, lws, lwid, c, awc, are, laa, pr, rw, st, wm⟩ := s
    simp only [] at hs haw hl hid hne ha hg' hc'
    subst hs haw hl ha
    cases hw : t.writeOk <;>
      simp [handleWindowStateChange, handleWindowIDChanged, notifyWebSocketClient, hasLiveMedia,
        hp, hid, hwne, hne, hg', hc', hw]

theorem id_change_closes_signaling_socket_witness :
    (handleWindowStateChange (presentTick "0x2" (100 * second)) liveState).1.activeSession = none
      ∧ (handleWindowStateChange (presentTick "0x2" (100 * second)) liveState).2
        = [Effect.cancel 1, Effect.kill 4242, Effect.wait 4242, Effect.udpClose 1,
            Effect.udpClose 2, Effect.pcClose 1, Effect.wsClose 1,
            Effect.wsWrite 1
              (Msg.reconnection_ready
                "iPhone reconnected with new window - auto-reconnecting in 5 seconds"
                "0x2")] :=
  ⟨(id_change_closes_signaling_socket liveState liveSession 1 (presentTick "0x2" (100 * second))
      rfl rfl (by decide) rfl rfl (by decide) (by decide) (by decide) rfl (by decide)
      (by decide)).1,
   (id_change_closes_signaling_socket liveState liveSession 1 (presentTick "0x2" (100 * second))
      rfl rfl (by decide) rfl rfl (by decide) (by decide) (by decide) rfl (by decide)
      (by decide)).2.1⟩

/-! ## Theorems: terminal peer-connection states -/

/-- Claim C11 (the code departs from it): when the peer connection reports a
terminal state, cleanupWebRTCSession clears the slot, but its teardown closes
the session's WebSocket whenever that WebSocket is not the one already held in
preservedWebSocket: the close is the last step of Cleanup and comes before any
notification the function then attempts. -/
theorem terminal_state_closes_signaling_socket (s : State) (sess : WebRTCSession) (w : Conn)
    (found : FindWindowResult) (now : Int) (writeOk : Bool)
    (hs : s.activeSession = some sess) (hws : sess.WebSocket = some w)
    (hpw : s.preservedWebSocket ≠ some w) :
    (∀ st, st = ICEConnectionState.failed ∨ st = ICEConnectionState.disconnected
        ∨ st = ICEConnectionState.closed →
      (onICEConnectionStateChange st found now writeOk s).1.activeSession = none
        ∧ Effect.wsClose w ∈ (onICEConnectionStateChange st found now writeOk s).2)
    ∧ (∀ st, st = PeerConnectionState.failed ∨ st = PeerConnectionState.closed →
      (onConnectionStateChange st found now writeOk s).1.activeSession = none
        ∧ Effect.wsClose w ∈ (onConnectionStateChange st found now writeOk s).2)
    ∧ (cleanupWebRTCSession found now writeOk s).2
      = WebRTCSession.Cleanup (some sess) s.preservedWebSocket
        ++ (checkAutoReconnectAfterCleanup found now writeOk
            { s with activeSession := none }).2 := by
  have hclose := Cleanup_closes_unpreserved sess _ w hws hpw
  have hslot : (cleanupWebRTCSession found now writeOk s).1.activeSession = none := by
    obtain ⟨as, pw, lws, lwid, c, awc, are, laa, pr, rw, st, wm⟩ := s
    simp only [] at hs
    subst hs
    cases awc <;> cases writeOk <;> cases are <;>
      simp [cleanupWebRTCSession, checkAutoReconnectAfterCleanup, notifyWebSocketClient] <;>
      split_ifs <;> simp
  have heff : (cleanupWebRTCSession found now writeOk s).2
      = WebRTCSession.Cleanup (some sess) s.preservedWebSocket
        ++ (checkAutoReconnectAfterCleanup found now writeOk
            { s with activeSession := none }).2 := by
    simp [cleanupWebRTCSession, hs]
  have hmem : Effect.wsClose w ∈ (cleanupWebRTCSession found now writeOk s).2 := by
    rw [heff]
    exact List.mem_append_left _ hclose
  refine ⟨?_, ?_, heff⟩
  · rintro st (rfl | rfl | rfl) <;> exact ⟨hslot, hmem⟩
  · rintro st (rfl | rfl) <;> exact ⟨by simpa [onConnectionStateChange] using hslot,
      by simpa [onConnectionStateChange] using hmem⟩

theorem terminal_state_closes_signaling_socket_witness :
    (onICEConnectionStateChange ICEConnectionState.failed
        (presentTick "0x1" (100 * second)).found (100 * second) false liveState).1.activeSession
        = none
      ∧ Effect.wsClose 1 ∈ (onICEConnectionStateChange ICEConnectionState.failed
        (presentTick "0x1" (100 * second)).found (100 * second) false liveState).2 :=
  (terminal_state_closes_signaling_socket liveState liveSession 1
    (presentTick "0x1" (100 * second)).found (100 * second) false rfl rfl (by decide)).1
    ICEConnectionState.failed (Or.inl rfl)

/-! ## Theorems: teardown order and slot-clearing paths -/

/-- Claim C12 (the code departs from it): after the five absent ticks that
confirm the present-to-absent transition, lastWindowID is the empty string,
whatever non-empty id W it held: handleWindowDisappeared resets it. -/
theorem disappearance_resets_lastWindowID (s : State) (ts : List Tick)
    (hl : s.lastWindowState = true) (hne : s.lastWindowID ≠ "")
    (hlen : ts.length = 5) (habs : ∀ t ∈ ts, t.present = false) :
    (runTicks ts s).1.lastWindowID = ""
      ∧ (runTicks ts s).1.lastWindowID ≠ s.lastWindowID
      ∧ (runTicks ts s).1.lastWindowState = false := by
  have hts : ts ≠ [] := by
    intro h
    rw [h] at hlen
    simp at hlen
  obtain ⟨h1, h2, _⟩ := disappearance_leaves_waiting_state ts s hl habs hts (by omega)
  exact ⟨h2, by rw [h2]; exact fun h => hne h.symm, h1⟩

theorem disappearance_resets_lastWindowID_witness :
    (runTicks fiveAbsentTicks liveState).1.lastWindowID = ""
      ∧ (runTicks fiveAbsentTicks liveState).1.lastWindowID ≠ liveState.lastWindowID
      ∧ (runTicks fiveAbsentTicks liveState).1.lastWindowState = false :=
  disappearance_resets_lastWindowID liveState fiveAbsentTicks rfl (by decide) rfl (by decide)

/-- Claim C13: for every session, Cleanup performs exactly the steps of the
specified teardown order that are present, in that order, and it closes a
WebSocket w if and only if w is the session's WebSocket and is not the
connection held in preservedWebSocket. -/
theorem Cleanup_follows_teardown_order (s : WebRTCSession) (p : Option Conn) :
    WebRTCSession.Cleanup (some s) p = teardownOrder s p
      ∧ (∀ w, Effect.wsClose w ∈ WebRTCSession.Cleanup (some s) p
          ↔ s.WebSocket = some w ∧ p ≠ some w) := by
  obtain ⟨id, pc, cmd, vc, ac, vp, ap, ws, ctx, cf, st⟩ := s
  constructor
  · rcases cmd with _ | ⟨_ | pid⟩ <;> cases pc <;> cases vc <;> cases ac <;> cases ws <;>
      cases cf <;>
      simp [WebRTCSession.Cleanup, teardownOrder, teardownSteps, List.reduceOption,
        Option.filter] <;>
      split_ifs <;> rfl
  · intro w
    rcases cmd with _ | ⟨_ | pid⟩ <;> cases pc <;> cases vc <;> cases ac <;> cases ws <;>
      cases cf <;>
      simp [WebRTCSession.Cleanup] <;>
      aesop

/-- Claim C14 (the code departs from it): on the path taken when the wait for
a window fails, the slot is cleared while its session owns a peer connection
and a cancel handle, and neither is released: the trace holds no close of the
peer connection and no cancel, because the deferred cleanup then finds the slot
empty.  The deferred cleanup itself, run on the same state, releases both. -/
theorem window_wait_failure_releases_nothing (s : State) (sess : WebRTCSession)
    (pc : PeerConnection) (h : Nat) (conn : Conn) (statusWrites : List Msg)
    (hs : s.activeSession = some sess) (hpc : sess.PeerConn = some pc)
    (hcf : sess.CancelFunc = some h) :
    (windowWaitFailed statusWrites sess.ID conn s).1.activeSession = none
      ∧ (windowWaitFailed statusWrites sess.ID conn s).2
        = statusWrites.map (Effect.wsWrite conn)
          ++ [Effect.wsWrite conn
                (Msg.error "AirPlay window not available - please connect your device"),
              Effect.wsClose conn]
      ∧ Effect.pcClose pc.ref ∉ (windowWaitFailed statusWrites sess.ID conn s).2
      ∧ Effect.cancel h ∉ (windowWaitFailed statusWrites sess.ID conn s).2
      ∧ Effect.pcClose pc.ref ∈ (deferredSessionCleanup sess.ID s).2
      ∧ Effect.cancel h ∈ (deferredSessionCleanup sess.ID s).2 := by
  have heff : (windowWaitFailed statusWrites sess.ID conn s).2
      = statusWrites.map (Effect.wsWrite conn)
        ++ [Effect.wsWrite conn
              (Msg.error "AirPlay window not available - please connect your device"),
            Effect.wsClose conn] := by
    simp [windowWaitFailed, signalReturn, deferredSessionCleanup]
  have hdef : (deferredSessionCleanup sess.ID s).2
      = WebRTCSession.Cleanup (some sess) s.preservedWebSocket := by
    simp [deferredSessionCleanup, hs]
  refine ⟨by simp [windowWaitFailed, signalReturn, deferredSessionCleanup], heff, ?_, ?_, ?_, ?_⟩
  · rw [heff]
    simp
  · rw [heff]
    simp
  · rw [hdef]
    simp [WebRTCSession.Cleanup, hpc]
  · rw [hdef]
    simp [WebRTCSession.Cleanup, hcf]

theorem window_wait_failure_releases_nothing_witness :
    (windowWaitFailed [Msg.status "Waiting for AirPlay connection..."] builtSession.ID 1
        (signalHandler goodEnv idleState).1).1.activeSession = none
      ∧ (windowWaitFailed [Msg.status "Waiting for AirPlay connection..."] builtSession.ID 1
        (signalHandler goodEnv idleState).1).2
        = [Effect.wsWrite 1 (Msg.status "Waiting for AirPlay connection..."),
            Effect.wsWrite 1
              (Msg.error "AirPlay window not available - please connect your device"),
            Effect.wsClose 1] :=
  ⟨(window_wait_failure_releases_nothing (signalHandler goodEnv idleState).1 builtSession
      { ref := 1, senders := 0 } 1 1 [Msg.status "Waiting for AirPlay connection..."]
      (by decide) rfl rfl).1,
   (window_wait_failure_releases_nothing (signalHandler goodEnv idleState).1 builtSession
      { ref := 1, senders := 0 } 1 1 [Msg.status "Waiting for AirPlay connection..."]
      (by decide) rfl rfl).2.1⟩

/-! ## Theorems: capture pipeline -/

theorem addTrack_session (r : Nat) (s : State) (sess : WebRTCSession)
    (hs : s.activeSession = some sess) :
    ∃ sess', (addTrack r s).activeSession = some sess'
      ∧ sess'.FFmpegCmd = sess.FFmpegCmd
      ∧ (addTrack r s).preservedWebSocket = s.preservedWebSocket := by
  obtain ⟨as, pw, lws, lwid, c, awc, are, laa, pr, rw, st, wm⟩ := s
  simp only [] at hs
  subst hs
  obtain ⟨id, pc, cmd, vc, ac, vp, ap, ws, ctx, cf, stt⟩ := sess
  cases pc with
  | none => simp [addTrack]
  | some pc =>
    by_cases hr : pc.ref = r <;> simp [addTrack, hr]

theorem initializeWebRTCSession_listen_failure (env : InitEnv) (pc : PeerConnection) (s : State)
    (sess : WebRTCSession) (pid : Nat) (videoPort audioPort : Int)
    (hs : s.activeSession = some sess)
    (hv : findFreePortWithRetry 3 env.videoProbes = some videoPort)
    (ha : findFreePortWithRetry 3 env.audioProbes = some audioPort)
    (ht : env.videoTrackOk = true ∧ env.addVideoTrackOk = true ∧ env.audioTrackOk = true
      ∧ env.addAudioTrackOk = true)
    (hf : env.ffmpeg = some pid) :
    ∃ sess', sess'.FFmpegCmd = sess.FFmpegCmd
      ∧ (env.videoListen = none →
          (initializeWebRTCSession env pc s).2.1 = [Effect.spawn pid, Effect.kill pid]
            ∧ (initializeWebRTCSession env pc s).1.activeSession = some sess')
      ∧ (∀ v, env.videoListen = some v → env.audioListen = none →
          (initializeWebRTCSession env pc s).2.1
              = [Effect.spawn pid, Effect.udpListen v, Effect.udpClose v, Effect.kill pid]
            ∧ (initializeWebRTCSession env pc s).1.activeSession = some sess')
      ∧ (∀ v a, env.videoListen = some v → env.audioListen = some a →
          (initializeWebRTCSession env pc s).2.1
              = [Effect.spawn pid, Effect.udpListen v, Effect.udpListen a]
            ∧ (initializeWebRTCSession env pc s).1.activeSession
              = some { sess' with
                  FFmpegCmd := some { Process := some pid }
                  VideoPort := rtpPort videoPort
                  AudioPort := rtpPort audioPort
                  VideoConn := some v
                  AudioConn := some a }) := by
  obtain ⟨s1, h1, hf1, _⟩ := addTrack_session pc.ref s sess hs
  obtain ⟨s2, h2, hf2, _⟩ := addTrack_session pc.ref (addTrack pc.ref s) s1 h1
  obtain ⟨t1, t2, t3, t4⟩ := ht
  refine ⟨s2, by rw [hf2, hf1], ?_, ?_, ?_⟩
  · intro hl
    simp [initializeWebRTCSession, hv, ha, t1, t2, t3, t4, hf, hl, h2]
  · intro v hl hl2
    simp [initializeWebRTCSession, hv, ha, t1, t2, t3, t4, hf, hl, hl2, h2]
  · intro v a hl hl2
    simp [initializeWebRTCSession, hv, ha, t1, t2, t3, t4, hf, hl, hl2, h2]

theorem Cleanup_without_encoder (sess : WebRTCSession) (p : Option Conn) (pid : Nat)
    (hf : sess.FFmpegCmd = none) :
    Effect.wait pid ∉ WebRTCSession.Cleanup (some sess) p := by
  obtain ⟨id, pc, cmd, vc, ac, vp, ap, ws, ctx, cf, st⟩ := sess
  simp only [] at hf
  subst hf
  cases pc <;> cases vc <;> cases ac <;> cases ws <;> cases cf <;>
    simp [WebRTCSession.Cleanup]

theorem Cleanup_with_encoder (sess : WebRTCSession) (p : Option Conn) (pid : Nat)
    (hf : sess.FFmpegCmd = some { Process := some pid }) :
    List.count (Effect.wait pid) (WebRTCSession.Cleanup (some sess) p) = 1 := by
  obtain ⟨id, pc, cmd, vc, ac, vp, ap, ws, ctx, cf, st⟩ := sess
  simp only [] at hf
  subst hf
  cases pc <;> cases vc <;> cases ac <;> cases ws <;> cases cf <;>
    simp [WebRTCSession.Cleanup, List.count_cons, List.count_append] <;> split_ifs <;> simp

/-- Claim C15 (the code departs from it): when the encoder was started and the
video or the audio RTP listener then cannot be opened, initializeWebRTCSession
kills the encoder without waiting for it and does not record it in the
session, so the later teardown does not wait for it either: the process is
never reaped.  When both listeners open, the teardown waits for it exactly
once. -/
theorem listener_failure_leaves_encoder_unreaped (env : InitEnv) (pc : PeerConnection)
    (s : State) (sess : WebRTCSession) (pid : Nat) (videoPort audioPort : Int)
    (hs : s.activeSession = some sess) (hfresh : sess.FFmpegCmd = none)
    (hv : findFreePortWithRetry 3 env.videoProbes = some videoPort)
    (ha : findFreePortWithRetry 3 env.audioProbes = some audioPort)
    (ht : env.videoTrackOk = true ∧ env.addVideoTrackOk = true ∧ env.audioTrackOk = true
      ∧ env.addAudioTrackOk = true)
    (hf : env.ffmpeg = some pid) :
    (env.videoListen = none ∨ env.audioListen = none →
        Effect.spawn pid ∈ initThenTeardown env pc s
          ∧ Effect.kill pid ∈ initThenTeardown env pc s
          ∧ Effect.wait pid ∉ initThenTeardown env pc s)
      ∧ (∀ v a, env.videoListen = some v → env.audioListen = some a →
          List.count (Effect.wait pid) (initThenTeardown env pc s) = 1) := by
  obtain ⟨sess', hf', hvl, hal, hok⟩ :=
    initializeWebRTCSession_listen_failure env pc s sess pid videoPort audioPort hs hv ha ht hf
  have hnone := Cleanup_without_encoder sess'
    (initializeWebRTCSession env pc s).1.preservedWebSocket pid (by rw [hf', hfresh])
  constructor
  · intro hl
    cases hvid : env.videoListen with
    | none =>
      obtain ⟨e, hsl⟩ := hvl hvid
      unfold initThenTeardown
      rw [hsl, e]
      simp [hnone]
    | some v =>
      have hau : env.audioListen = none := by
        rcases hl with h | h
        · rw [hvid] at h
          exact Option.noConfusion h
        · exact h
      obtain ⟨e, hsl⟩ := hal v hvid hau
      unfold initThenTeardown
      rw [hsl, e]
      simp [hnone]
  · intro v a hvid hau
    obtain ⟨e, hsl⟩ := hok v a hvid hau
    unfold initThenTeardown
    rw [hsl, e, List.count_append]
    rw [Cleanup_with_encoder _ _ pid rfl]
    simp [List.count_cons]

theorem listener_failure_leaves_encoder_unreaped_witness :
    Effect.spawn 4242 ∈ initThenTeardown videoListenFails { ref := 1, senders := 0 } builtState
      ∧ Effect.kill 4242 ∈ initThenTeardown videoListenFails { ref := 1, senders := 0 } builtState
      ∧ Effect.wait 4242 ∉ initThenTeardown videoListenFails { ref := 1, senders := 0 }
          builtState :=
  (listener_failure_leaves_encoder_unreaped videoListenFails { ref := 1, senders := 0 }
    builtState builtSession 4242 5017 5018 (by decide) rfl (by decide) (by decide)
    ⟨rfl, rfl, rfl, rfl⟩ rfl).1 (Or.inl rfl)

theorem findFreePortFrom_range (attempts : Nat → PortAttempt) (fuel i : Nat) (p : Int)
    (h : findFreePortFrom attempts fuel i = some p) : 5000 ≤ p ∧ p ≤ 5999 := by
  induction fuel generalizing i with
  | zero => simp [findFreePortFrom] at h
  | succ fuel ih =>
    unfold findFreePortFrom at h
    simp only [] at h
    split_ifs at h with h1 h2
    · exact ih _ h
    · exact ih _ h
    · simp only [Option.some.injEq] at h
      have : (attempts i).rand % 1000 < 1000 := Nat.mod_lt _ (by decide)
      omega

theorem findFreePortWithRetryFrom_range (probes : Nat → Nat → PortAttempt) (n i : Nat) (p : Int)
    (h : findFreePortWithRetryFrom probes n i = some p) : 5000 ≤ p ∧ p ≤ 5999 := by
  induction n generalizing i with
  | zero => simp [findFreePortWithRetryFrom] at h
  | succ n ih =>
    unfold findFreePortWithRetryFrom at h
    cases hf : findFreePort (probes i) with
    | some q =>
      rw [hf] at h
      simp only [Option.some.injEq] at h
      subst h
      exact findFreePortFrom_range _ _ _ _ hf
    | none =>
      rw [hf] at h
      exact ih _ h

theorem rtpPort_eq (p : Int) (h0 : 0 ≤ p) : rtpPort p = 50000 + p % 1000 := by
  unfold rtpPort
  rw [Int.tmod_eq_emod h0 (by decide)]

/-- Claim C16: every port returned by findFreePort, and so by
findFreePortWithRetry, lies in [5000, 5999]; for every port p of that range the
RTP port of initializeWebRTCSession equals 50000 + (p mod 1000) and lies in
[50000, 50999]; the mapping is injective on the range; and these are the ports
a successful initializeWebRTCSession stores in the session. -/
theorem findFreePort_range_and_rtp_mapping :
    (∀ attempts p, findFreePort attempts = some p → 5000 ≤ p ∧ p ≤ 5999)
      ∧ (∀ retries probes p, findFreePortWithRetry retries probes = some p →
          5000 ≤ p ∧ p ≤ 5999)
      ∧ (∀ p : Int, 5000 ≤ p → p ≤ 5999 →
          rtpPort p = 50000 + p % 1000 ∧ 50000 ≤ rtpPort p ∧ rtpPort p ≤ 50999)
      ∧ (∀ p q : Int, 5000 ≤ p → p ≤ 5999 → 5000 ≤ q → q ≤ 5999 →
          rtpPort p = rtpPort q → p = q)
      ∧ (∀ env pc s sess,
          s.activeSession = some sess → (initializeWebRTCSession env pc s).2.2.2 = true →
          ∃ videoPort audioPort sess',
            findFreePortWithRetry 3 env.videoProbes = some videoPort
              ∧ findFreePortWithRetry 3 env.audioProbes = some audioPort
              ∧ (initializeWebRTCSession env pc s).1.activeSession = some sess'
              ∧ sess'.VideoPort = rtpPort videoPort
              ∧ sess'.AudioPort = rtpPort audioPort) := by
  refine ⟨fun attempts p h => findFreePortFrom_range attempts 100 0 p h,
    fun retries probes p h => findFreePortWithRetryFrom_range probes retries 0 p h, ?_, ?_, ?_⟩
  · intro p h1 h2
    rw [rtpPort_eq p (by omega)]
    omega
  · intro p q hp1 hp2 hq1 hq2 h
    rw [rtpPort_eq p (by omega), rtpPort_eq q (by omega)] at h
    omega
  · intro env pc s sess hs hok
    cases hv : findFreePortWithRetry 3 env.videoProbes with
    | none => simp [initializeWebRTCSession, hv] at hok
    | some videoPort =>
      cases ha : findFreePortWithRetry 3 env.audioProbes with
      | none => simp [initializeWebRTCSession, hv, ha] at hok
      | some audioPort =>
        obtain ⟨s1, h1, _, _⟩ := addTrack_session pc.ref s sess hs
        obtain ⟨s2, h2, _, _⟩ := addTrack_session pc.ref (addTrack pc.ref s) s1 h1
        refine ⟨videoPort, audioPort, ?_⟩
        cases t1 : env.videoTrackOk <;> cases t2 : env.addVideoTrackOk <;>
          cases t3 : env.audioTrackOk <;> cases t4 : env.addAudioTrackOk <;>
          cases hf : env.ffmpeg <;> cases hl : env.videoListen <;> cases hl2 : env.audioListen <;>
          simp [initializeWebRTCSession, hv, ha, t1, t2, t3, t4, hf, hl, hl2] at hok ⊢
        simp [h2]

/-! ## Theorems: window monitor and interface filter -/

/-- Claim C18: getWindowCountAndID returns (1, id) exactly when findWindow
reported no error, a non-empty id, width >= 100 and height >= 100; in every
other case it returns (0, ""); and both X11 probe failures of findWindow lead
to (0, "").  The function is total: it raises nothing. -/
theorem getWindowCountAndID_present_iff (r : FindWindowResult) :
    (getWindowCountAndID r = (1, r.windowID)
        ↔ r.err = false ∧ r.windowID ≠ "" ∧ 100 ≤ r.width ∧ 100 ≤ r.height)
      ∧ (getWindowCountAndID r ≠ (1, r.windowID) → getWindowCountAndID r = (0, ""))
      ∧ (∀ x : XProbe, x.xsetOk = false ∨ x.xwininfo = none →
          findWindow x = { windowID := "", width := 0, height := 0, err := true }
            ∧ getWindowCountAndID (findWindow x) = (0, "")) := by
  refine ⟨?_, ?_, ?_⟩
  · unfold getWindowCountAndID
    split_ifs with h
    · simp only [Bool.or_eq_true, decide_eq_true_eq, beq_iff_eq] at h
      constructor
      · intro he
        simp at he
      · rintro ⟨h1, h2, h3, h4⟩
        rcases h with ((h | h) | h) | h
        · rw [h1] at h
          exact Bool.noConfusion h
        · exact absurd h h2
        · omega
        · omega
    · simp only [Bool.or_eq_true, decide_eq_true_eq, beq_iff_eq, not_or, not_lt,
        Bool.not_eq_true] at h
      simp only [true_iff]
      exact ⟨h.1.1.1, h.1.1.2, h.1.2, h.2⟩
  · unfold getWindowCountAndID
    split_ifs with h
    · intro _
      rfl
    · intro hn
      exact absurd rfl hn
  · intro x hx
    have hf : findWindow x = { windowID := "", width := 0, height := 0, err := true } := by
      unfold findWindow
      rcases hx with hx | hx
      · simp [hx]
      · simp [hx]
    rw [hf]
    exact ⟨rfl, by decide⟩

theorem selectWindow_single (l : WinLine) :
    selectWindow [l]
      = if l.nameMatch && decide (2 ≤ l.fields.length) && decide (l.w > 100)
            && decide (l.h > 100) then
          { windowID := l.id, width := l.w, height := l.h, err := false }
        else if l.has0x && decide (2 ≤ l.fields.length) && decide (l.w > 100)
            && decide (l.h > 100) then
          { windowID := l.id, width := l.w, height := l.h, err := false }
        else if l.openglRenderer && decide (2 ≤ l.fields.length) then
          { windowID := l.id, width := l.w, height := l.h, err := false }
        else { windowID := "", width := 0, height := 0, err := false } := by
  unfold selectWindow potentialVideoWindows largestWindow
  by_cases h1 : (l.nameMatch && decide (2 ≤ l.fields.length) && decide (l.w > 100)
      && decide (l.h > 100)) = true
  · simp [h1]
  · by_cases h5 : (l.has0x && decide (2 ≤ l.fields.length) && decide (l.w > 100)
        && decide (l.h > 100)) = true
    · by_cases hv : isPotentialVideo l = true
      · by_cases h2 : (isPhoneAspect l.w l.h && decide (l.w ≥ 400) && decide (l.h ≥ 700)) = true
        · simp [h1, h5, hv, h2]
        · by_cases h3 : (l.openglRenderer && decide (2 ≤ l.fields.length)) = true
          · simp [h1, h5, hv, h2, h3]
          · simp [h1, h5, hv, h2, h3]
      · by_cases h3 : (l.openglRenderer && decide (2 ≤ l.fields.length)) = true
        · simp [h1, h5, hv, h3]
        · simp [h1, h5, hv, h3]
    · have hv : isPotentialVideo l = false := by
        unfold isPotentialVideo
        simp only [Bool.not_eq_true] at h5
        rw [h5]
        rfl
      by_cases h3 : (l.openglRenderer && decide (2 ≤ l.fields.length)) = true
      · simp [h1, h5, hv, h3]
      · simp [h1, h5, hv, h3]

/-- Claim C17 (the code departs from it): for an enumeration of one line, a
100x100 window is reported present, with count 1 and its id, exactly when the
line contains "OpenGL renderer" and has at least two fields and a non-empty
id, and is reported absent otherwise; a 101x101 window line (one that contains
"0x", with at least two fields and a non-empty id) is reported present with
its id. -/
theorem single_window_boundary (l : WinLine) :
    (lineSize l.fields = (100, 100) →
        (monitorReport [l] = (1, l.id)
            ↔ l.openglRenderer = true ∧ 2 ≤ l.fields.length ∧ l.id ≠ "")
          ∧ (monitorReport [l] ≠ (1, l.id) → monitorReport [l] = (0, "")))
      ∧ (lineSize l.fields = (101, 101) → l.has0x = true → 2 ≤ l.fields.length → l.id ≠ "" →
          monitorReport [l] = (1, l.id)) := by
  constructor
  · intro hsz
    have hw : l.w = 100 := by simp [WinLine.w, hsz]
    have hh : l.h = 100 := by simp [WinLine.h, hsz]
    have hsel := selectWindow_single l
    simp only [hw, hh, gt_iff_lt, lt_self_iff_false, decide_False, Bool.and_false,
      Bool.false_eq_true, if_false] at hsel
    unfold monitorReport findWindow
    simp only [Bool.not_true, Bool.false_eq_true, if_false, hsel]
    by_cases h3 : (l.openglRenderer && decide (2 ≤ l.fields.length)) = true
    · simp only [h3, if_true]
      simp only [Bool.and_eq_true, decide_eq_true_eq] at h3
      by_cases hid : l.id = ""
      · simp [getWindowCountAndID, hid]
      · simp [getWindowCountAndID, hid, h3.1, h3.2]
    · simp only [h3, if_false]
      simp only [Bool.and_eq_true, decide_eq_true_eq, not_and] at h3
      constructor
      · constructor
        · intro he
          simp [getWindowCountAndID] at he
        · rintro ⟨a, b, _⟩
          exact absurd b (h3 a)
      · intro _
        simp [getWindowCountAndID]
  · intro hsz h0 hf hid
    have hw : l.w = 101 := by simp [WinLine.w, hsz]
    have hh : l.h = 101 := by simp [WinLine.h, hsz]
    have hsel := selectWindow_single l
    simp only [hw, hh, h0, hf, decide_True, Bool.and_true, Bool.true_and] at hsel
    unfold monitorReport findWindow
    simp only [Bool.not_true, Bool.false_eq_true, if_false, hsel]
    simp [getWindowCountAndID, hid]

theorem single_window_boundary_witness :
    monitorReport [openglLine100] = (1, "0x2c00002") :=
  ((single_window_boundary openglLine100).1 (by decide)).1.mpr
    ⟨rfl, by decide, by decide⟩

/-- Claim C20 (the code departs from it): the filter accepts every interface
whose name is "br-" followed by at least one character, such as the Docker
bridge br-1a2b3c4d5e6f: its test on "br-" is an equality, not a test of the
first characters. -/
theorem interfaceFilter_accepts_bridge_names (rest : String) (h : rest ≠ "") :
    interfaceFilter ("br-" ++ rest) = true := by
  have hd : ("br-" ++ rest).data = 'b' :: 'r' :: '-' :: rest.data := by
    simp [String.data_append]
  have hne : rest.data ≠ [] := by
    intro he
    apply h
    exact String.ext he
  have h1 : ("br-" ++ rest) ≠ "docker0" := by
    intro he
    have := congrArg String.data he
    rw [hd] at this
    simp at this
  have h2 : ("br-" ++ rest) ≠ "br-" := by
    intro he
    have := congrArg String.data he
    rw [hd] at this
    simp at this
    exact hne this
  unfold interfaceFilter
  simp only [bne_iff_ne, ne_eq, h1, not_false_eq_true, h2, decide_True, Bool.true_and,
    Bool.not_eq_true', String.toList]
  rw [hd]
  cases hr : rest.data with
  | nil => exact absurd hr hne
  | cons c cs =>
    simp
    exact ⟨h1, h2⟩

theorem interfaceFilter_accepts_bridge_names_witness :
    interfaceFilter ("br-" ++ "1a2b3c4d5e6f") = true
      ∧ interfaceFilter "br-1a2b3c4d5e6f" = true
      ∧ interfaceFilter "br-" = false
      ∧ interfaceFilter "docker0" = false
      ∧ interfaceFilter "veth0a1b2c3" = false
      ∧ interfaceFilter "wlan0" = true :=
  ⟨interfaceFilter_accepts_bridge_names "1a2b3c4d5e6f" (by decide), by decide, by decide,
    by decide, by decide, by decide⟩

theorem find?_congr_mem {α : Type} (l : List α) (p q : α → Bool)
    (h : ∀ x ∈ l, p x = q x) : l.find? p = l.find? q := by
  induction l with
  | nil => rfl
  | cons a l ih =>
    have ha := h a (List.mem_cons_self _ _)
    have hl := ih (fun x hx => h x (List.mem_cons_of_mem _ hx))
    simp only [List.find?_cons, ha, hl]

theorem any_eq_isSome_find {α : Type} (l : List α) (p : α → Bool) :
    l.any p = (l.find? p).isSome := by
  induction l with
  | nil => rfl
  | cons a l ih =>
    by_cases ha : p a = true
    · simp [ha]
    · simp only [Bool.not_eq_true] at ha
      simp [List.find?_cons, ha, ih]

theorem largestWindow_eq_argmax (a : WinLine) (ls : List WinLine) :
    largestWindow (a.id, a.w, a.h) (ls.map (fun l => (l.id, l.w, l.h)))
      = ((argmaxArea a ls).id, (argmaxArea a ls).w, (argmaxArea a ls).h) := by
  unfold largestWindow argmaxArea
  have key : ∀ (ls : List WinLine) (acc : WinLine),
      List.foldl
        (fun (acc : (String × Int × Int) × Int) win =>
          if win.2.1 * win.2.2 > acc.2 then (win, win.2.1 * win.2.2) else acc)
        ((acc.id, acc.w, acc.h), acc.w * acc.h) (ls.map (fun l => (l.id, l.w, l.h)))
      = (((ls.foldl (fun acc x => if x.w * x.h > acc.w * acc.h then x else acc) acc).id,
          (ls.foldl (fun acc x => if x.w * x.h > acc.w * acc.h then x else acc) acc).w,
          (ls.foldl (fun acc x => if x.w * x.h > acc.w * acc.h then x else acc) acc).h),
         (ls.foldl (fun acc x => if x.w * x.h > acc.w * acc.h then x else acc) acc).w
          * (ls.foldl (fun acc x => if x.w * x.h > acc.w * acc.h then x else acc) acc).h) := by
    intro ls
    induction ls with
    | nil => intro acc; rfl
    | cons x xs ih =>
      intro acc
      simp only [List.map_cons, List.foldl_cons]
      by_cases hx : x.w * x.h > acc.w * acc.h
      · simp only [hx, if_true]
        exact ih x
      · simp only [hx, if_false]
        exact ih acc
  rw [key ls a]

theorem argmaxArea_spec (ls : List WinLine) (acc : WinLine) :
    acc.w * acc.h ≤ (argmaxArea acc ls).w * (argmaxArea acc ls).h
      ∧ (∀ y ∈ ls, y.w * y.h ≤ (argmaxArea acc ls).w * (argmaxArea acc ls).h)
      ∧ (acc :: ls).find?
          (fun l => decide ((argmaxArea acc ls).w * (argmaxArea acc ls).h ≤ l.w * l.h))
        = some (argmaxArea acc ls) := by
  induction ls generalizing acc with
  | nil => simp [argmaxArea]
  | cons x xs ih =>
    by_cases hx : x.w * x.h > acc.w * acc.h
    · have e : argmaxArea acc (x :: xs) = argmaxArea x xs := by
        simp [argmaxArea, hx]
      obtain ⟨h1, h2, h3⟩ := ih x
      rw [e]
      refine ⟨by omega, ?_, ?_⟩
      · intro y hy
        rcases List.mem_cons.mp hy with rfl | hy
        · exact h1
        · exact h2 y hy
      · have hacc : ¬ (argmaxArea x xs).w * (argmaxArea x xs).h ≤ acc.w * acc.h := by omega
        rw [List.find?_cons_of_neg _ (by simpa using hacc)]
        exact h3
    · have e : argmaxArea acc (x :: xs) = argmaxArea acc xs := by
        simp [argmaxArea, hx]
      obtain ⟨h1, h2, h3⟩ := ih acc
      rw [e]
      refine ⟨h1, ?_, ?_⟩
      · intro y hy
        rcases List.mem_cons.mp hy with rfl | hy
        · omega
        · exact h2 y hy
      · by_cases hacc : (argmaxArea acc xs).w * (argmaxArea acc xs).h ≤ acc.w * acc.h
        · rw [List.find?_cons_of_pos _ (by simpa using hacc)] at h3 ⊢
          exact h3
        · rw [List.find?_cons_of_neg _ (by simpa using hacc)] at h3 ⊢
          have hxn : ¬ (argmaxArea acc xs).w * (argmaxArea acc xs).h ≤ x.w * x.h := by omega
          rw [List.find?_cons_of_neg _ (by simpa using hxn)]
          exact h3

theorem isPotentialVideo_eq (l : WinLine) :
    isPotentialVideo l = (isWindowLine l && inVideoBand l) := by
  unfold isPotentialVideo isWindowLine inVideoBand bigEnough
  cases l.has0x <;> cases decide (2 ≤ l.fields.length) <;> cases decide (l.w > 100) <;>
    cases decide (l.h > 100) <;> cases isVideoAspect l.w l.h <;> rfl

theorem rule2_inVideoBand (l : WinLine) (h : rule2 l = true) : inVideoBand l = true := by
  unfold rule2 at h
  unfold inVideoBand isVideoAspect bigEnough
  simp only [Bool.and_eq_true, decide_eq_true_eq] at h
  obtain ⟨⟨h1, h2⟩, h3⟩ := h
  simp only [h1, Bool.or_true, Bool.true_and, Bool.and_eq_true, decide_eq_true_eq]
  constructor <;> omega

theorem find_rule1 (lines : List WinLine)
    (hwf : ∀ l ∈ lines, 2 ≤ l.fields.length →
      l.nameMatch = true ∨ l.openglRenderer = true → l.has0x = true) :
    lines.find? (fun l => l.nameMatch && decide (2 ≤ l.fields.length)
        && decide (l.w > 100) && decide (l.h > 100))
      = (lines.filter isWindowLine).find? rule1Line := by
  rw [List.find?_filter]
  apply find?_congr_mem
  intro x hx
  have hw := hwf x hx
  unfold isWindowLine rule1Line bigEnough
  by_cases h2 : 2 ≤ x.fields.length
  · cases hn : x.nameMatch
    · simp
    · have := hw h2 (Or.inl hn)
      simp [this, h2]
  · simp [h2]

theorem find_rule3 (lines : List WinLine)
    (hwf : ∀ l ∈ lines, 2 ≤ l.fields.length →
      l.nameMatch = true ∨ l.openglRenderer = true → l.has0x = true) :
    lines.find? (fun l => l.openglRenderer && decide (2 ≤ l.fields.length))
      = (lines.filter isWindowLine).find? rule3 := by
  rw [List.find?_filter]
  apply find?_congr_mem
  intro x hx
  have hw := hwf x hx
  unfold isWindowLine rule3
  by_cases h2 : 2 ≤ x.fields.length
  · cases hn : x.openglRenderer
    · simp
    · have := hw h2 (Or.inr hn)
      simp [this, h2]
  · simp [h2]

theorem find_rule5 (lines : List WinLine) :
    lines.find? (fun l => l.has0x && decide (2 ≤ l.fields.length)
        && decide (l.w > 100) && decide (l.h > 100))
      = (lines.filter isWindowLine).find? rule5 := by
  rw [List.find?_filter]
  apply find?_congr_mem
  intro x _
  unfold isWindowLine rule5 bigEnough
  cases x.has0x <;> cases decide (2 ≤ x.fields.length) <;> cases decide (x.w > 100) <;>
    cases decide (x.h > 100) <;> rfl

theorem find_rule2 (lines : List WinLine) :
    (potentialVideoWindows lines).find? (fun win =>
        isPhoneAspect win.2.1 win.2.2 && decide (win.2.1 ≥ 400) && decide (win.2.2 ≥ 700))
      = ((lines.filter isWindowLine).find? rule2).map (fun l => (l.id, l.w, l.h)) := by
  unfold potentialVideoWindows
  rw [List.find?_map, List.find?_filter, List.find?_filter]
  congr 1
  apply find?_congr_mem
  intro x _
  have hb := rule2_inVideoBand x
  rw [isPotentialVideo_eq]
  simp only [Function.comp]
  change decide ((isWindowLine x && inVideoBand x) = true ∧ rule2 x = true)
    = decide (isWindowLine x = true ∧ rule2 x = true)
  cases hr : rule2 x
  · simp
  · simp [hb hr]

theorem mem_potential_iff (lines : List WinLine) (m : WinLine) :
    m ∈ lines.filter isPotentialVideo
      ↔ m ∈ lines.filter isWindowLine ∧ inVideoBand m = true := by
  simp only [List.mem_filter, isPotentialVideo_eq, Bool.and_eq_true]
  tauto

theorem rule4_none (lines : List WinLine) (h : potentialVideoWindows lines = []) :
    (lines.filter isWindowLine).any (rule4 (lines.filter isWindowLine)) = false := by
  have hB : lines.filter isPotentialVideo = [] := by
    unfold potentialVideoWindows at h
    exact List.map_eq_nil_iff.mp h
  rw [Bool.eq_false_iff]
  intro hany
  obtain ⟨l, hl, hr⟩ := List.any_eq_true.mp hany
  have hband : inVideoBand l = true := by
    unfold rule4 at hr
    simp only [Bool.and_eq_true] at hr
    exact hr.1
  have : l ∈ lines.filter isPotentialVideo := (mem_potential_iff lines l).mpr ⟨hl, hband⟩
  rw [hB] at this
  exact List.not_mem_nil _ this

theorem rule4_some (lines : List WinLine) (first : String × Int × Int)
    (rest : List (String × Int × Int)) (h : potentialVideoWindows lines = first :: rest) :
    ∃ r, (lines.filter isWindowLine).find? (rule4 (lines.filter isWindowLine)) = some r
      ∧ largestWindow first rest = (r.id, r.w, r.h) := by
  unfold potentialVideoWindows at h
  cases hB : lines.filter isPotentialVideo with
  | nil =>
    rw [hB] at h
    exact List.noConfusion h
  | cons b bs =>
    rw [hB] at h
    simp only [List.map_cons, List.cons.injEq] at h
    obtain ⟨hf, hr⟩ := h
    obtain ⟨_, hmax, hfirst⟩ := argmaxArea_spec bs b
    have hB1 := (argmaxArea_spec bs b).1
    refine ⟨argmaxArea b bs, ?_, ?_⟩
    · have hmemB : argmaxArea b bs ∈ lines.filter isPotentialVideo := by
        rw [hB]
        exact List.mem_of_find?_eq_some hfirst
      have hle : ∀ m ∈ lines.filter isPotentialVideo,
          m.w * m.h ≤ (argmaxArea b bs).w * (argmaxArea b bs).h := by
        intro m hm
        rw [hB] at hm
        rcases List.mem_cons.mp hm with rfl | hm
        · exact hB1
        · exact hmax m hm
      rw [← hB, List.find?_filter] at hfirst
      rw [List.find?_filter, ← hfirst]
      apply find?_congr_mem
      intro x hx
      rw [isPotentialVideo_eq]
      unfold rule4
      by_cases hwin : isWindowLine x = true
      · by_cases hband : inVideoBand x = true
        · have hxB : x ∈ lines.filter isPotentialVideo :=
            (mem_potential_iff lines x).mpr ⟨List.mem_filter.mpr ⟨hx, hwin⟩, hband⟩
          simp only [hwin, hband, Bool.and_self, Bool.true_and, true_and, decide_eq_true_eq,
            and_self]
          congr 1
          apply propext
          simp only [List.all_eq_true, Bool.or_eq_true, Bool.not_eq_true', decide_eq_true_eq]
          constructor
          · intro hall
            have hm := (mem_potential_iff lines _).mp hmemB
            rcases hall _ hm.1 with hc | hc
            · rw [hm.2] at hc
              exact Bool.noConfusion hc
            · exact hc
          · intro hge m hm
            by_cases hmb : inVideoBand m = true
            · right
              have := hle m ((mem_potential_iff lines m).mpr ⟨hm, hmb⟩)
              omega
            · left
              simpa using hmb
        · simp only [Bool.not_eq_true] at hband
          simp [hband]
      · simp only [Bool.not_eq_true] at hwin
        simp [hwin]
    · rw [← hf, ← hr]
      exact largestWindow_eq_argmax b bs

/-- Claim C19, as stated, fails: of a 500x1000 window titled "Video" and a
1080x1920 window titled "Living Room" whose class is "uxplay", findWindow
chooses the second, by its first priority, which searches the whole line; the
reference choice, whose rule 1 looks at titles, is the first, by rule 2. -/
theorem findWindow_matches_class_name :
    findWindow { xsetOk := true, xwininfo := some sampleLines }
        = { windowID := "0x1400001", width := 1080, height := 1920, err := false }
      ∧ referenceChoice sampleLines = ("0x1200001", 500, 1000) := by
  decide

/-- Claim C19, amended: for every enumeration in which each line with a
matching text or an OpenGL renderer mark carries a window id (contains "0x"),
as every line of xwininfo that names a window does, the window chosen by
findWindow is the choice of the priority list whose rule 1 is a line whose
text, title or instance or class name, contains uxplay, appletv or airplay
with both dimensions over 100: the first window matching the lowest-numbered
rule that any window matches, and the empty id when no rule matches. -/
theorem selectWindow_eq_amendedChoice (lines : List WinLine)
    (hwf : ∀ l ∈ lines, 2 ≤ l.fields.length →
      l.nameMatch = true ∨ l.openglRenderer = true → l.has0x = true) :
    selectWindow lines
        = { windowID := (amendedChoice lines).1
            width := (amendedChoice lines).2.1
            height := (amendedChoice lines).2.2
            err := false }
      ∧ findWindow { xsetOk := true, xwininfo := some lines }
        = { windowID := (amendedChoice lines).1
            width := (amendedChoice lines).2.1
            height := (amendedChoice lines).2.2
            err := false } := by
  have main : selectWindow lines
      = { windowID := (amendedChoice lines).1
          width := (amendedChoice lines).2.1
          height := (amendedChoice lines).2.2
          err := false } := by
    unfold selectWindow amendedChoice referenceChoiceWith referenceRules
    rw [find_rule1 lines hwf, find_rule2 lines, find_rule3 lines hwf, find_rule5 lines]
    simp only [List.find?_cons, any_eq_isSome_find]
    cases h1 : (lines.filter isWindowLine).find? rule1Line with
    | some l1 => simp [h1]
    | none =>
      cases h2 : (lines.filter isWindowLine).find? rule2 with
      | some l2 => simp [h2]
      | none =>
        cases h3 : (lines.filter isWindowLine).find? rule3 with
        | some l3 => simp [h3]
        | none =>
          cases hpv : potentialVideoWindows lines with
          | cons first rest =>
            obtain ⟨r, hr, hlarge⟩ := rule4_some lines first rest hpv
            simp [hr, hlarge]
          | nil =>
            have h4 := rule4_none lines hpv
            rw [any_eq_isSome_find] at h4
            have h4' : (lines.filter isWindowLine).find? (rule4 (lines.filter isWindowLine))
                = none := by
              cases hf : (lines.filter isWindowLine).find? (rule4 (lines.filter isWindowLine))
              · rfl
              · rw [hf] at h4
                exact Bool.noConfusion h4
            cases h5 : (lines.filter isWindowLine).find? rule5 with
            | some l5 => simp [h4', h5]
            | none => simp [h4', h5]
  refine ⟨main, ?_⟩
  unfold findWindow
  simp only [Bool.not_true, Bool.false_eq_true, if_false]
  exact main

theorem selectWindow_eq_amendedChoice_witness :
    selectWindow sampleLines
      = { windowID := (amendedChoice sampleLines).1
          width := (amendedChoice sampleLines).2.1
          height := (amendedChoice sampleLines).2.2
          err := false } :=
  (selectWindow_eq_amendedChoice sampleLines (by decide)).1

/-! ## Theorems: the message loop -/

theorem initializeWebRTCSession_pipeline (env : InitEnv) (pc : PeerConnection) (s : State) :
    (initializeWebRTCSession env pc s).2.1.all Effect.isPipeline = true := by
  unfold initializeWebRTCSession
  repeat' split
  all_goals simp [Effect.isPipeline]

theorem firstOfferInit_pipeline (env : OfferEnv) (pc : PeerConnection) (s : State) :
    (firstOfferInit env pc s).2.1.all Effect.isPipeline = true := by
  unfold firstOfferInit
  split
  · rfl
  · have h := initializeWebRTCSession_pipeline env.init pc s
    dsimp only
    split_ifs <;> exact h

theorem pipeline_filters (l : List Effect) (h : l.all Effect.isPipeline = true) :
    l.filter Effect.isNegotiation = [] ∧ l.filter Effect.isErrorWrite = []
      ∧ l.filter Effect.isAnswerWrite = []
      ∧ (∀ c m, Effect.wsWrite c m ∉ l) ∧ (∀ c, Effect.wsClose c ∉ l)
      ∧ (∀ p, Effect.createAnswer p ∉ l) ∧ (∀ p, Effect.setLocalDescription p ∉ l) := by
  rw [List.all_eq_true] at h
  refine ⟨?_, ?_, ?_, ?_, ?_, ?_, ?_⟩
  · rw [List.filter_eq_nil_iff]
    intro e he
    have := h e he
    cases e <;> simp_all [Effect.isPipeline, Effect.isNegotiation]
  · rw [List.filter_eq_nil_iff]
    intro e he
    have := h e he
    cases e <;> simp_all [Effect.isPipeline, Effect.isErrorWrite]
  · rw [List.filter_eq_nil_iff]
    intro e he
    have := h e he
    cases e <;> simp_all [Effect.isPipeline, Effect.isAnswerWrite]
  · intro c m he
    simpa [Effect.isPipeline] using h _ he
  · intro c he
    simpa [Effect.isPipeline] using h _ he
  · intro c he
    simpa [Effect.isPipeline] using h _ he
  · intro c he
    simpa [Effect.isPipeline] using h _ he

theorem initializeWebRTCSession_ref (env : InitEnv) (pc : PeerConnection) (s : State) :
    (initializeWebRTCSession env pc s).2.2.1.ref = pc.ref := by
  unfold initializeWebRTCSession
  repeat' split
  all_goals rfl

theorem firstOfferInit_ref (env : OfferEnv) (pc : PeerConnection) (s : State) :
    (firstOfferInit env pc s).2.2.1.ref = pc.ref := by
  unfold firstOfferInit
  split
  · rfl
  · have h := initializeWebRTCSession_ref env.init pc s
    dsimp only
    split_ifs <;> exact h

theorem getLast?_cons_append (a : Effect) (l l2 : List Effect) (x : Effect)
    (h : l2.getLast? = some x) : (a :: (l ++ l2)).getLast? = some x := by
  rw [← List.cons_append, List.getLast?_append, h]
  rfl

theorem handleMessage_offer (msg : List (String × JSONValue)) (env : OfferEnv) (conn : Conn)
    (pc : PeerConnection) (s : State)
    (htype : asString (index msg "type") = some "offer")
    (hsdp : (asString (index msg "sdp")).isSome = true) :
    handleMessage (some msg) env conn pc s = handleOffer env conn pc s := by
  obtain ⟨sdp, h⟩ := Option.isSome_iff_exists.mp hsdp
  simp [handleMessage, htype, h]

/-- Claim C21: an offer whose sdp is a string is served by the negotiation calls in
the order set remote description, create answer, set local description, with
the capture pipeline touched only on a first offer; an answer is written
exactly when every step succeeds, and then no error is written; otherwise
exactly one error message is written, as the last effect, no answer is
written and no later step runs (a rejected remote description leaves only the
call and the error, a failed initialization is followed by no answer call, a
failed answer by no local description); the connection is not closed and the
loop goes on with the next read. -/
theorem offer_runs_steps_in_order (msg : List (String × JSONValue)) (env : OfferEnv)
    (conn : Conn) (pc : PeerConnection) (s : State) (sessionID : String) (rest : List ReadResult)
    (htype : asString (index msg "type") = some "offer")
    (hsdp : (asString (index msg "sdp")).isSome = true) :
    ((handleMessage (some msg) env conn pc s).2.1.filter Effect.isNegotiation
        <+: [Effect.setRemoteDescription pc.ref, Effect.createAnswer pc.ref,
              Effect.setLocalDescription pc.ref])
      ∧ (pc.senders ≠ 0 →
          (handleMessage (some msg) env conn pc s).2.1.filter Effect.isPipeline = [])
      ∧ ((∃ sdp, Effect.wsWrite conn (Msg.answer sdp)
            ∈ (handleMessage (some msg) env conn pc s).2.1) ↔ offerSucceeds env pc s = true)
      ∧ (offerSucceeds env pc s = true →
          (handleMessage (some msg) env conn pc s).2.1.filter Effect.isErrorWrite = []
          ∧ (handleMessage (some msg) env conn pc s).2.1.filter Effect.isNegotiation
              = [Effect.setRemoteDescription pc.ref, Effect.createAnswer pc.ref,
                  Effect.setLocalDescription pc.ref]
          ∧ ∃ sdp, (handleMessage (some msg) env conn pc s).2.1.getLast?
              = some (Effect.wsWrite conn (Msg.answer sdp)))
      ∧ (offerSucceeds env pc s = false →
          ((handleMessage (some msg) env conn pc s).2.1.filter Effect.isErrorWrite).length = 1
          ∧ (handleMessage (some msg) env conn pc s).2.1.filter Effect.isAnswerWrite = []
          ∧ ∃ e, (handleMessage (some msg) env conn pc s).2.1.getLast?
              = some (Effect.wsWrite conn (Msg.error e)))
      ∧ (env.setRemoteOk = false →
          handleMessage (some msg) env conn pc s
            = (s, [Effect.setRemoteDescription pc.ref,
                Effect.wsWrite conn (Msg.error "Failed to set remote description")], pc))
      ∧ (pc.senders = 0 → (firstOfferInit env pc s).2.2.2.isSome = true →
          ∀ p, Effect.createAnswer p ∉ (handleMessage (some msg) env conn pc s).2.1)
      ∧ (env.answer = none →
          ∀ p, Effect.setLocalDescription p ∉ (handleMessage (some msg) env conn pc s).2.1)
      ∧ (∀ c, Effect.wsClose c ∉ (handleMessage (some msg) env conn pc s).2.1)
      ∧ messageLoop sessionID conn (ReadResult.message (some msg) env :: rest) pc s
          = ((messageLoop sessionID conn rest (handleMessage (some msg) env conn pc s).2.2
                (handleMessage (some msg) env conn pc s).1).1,
              (handleMessage (some msg) env conn pc s).2.1
                ++ (messageLoop sessionID conn rest (handleMessage (some msg) env conn pc s).2.2
                    (handleMessage (some msg) env conn pc s).1).2) := by
  rw [handleMessage_offer msg env conn pc s htype hsdp]
  have hp := pipeline_filters _ (firstOfferInit_pipeline env pc s)
  obtain ⟨hp1, hp2, hp3, hp4, hp5, hp6, hp7⟩ := hp
  have hq := firstOfferInit_ref env pc s
  refine ⟨?_, ?_, ?_, ?_, ?_, ?_, ?_, ?_, ?_, ?_⟩
  case refine_10 =>
    simp only [messageLoop]
    rw [handleMessage_offer msg env conn pc s htype hsdp]
  all_goals
    rcases hr : env.setRemoteOk <;> rcases ha : env.answer <;> rcases hl : env.setLocalOk <;>
      by_cases hs : pc.senders = 0 <;> rcases hi : (firstOfferInit env pc s).2.2.2 <;>
      simp [handleOffer, offerSucceeds, answerOffer, hr, ha, hl, hs, hi, hp1, hp2, hp3, hp4, hp5,
        hp6, hp7, hq, Effect.isNegotiation, Effect.isErrorWrite, Effect.isAnswerWrite,
        Effect.isPipeline, List.filter_cons, getLast?_cons_append]

theorem offer_runs_steps_in_order_witness :
    asString (index sampleOffer "type") = some "offer"
      ∧ (asString (index sampleOffer "sdp")).isSome = true
      ∧ ((∃ sdp, Effect.wsWrite 1 (Msg.answer sdp)
            ∈ (handleMessage (some sampleOffer) goodOffer 1 { ref := 1, senders := 0 }
                builtState).2.1)
          ↔ offerSucceeds goodOffer { ref := 1, senders := 0 } builtState = true) :=
  ⟨by decide, by decide,
    (offer_runs_steps_in_order sampleOffer goodOffer 1 { ref := 1, senders := 0 } builtState
      "session_7" [] (by decide) (by decide)).2.2.1⟩

theorem sampleOffer_trace :
    (handleMessage (some sampleOffer) goodOffer 1 { ref := 1, senders := 0 } builtState).2.1
      = [Effect.setRemoteDescription 1, Effect.spawn 4242, Effect.udpListen 1,
          Effect.udpListen 2, Effect.createAnswer 1, Effect.setLocalDescription 1,
          Effect.wsWrite 1 (Msg.answer "v=0 answer")] := by
  decide

theorem handled_message_has_effect (parsed : Option (List (String × JSONValue)))
    (env : OfferEnv) (conn : Conn) (pc : PeerConnection) (s : State)
    (h : isDropped parsed = false) : (handleMessage parsed env conn pc s).2.1 ≠ [] := by
  cases parsed with
  | none => simp [isDropped] at h
  | some msg =>
    unfold isDropped at h
    unfold handleMessage
    by_cases h1 : asString (index msg "type") = some "offer"
    · rcases h2 : asString (index msg "sdp") with _ | sdp
      · simp [h1, h2] at h
      · simp only [h1, h2, if_true]
        unfold handleOffer
        by_cases hr : (!env.setRemoteOk) = true
        · simp [hr]
        · by_cases hs : pc.senders = 0
          · rcases hi : (firstOfferInit env pc s).2.2.2 <;> simp [hr, hs, hi]
          · simp [hr, hs]
    · by_cases h3 : asString (index msg "type") = some "ice-candidate"
      · rcases h4 : asObject (index msg "candidate") with _ | c
        · simp [h1, h3, h4] at h
        · rcases h5 : asString (index c "candidate") with _ | cs
          · simp [h1, h3, h4, h5] at h
          · simp [h1, h3, h4, h5]
      · simp [h1, h3] at h

/-- Claim C22: a message that is not valid JSON, an offer whose sdp is not a string,
an ice-candidate whose candidate is not an object or has no string candidate
field, or a message of an unknown type is dropped: the handler performs no
effect (no write, no call on the peer connection, no close), leaves the state
and the peer connection as they were, and the loop goes on with the next
read. -/
theorem dropped_message_changes_nothing (parsed : Option (List (String × JSONValue)))
    (env : OfferEnv) (conn : Conn) (pc : PeerConnection) (s : State) (sessionID : String)
    (rest : List ReadResult) (h : isDropped parsed = true) :
    handleMessage parsed env conn pc s = (s, [], pc)
      ∧ messageLoop sessionID conn (ReadResult.message parsed env :: rest) pc s
          = messageLoop sessionID conn rest pc s := by
  have key : handleMessage parsed env conn pc s = (s, [], pc) := by
    cases parsed with
    | none => rfl
    | some msg =>
      unfold isDropped at h
      unfold handleMessage
      by_cases h1 : asString (index msg "type") = some "offer"
      · rcases h2 : asString (index msg "sdp") with _ | sdp
        · simp [h1, h2]
        · simp [h1, h2] at h
      · by_cases h3 : asString (index msg "type") = some "ice-candidate"
        · rcases h4 : asObject (index msg "candidate") with _ | c
          · simp [h1, h3, h4]
          · rcases h5 : asString (index c "candidate") with _ | cs
            · simp [h1, h3, h4, h5]
            · simp [h1, h3, h4, h5] at h
        · simp [h1, h3]
  refine ⟨key, ?_⟩
  simp only [messageLoop, key, List.nil_append]

theorem dropped_message_changes_nothing_witness :
    isDropped (some pingMessage) = true
      ∧ handleMessage (some pingMessage) goodOffer 1 { ref := 1, senders := 0 } builtState
          = (builtState, [], { ref := 1, senders := 0 }) :=
  ⟨by decide,
    (dropped_message_changes_nothing (some pingMessage) goodOffer 1 { ref := 1, senders := 0 }
      builtState "session_7" [] (by decide)).1⟩

/-! ## Theorems: offers and the capture pipeline -/

theorem addTrack_pipelineStarted (r : Nat) (s : State) :
    pipelineStarted (addTrack r s) = pipelineStarted s := by
  obtain ⟨as, pw, lws, lwid, c, awc, are, laa, pr, rw, st, wm⟩ := s
  cases as with
  | none => rfl
  | some sess =>
    obtain ⟨id, pc, cmd, vc, ac, vp, ap, ws, ctx, cf, st⟩ := sess
    cases pc with
    | none => rfl
    | some pc => by_cases hr : pc.ref = r <;> simp [addTrack, hr, pipelineStarted]

theorem initializeWebRTCSession_failure (env : InitEnv) (pc : PeerConnection) (s : State)
    (h : (initializeWebRTCSession env pc s).2.2.2 = false) :
    pipelineStarted (initializeWebRTCSession env pc s).1 = pipelineStarted s
      ∧ (∀ pid, Effect.spawn pid ∈ (initializeWebRTCSession env pc s).2.1 →
          Effect.kill pid ∈ (initializeWebRTCSession env pc s).2.1)
      ∧ (∀ v, Effect.udpListen v ∈ (initializeWebRTCSession env pc s).2.1 →
          Effect.udpClose v ∈ (initializeWebRTCSession env pc s).2.1) := by
  unfold initializeWebRTCSession at h ⊢
  repeat' split
  all_goals simp_all [addTrack_pipelineStarted]

theorem addTrack_isSome (r : Nat) (s : State) :
    (addTrack r s).activeSession.isSome = s.activeSession.isSome := by
  obtain ⟨as, pw, lws, lwid, c, awc, are, laa, pr, rw, st, wm⟩ := s
  cases as with
  | none => rfl
  | some sess =>
    obtain ⟨id, pc, cmd, vc, ac, vp, ap, ws, ctx, cf, st⟩ := sess
    cases pc with
    | none => rfl
    | some pc => by_cases hr : pc.ref = r <;> simp [addTrack, hr]

theorem initializeWebRTCSession_success (env : InitEnv) (pc : PeerConnection) (s : State)
    (h : (initializeWebRTCSession env pc s).2.2.2 = true) :
    ∃ pid v a, env.ffmpeg = some pid ∧ env.videoListen = some v ∧ env.audioListen = some a
      ∧ (initializeWebRTCSession env pc s).2.1
          = [Effect.spawn pid, Effect.udpListen v, Effect.udpListen a]
      ∧ (s.activeSession.isSome = true →
          pipelineStarted (initializeWebRTCSession env pc s).1 = true) := by
  unfold initializeWebRTCSession at h ⊢
  repeat' split
  all_goals simp_all [pipelineStarted]
  intro hs
  have h2 : (addTrack pc.ref (addTrack pc.ref s)).activeSession.isSome = true := by
    rw [addTrack_isSome, addTrack_isSome, hs]
  obtain ⟨sess, hsess⟩ := Option.isSome_iff_exists.mp h2
  simp [hsess]

theorem first_offer_answer_has_pipeline (env : OfferEnv) (conn : Conn) (pc : PeerConnection)
    (s : State) (sdp : String) (hzero : pc.senders = 0)
    (h : Effect.wsWrite conn (Msg.answer sdp) ∈ (handleOffer env conn pc s).2.1) :
    ∃ pid v a, [Effect.spawn pid, Effect.udpListen v, Effect.udpListen a]
        <:+: (handleOffer env conn pc s).2.1
      ∧ (s.activeSession.isSome = true → pipelineStarted (handleOffer env conn pc s).1 = true) := by
  unfold handleOffer at h ⊢
  have hp := pipeline_filters _ (firstOfferInit_pipeline env pc s)
  obtain ⟨-, -, -, hp4, -, -, -⟩ := hp
  rcases hr : env.setRemoteOk
  · simp [hr] at h
  · rcases hi : (firstOfferInit env pc s).2.2.2 with _ | e
    · have hok : (initializeWebRTCSession env.init pc s).2.2.2 = true
          ∧ firstOfferInit env pc s
            = ((initializeWebRTCSession env.init pc s).1, (initializeWebRTCSession env.init pc s).2.1,
                (initializeWebRTCSession env.init pc s).2.2.1, none) := by
        unfold firstOfferInit at hi ⊢
        split at hi
        · simp at hi
        · rename_i hw
          simp only [hw]
          by_cases hb : (initializeWebRTCSession env.init pc s).2.2.2 = true
          · simp [hb]
          · simp [hb] at hi
      obtain ⟨pid, v, a, -, -, -, heff, hst⟩ := initializeWebRTCSession_success env.init pc s hok.1
      refine ⟨pid, v, a, ?_, ?_⟩
      · simp only [hr, hzero, hi, hok.2, heff]
        exact ⟨[Effect.setRemoteDescription pc.ref],
          answerOffer env conn (initializeWebRTCSession env.init pc s).2.2.1, by simp⟩
      · simp only [hr, hzero, hi, hok.2]
        simpa using hst
    · simp [hr, hzero, hi, hp4] at h

/-- Claim C28 (the code departs from it): when the first offer on a peer connection
fails in `initializeWebRTCSession` after a track was added, the next offer on
that peer connection is not a first offer any more: the handler skips the
initialization and writes an answer although the capture pipeline of the
session was never started (no encoder is left running, no RTP listener is
open). -/
theorem answer_written_without_pipeline (env1 env2 : OfferEnv) (conn : Conn)
    (pc : PeerConnection) (s : State) (sessionID sdp : String)
    (hzero : pc.senders = 0) (hnot : pipelineStarted s = false)
    (hrem : env1.setRemoteOk = true)
    (hwin : (waitForUxPlayWindowSimple env1.windowProbes).isSome = true)
    (hfail : (initializeWebRTCSession env1.init pc s).2.2.2 = false)
    (hsend : 0 < (initializeWebRTCSession env1.init pc s).2.2.1.senders)
    (h2r : env2.setRemoteOk = true) (h2a : env2.answer = some sdp)
    (h2l : env2.setLocalOk = true) :
    (messageLoop sessionID conn
        [ReadResult.message (some sampleOffer) env1, ReadResult.message (some sampleOffer) env2]
        pc s).2
      = Effect.setRemoteDescription pc.ref :: (initializeWebRTCSession env1.init pc s).2.1
          ++ [Effect.wsWrite conn (Msg.error "Failed to initialize WebRTC session"),
              Effect.setRemoteDescription pc.ref, Effect.createAnswer pc.ref,
              Effect.setLocalDescription pc.ref, Effect.wsWrite conn (Msg.answer sdp)]
      ∧ pipelineStarted (messageLoop sessionID conn
          [ReadResult.message (some sampleOffer) env1,
            ReadResult.message (some sampleOffer) env2] pc s).1 = false
      ∧ (∀ pid, Effect.spawn pid ∈ (initializeWebRTCSession env1.init pc s).2.1 →
          Effect.kill pid ∈ (initializeWebRTCSession env1.init pc s).2.1)
      ∧ (∀ v, Effect.udpListen v ∈ (initializeWebRTCSession env1.init pc s).2.1 →
          Effect.udpClose v ∈ (initializeWebRTCSession env1.init pc s).2.1) := by
  obtain ⟨hf1, hf2, hf3⟩ := initializeWebRTCSession_failure env1.init pc s hfail
  have hq := initializeWebRTCSession_ref env1.init pc s
  obtain ⟨w, hw⟩ := Option.isSome_iff_exists.mp hwin
  have ht : asString (index sampleOffer "type") = some "offer" := by decide
  have hs : asString (index sampleOffer "sdp") = some "v=0" := by decide
  have hne : ¬ (initializeWebRTCSession env1.init pc s).2.2.1.senders = 0 := by omega
  refine ⟨?_, ?_, hf2, hf3⟩
  · simp [messageLoop, handleMessage, ht, hs, handleOffer, firstOfferInit, hw, hfail, hrem, hzero,
      h2r, h2a, h2l, answerOffer, hne, hq]
  · simp [messageLoop, handleMessage, ht, hs, handleOffer, firstOfferInit, hw, hfail, hrem, hzero,
      h2r, h2a, h2l, answerOffer, hne, hq, hf1, hnot]

theorem answer_written_without_pipeline_witness :
    pipelineStarted builtState = false
      ∧ (initializeWebRTCSession failingOffer.init { ref := 1, senders := 0 } builtState).2.2.2
          = false
      ∧ (messageLoop "session_7" 1
          [ReadResult.message (some sampleOffer) failingOffer,
            ReadResult.message (some sampleOffer) goodOffer]
          { ref := 1, senders := 0 } builtState).2
        = Effect.setRemoteDescription 1
            :: (initializeWebRTCSession failingOffer.init { ref := 1, senders := 0 }
                  builtState).2.1
            ++ [Effect.wsWrite 1 (Msg.error "Failed to initialize WebRTC session"),
                Effect.setRemoteDescription 1, Effect.createAnswer 1,
                Effect.setLocalDescription 1, Effect.wsWrite 1 (Msg.answer "v=0 answer")]
      ∧ pipelineStarted (messageLoop "session_7" 1
          [ReadResult.message (some sampleOffer) failingOffer,
            ReadResult.message (some sampleOffer) goodOffer]
          { ref := 1, senders := 0 } builtState).1 = false :=
  ⟨by decide, by decide,
    (answer_written_without_pipeline failingOffer goodOffer 1 { ref := 1, senders := 0 }
      builtState "session_7" "v=0 answer" (by decide) (by decide) (by decide) (by decide)
      (by decide) (by decide) (by decide) (by decide) (by decide)).1,
    (answer_written_without_pipeline failingOffer goodOffer 1 { ref := 1, senders := 0 }
      builtState "session_7" "v=0 answer" (by decide) (by decide) (by decide) (by decide)
      (by decide) (by decide) (by decide) (by decide) (by decide)).2.1⟩

theorem two_offers_trace :
    (messageLoop "session_7" 1
        [ReadResult.message (some sampleOffer) failingOffer,
          ReadResult.message (some sampleOffer) goodOffer]
        { ref := 1, senders := 0 } builtState).2
      = [Effect.setRemoteDescription 1,
          Effect.wsWrite 1 (Msg.error "Failed to initialize WebRTC session"),
          Effect.setRemoteDescription 1, Effect.createAnswer 1,
          Effect.setLocalDescription 1, Effect.wsWrite 1 (Msg.answer "v=0 answer")] := by
  decide

theorem encoderPorts_reached (env : InitEnv) (pc : PeerConnection) (s : State) (pid : Nat)
    (h : Effect.spawn pid ∈ (initializeWebRTCSession env pc s).2.1) :
    (encoderPorts env).isSome = true := by
  unfold initializeWebRTCSession at h
  unfold encoderPorts
  repeat' split
  all_goals simp_all

/-- Claim C29 (the code departs from it): the two port searches of
initializeWebRTCSession are independent, and the RTP ports it hands to the
encoder are the images of their results under the port mapping; they differ
exactly when the two results differ, so two searches that return the same
port give one RTP port for video and audio.  With these ports the encoder is
started whenever startFFmpegRTP succeeds, and a successful initialization
stores them in the session. -/
theorem rtp_ports_equal_when_results_equal (env : InitEnv) (v a : Int)
    (hv : findFreePortWithRetry 3 env.videoProbes = some v)
    (ha : findFreePortWithRetry 3 env.audioProbes = some a)
    (ht : env.videoTrackOk = true ∧ env.addVideoTrackOk = true ∧ env.audioTrackOk = true
      ∧ env.addAudioTrackOk = true) :
    encoderPorts env = some (rtpPort v, rtpPort a)
      ∧ (rtpPort v = rtpPort a ↔ v = a)
      ∧ (∀ pc s pid, env.ffmpeg = some pid →
          Effect.spawn pid ∈ (initializeWebRTCSession env pc s).2.1)
      ∧ (∀ pc s, (initializeWebRTCSession env pc s).2.2.2 = true →
          ∀ sess, (initializeWebRTCSession env pc s).1.activeSession = some sess →
            s.activeSession.isSome = true →
            sess.VideoPort = rtpPort v ∧ sess.AudioPort = rtpPort a) := by
  obtain ⟨t1, t2, t3, t4⟩ := ht
  have rv := findFreePortWithRetryFrom_range _ _ _ _ hv
  have ra := findFreePortWithRetryFrom_range _ _ _ _ ha
  refine ⟨?_, ?_, ?_, ?_⟩
  · simp [encoderPorts, hv, ha, t1, t2, t3, t4]
  · rw [rtpPort_eq v (by omega), rtpPort_eq a (by omega)]
    constructor
    · intro h
      omega
    · intro h
      rw [h]
  · intro pc s pid hf
    unfold initializeWebRTCSession
    simp only [hv, ha, t1, t2, t3, t4, hf]
    rcases hvl : env.videoListen with _ | x <;> rcases hal : env.audioListen with _ | y <;> simp
  · intro pc s hok sess hsess hs
    unfold initializeWebRTCSession at hok hsess
    simp only [hv, ha, t1, t2, t3, t4] at hok hsess
    rcases hf : env.ffmpeg with _ | pid <;> rcases hvl : env.videoListen with _ | x <;>
      rcases hal : env.audioListen with _ | y <;> simp [hf, hvl, hal] at hok hsess
    have h2 : (addTrack pc.ref (addTrack pc.ref s)).activeSession.isSome = true := by
      rw [addTrack_isSome, addTrack_isSome, hs]
    obtain ⟨sess0, hsess0⟩ := Option.isSome_iff_exists.mp h2
    simp [hsess0] at hsess
    subst hsess
    exact ⟨rfl, rfl⟩

theorem rtp_ports_equal_when_results_equal_witness :
    findFreePortWithRetry 3 sameDraw.videoProbes = some 5017
      ∧ findFreePortWithRetry 3 sameDraw.audioProbes = some 5017
      ∧ encoderPorts sameDraw = some (rtpPort 5017, rtpPort 5017) :=
  ⟨by decide, by decide,
    (rtp_ports_equal_when_results_equal sameDraw 5017 5017 (by decide) (by decide)
      (by decide)).1⟩

theorem sameDraw_ports : encoderPorts sameDraw = some (50017, 50017) := by
  decide

/-! ## Theorems: invariants of reachable states -/

theorem notifyWebSocketClient_flagsOf (m : Msg) (w : Bool) (s : State) :
    flagsOf (notifyWebSocketClient m w s).1 = flagsOf s := by
  obtain ⟨as, pw, lws, lwid, c, awc, are, laa, pr, rw, st, wm⟩ := s
  cases awc <;> cases w <;> rfl

theorem cleanupWebRTCSession_flagsOf (found : FindWindowResult) (now : Int) (w : Bool)
    (s : State) : flagsOf (cleanupWebRTCSession found now w s).1 = flagsOf s := by
  obtain ⟨as, pw, lws, lwid, c, awc, are, laa, pr, rw, st, wm⟩ := s
  cases as <;> cases awc <;> cases w <;> cases are <;>
    simp [cleanupWebRTCSession, checkAutoReconnectAfterCleanup, notifyWebSocketClient, flagsOf]
    <;> split_ifs <;> simp

theorem signalReturn_flagsOf (sessionID : String) (conn : Conn) (s : State) :
    flagsOf (signalReturn sessionID conn s).1 = flagsOf s := by
  obtain ⟨as, pw, lws, lwid, c, awc, are, laa, pr, rw, st, wm⟩ := s
  cases as <;> simp [signalReturn, deferredSessionCleanup, flagsOf]
  split_ifs <;> simp

theorem cleanupActiveSession_flagsOf (s : State) :
    flagsOf (cleanupActiveSession s).1 = flagsOf s := by
  obtain ⟨as, pw, lws, lwid, c, awc, are, laa, pr, rw, st, wm⟩ := s
  cases as <;> rfl

theorem windowWaitFailed_flagsOf (ws : List Msg) (sessionID : String) (conn : Conn) (s : State) :
    flagsOf (windowWaitFailed ws sessionID conn s).1 = flagsOf s := by
  unfold windowWaitFailed
  simp only []
  rw [signalReturn_flagsOf]
  rfl

theorem addTrack_flagsOf (r : Nat) (s : State) : flagsOf (addTrack r s) = flagsOf s := by
  obtain ⟨as, pw, lws, lwid, c, awc, are, laa, pr, rw, st, wm⟩ := s
  cases as with
  | none => rfl
  | some sess =>
    obtain ⟨id, pc, cmd, vc, ac, vp, ap, ws, ctx, cf, st⟩ := sess
    cases pc with
    | none => rfl
    | some pc => by_cases hr : pc.ref = r <;> simp [addTrack, hr, flagsOf]

theorem initializeWebRTCSession_flagsOf (env : InitEnv) (pc : PeerConnection) (s : State) :
    flagsOf (initializeWebRTCSession env pc s).1 = flagsOf s := by
  have h2 : flagsOf (addTrack pc.ref (addTrack pc.ref s)) = flagsOf s := by
    rw [addTrack_flagsOf, addTrack_flagsOf]
  unfold initializeWebRTCSession
  repeat' split
  all_goals first | rfl | exact addTrack_flagsOf _ _ | exact h2 | (dsimp only; split <;> exact h2)

theorem handleMessage_flagsOf (parsed : Option (List (String × JSONValue))) (env : OfferEnv)
    (conn : Conn) (pc : PeerConnection) (s : State) :
    flagsOf (handleMessage parsed env conn pc s).1 = flagsOf s := by
  have hi : flagsOf (firstOfferInit env pc s).1 = flagsOf s := by
    unfold firstOfferInit
    split
    · rfl
    · have h := initializeWebRTCSession_flagsOf env.init pc s
      dsimp only
      split_ifs <;> exact h
  have ho : flagsOf (handleOffer env conn pc s).1 = flagsOf s := by
    unfold handleOffer
    by_cases hr : (!env.setRemoteOk) = true
    · simp [hr]
    · by_cases hs : pc.senders = 0
      · rcases hi2 : (firstOfferInit env pc s).2.2.2 <;> simp [hr, hs, hi2, hi]
      · simp [hr, hs]
  unfold handleMessage
  repeat' split
  all_goals first | rfl | exact ho

theorem signalAdmission_flagsOf (now : Int) (s : State) :
    flagsOf (signalAdmission now s).1 = flagsOf s := by
  unfold signalAdmission
  simp only []
  split_ifs <;> rfl

theorem signalConstruct_flagsOf (env : SignalEnv) (s : State) :
    flagsOf (signalConstruct env s).1 = flagsOf s
      ∨ ∃ conn, flagsOf (signalConstruct env s).1
          = flagsOf (connectTimeWindowCheck env.found env.checkAt
              { s with activeWebSocketConn := some conn }) := by
  unfold signalConstruct
  rcases hu : env.upgrade with _ | conn
  · left
    rfl
  · right
    refine ⟨conn, ?_⟩
    dsimp only
    repeat' split
    all_goals rfl

theorem signalHandler_flagsOf (env : SignalEnv) (s : State) :
    flagsOf (signalHandler env s).1 = flagsOf s
      ∨ ∃ s0, flagsOf s0 = flagsOf s
          ∧ flagsOf (signalHandler env s).1
            = flagsOf (connectTimeWindowCheck env.found env.checkAt s0) := by
  unfold signalHandler
  dsimp only
  split
  · left
    exact signalAdmission_flagsOf env.reserveAt s
  · left
    exact signalAdmission_flagsOf env.reserveAt s
  · rcases signalConstruct_flagsOf env (signalAdmission env.reserveAt s).1 with h | ⟨conn, h⟩
    · left
      rw [← signalAdmission_flagsOf env.reserveAt s]
      exact h
    · right
      exact ⟨{ (signalAdmission env.reserveAt s).1 with activeWebSocketConn := some conn },
        signalAdmission_flagsOf env.reserveAt s, h⟩

theorem connectTimeWindowCheck_flags (found : FindWindowResult) (now : Int) (s : State) :
    (flagAgrees s → flagAgrees (connectTimeWindowCheck found now s))
      ∧ (s.windowStateCheckCount ≤ 4 →
          (connectTimeWindowCheck found now s).windowStateCheckCount ≤ 4) := by
  unfold connectTimeWindowCheck flagAgrees
  generalize getWindowCountAndID found = obs
  obtain ⟨cnt, id⟩ := obs
  obtain ⟨as, pw, lws, lwid, c, awc, are, laa, pr, rw, st, wm⟩ := s
  simp only []
  by_cases hp : cnt > 0 <;> by_cases h2 : id = "" <;> cases lws <;> simp [hp, h2]
  split_ifs <;> simp [h2]

theorem readyFlagBranch_flags (pc : PeerConnection) (w : Bool) (s : State)
    (h : flagAgrees s) : flagAgrees (readyFlagBranch pc w s).1 := by
  unfold flagAgrees at h ⊢
  obtain ⟨as, pw, lws, lwid, c, awc, are, laa, pr, rw, st, wm⟩ := s
  simp only [] at h
  cases awc <;> cases w <;>
    simp [readyFlagBranch, notifyWebSocketClient] <;>
    split_ifs <;> simp [h]

theorem readyFlagBranch_count (pc : PeerConnection) (w : Bool) (s : State) :
    (readyFlagBranch pc w s).1.windowStateCheckCount = s.windowStateCheckCount := by
  obtain ⟨as, pw, lws, lwid, c, awc, are, laa, pr, rw, st, wm⟩ := s
  cases awc <;> cases w <;>
    simp [readyFlagBranch, notifyWebSocketClient] <;>
    split_ifs <;> simp

theorem handleWindowDisappeared_flags (w : Bool) (s : State) :
    (handleWindowDisappeared w s).1.phoneReconnectedAndReady = false
      ∧ (handleWindowDisappeared w s).1.reconnectedWindowID = "" := by
  obtain ⟨as, pw, lws, lwid, c, awc, are, laa, pr, rw, st, wm⟩ := s
  cases as <;> cases awc <;> cases w <;>
    simp [handleWindowDisappeared, notifyWebSocketClient]

theorem handleWindowAppeared_flags (now : Int) (s : State) (hid : s.lastWindowID ≠ "")
    (h : flagAgrees s) : flagAgrees (handleWindowAppeared now s).1 := by
  unfold flagAgrees at h ⊢
  obtain ⟨as, pw, lws, lwid, c, awc, are, laa, pr, rw, st, wm⟩ := s
  simp only [] at hid h
  cases pw <;> cases awc <;>
    simp [handleWindowAppeared] <;>
    split_ifs <;> simp [h, hid]

theorem handleWindowIDChanged_flags (id : String) (now : Int) (w : Bool) (s : State)
    (hid : id ≠ "") (h : flagAgrees s) : flagAgrees (handleWindowIDChanged id now w s).1 := by
  unfold flagAgrees at h ⊢
  obtain ⟨as, pw, lws, lwid, c, awc, are, laa, pr, rw, st, wm⟩ := s
  simp only [] at h
  cases as <;> cases awc <;> cases w <;> cases are <;>
    simp [handleWindowIDChanged, notifyWebSocketClient, hasLiveMedia] <;>
    split_ifs <;> simp [h, hid]

theorem flagAgrees_congr (a b : State) (h : flagsOf a = flagsOf b) :
    (flagAgrees a ↔ flagAgrees b) ∧ a.windowStateCheckCount = b.windowStateCheckCount := by
  unfold flagsOf at h
  simp only [Prod.mk.injEq] at h
  obtain ⟨h1, h2, h3⟩ := h
  unfold flagAgrees
  rw [h1, h2]
  exact ⟨Iff.rfl, h3⟩

theorem getWindowCountAndID_id (r : FindWindowResult) :
    (getWindowCountAndID r).1 > 0 → (getWindowCountAndID r).2 ≠ "" := by
  unfold getWindowCountAndID
  split_ifs with hc
  · simp
  · intro _
    simp only [Bool.or_eq_true, not_or] at hc
    simpa using hc.1.1.2

theorem handleWindowDisappeared_flagAgrees (w : Bool) (s : State) :
    flagAgrees (handleWindowDisappeared w s).1 := by
  have h := handleWindowDisappeared_flags w s
  unfold flagAgrees
  rw [h.1, h.2]
  simp

theorem handleWindowStateChange_flags (t : Tick) (s : State) (h : flagAgrees s) :
    flagAgrees (handleWindowStateChange t s).1 := by
  have hobs := getWindowCountAndID_id t.found
  unfold handleWindowStateChange
  generalize getWindowCountAndID t.found = obs at hobs
  obtain ⟨cnt, id⟩ := obs
  obtain ⟨as, pw, lws, lwid, c, awc, are, laa, pr, rw, st, wm⟩ := s
  simp only [] at hobs ⊢
  by_cases hp : cnt > 0 <;> cases lws <;> by_cases h1 : lwid = "" <;> by_cases h2 : id = ""
    <;> by_cases h3 : lwid = id <;> by_cases h4 : c + 1 < 5
    <;> simp [hp, h1, h2, h3, h4, WINDOW_STATE_CONFIRMATION_CHECKS]
    <;> first
      | exact h
      | exact handleWindowDisappeared_flagAgrees _ _
      | exact handleWindowIDChanged_flags _ _ _ _ h2 h
      | exact handleWindowAppeared_flags _ _ h2 h
      | exact absurd (hobs hp) (by simp [h2])

theorem handleWindowStateChange_count_le (t : Tick) (s : State) :
    (handleWindowStateChange t s).1.windowStateCheckCount ≤ 4 := by
  rcases handleWindowStateChange_window t s with ⟨-, -, h⟩ | ⟨-, -, -, h⟩
      | ⟨-, -, h3, -, h⟩ | ⟨-, -, -, -, h⟩ <;> omega

theorem reachable_invariants (s : State) (h : Reachable s) :
    flagAgrees s ∧ s.windowStateCheckCount ≤ 4 := by
  induction h with
  | init startTime => exact ⟨by simp [flagAgrees, initState], by simp [initState]⟩
  | startup startTime found =>
    unfold startupState
    dsimp only
    split_ifs
    · exact ⟨by simp [flagAgrees, initState], by simp [initState]⟩
    · exact ⟨by simp [flagAgrees, initState], by simp [initState]⟩
  | tick t s _ ih =>
    exact ⟨handleWindowStateChange_flags t s ih.1, handleWindowStateChange_count_le t s⟩
  | signal env s _ ih =>
    rcases signalHandler_flagsOf env s with h | ⟨s0, h0, h⟩
    · have := flagAgrees_congr _ _ h
      exact ⟨this.1.mpr ih.1, by rw [this.2]; exact ih.2⟩
    · have e0 := flagAgrees_congr _ _ h0
      have e1 := flagAgrees_congr _ _ h
      have c := connectTimeWindowCheck_flags env.found env.checkAt s0
      exact ⟨e1.1.mpr (c.1 (e0.1.mpr ih.1)), by rw [e1.2]; exact c.2 (by rw [e0.2]; exact ih.2)⟩
  | connectCheck found now s _ ih =>
    have c := connectTimeWindowCheck_flags found now s
    exact ⟨c.1 ih.1, c.2 ih.2⟩
  | readyFlag pc writeOk s _ ih =>
    exact ⟨readyFlagBranch_flags pc writeOk s ih.1, by rw [readyFlagBranch_count]; exact ih.2⟩
  | waitFailed ws sid conn s _ ih =>
    have := flagAgrees_congr _ _ (windowWaitFailed_flagsOf ws sid conn s)
    exact ⟨this.1.mpr ih.1, by rw [this.2]; exact ih.2⟩
  | message parsed env conn pc s _ ih =>
    have := flagAgrees_congr _ _ (handleMessage_flagsOf parsed env conn pc s)
    exact ⟨this.1.mpr ih.1, by rw [this.2]; exact ih.2⟩
  | cleanup found now w s _ ih =>
    have := flagAgrees_congr _ _ (cleanupWebRTCSession_flagsOf found now w s)
    exact ⟨this.1.mpr ih.1, by rw [this.2]; exact ih.2⟩
  | handlerReturn sid conn s _ ih =>
    have := flagAgrees_congr _ _ (signalReturn_flagsOf sid conn s)
    exact ⟨this.1.mpr ih.1, by rw [this.2]; exact ih.2⟩
  | iceState st found now w s _ ih =>
    have : flagsOf (onICEConnectionStateChange st found now w s).1 = flagsOf s := by
      unfold onICEConnectionStateChange
      cases st <;> first | rfl | exact cleanupWebRTCSession_flagsOf found now w s
    have := flagAgrees_congr _ _ this
    exact ⟨this.1.mpr ih.1, by rw [this.2]; exact ih.2⟩
  | connState st found now w s _ ih =>
    have : flagsOf (onConnectionStateChange st found now w s).1 = flagsOf s := by
      unfold onConnectionStateChange
      split_ifs
      · exact cleanupWebRTCSession_flagsOf found now w s
      · rfl
    have := flagAgrees_congr _ _ this
    exact ⟨this.1.mpr ih.1, by rw [this.2]; exact ih.2⟩
  | cleanupEndpoint s _ ih =>
    have := flagAgrees_congr _ _ (cleanupActiveSession_flagsOf s)
    exact ⟨this.1.mpr ih.1, by rw [this.2]; exact ih.2⟩

/-- Claim C26: in every reachable state the ready flag is set exactly when the
window id stored with it is non-empty: a set flag comes with a non-empty id,
and the two are cleared together.  The three window handlers keep this from a
reachable state when they are called as the window monitor calls them:
handleWindowDisappeared clears both, handleWindowIDChanged is given a non-empty
id, handleWindowAppeared runs with a non-empty lastWindowID; so do the
connect-time window check and the ready-flag branch. -/
theorem ready_flag_agrees_with_window_id (s : State) (h : Reachable s) :
    (s.phoneReconnectedAndReady = true → s.reconnectedWindowID ≠ "")
      ∧ (s.phoneReconnectedAndReady = false → s.reconnectedWindowID = "")
      ∧ (∀ w, (handleWindowDisappeared w s).1.phoneReconnectedAndReady = false
            ∧ (handleWindowDisappeared w s).1.reconnectedWindowID = "")
      ∧ (∀ id now w, id ≠ "" → flagAgrees (handleWindowIDChanged id now w s).1)
      ∧ (∀ now, s.lastWindowID ≠ "" → flagAgrees (handleWindowAppeared now s).1)
      ∧ (∀ found now, flagAgrees (connectTimeWindowCheck found now s))
      ∧ (∀ pc w, flagAgrees (readyFlagBranch pc w s).1) := by
  have hi := (reachable_invariants s h).1
  refine ⟨hi.mp, ?_, fun w => handleWindowDisappeared_flags w s,
    fun id now w hid => handleWindowIDChanged_flags id now w s hid hi,
    fun now hid => handleWindowAppeared_flags now s hid hi,
    fun found now => (connectTimeWindowCheck_flags found now s).1 hi,
    fun pc w => readyFlagBranch_flags pc w s hi⟩
  intro hf
  by_contra hne
  have := hi.mpr hne
  rw [hf] at this
  cases this

theorem ready_flag_agrees_with_window_id_witness :
    Reachable (connectTimeWindowCheck (presentTick "0x1" 0).found (100 * second) (initState 0))
      ∧ (connectTimeWindowCheck (presentTick "0x1" 0).found (100 * second)
          (initState 0)).phoneReconnectedAndReady = true
      ∧ (connectTimeWindowCheck (presentTick "0x1" 0).found (100 * second)
          (initState 0)).reconnectedWindowID ≠ "" :=
  ⟨Reachable.connectCheck _ _ _ (Reachable.init 0), by decide,
    (ready_flag_agrees_with_window_id _
      (Reachable.connectCheck (presentTick "0x1" 0).found (100 * second) (initState 0)
        (Reachable.init 0))).1 (by decide)⟩

/-- Claim C27: after every tick of handleWindowStateChange from a reachable state the
confirmation counter lies in [0, 4] (as it does before the tick): the tick
resets it to 0 when a window-id change is detected, when the observation
equals lastWindowState, and when the fifth consecutive opposite observation
confirms a change; otherwise it adds one, which keeps it below 5. -/
theorem check_count_stays_below_five (t : Tick) (s : State) (h : Reachable s) :
    s.windowStateCheckCount ≤ 4
      ∧ (handleWindowStateChange t s).1.windowStateCheckCount ≤ 4
      ∧ (idChangeObserved t s = true ∨ t.present = s.lastWindowState
          ∨ 5 ≤ s.windowStateCheckCount + 1 →
          (handleWindowStateChange t s).1.windowStateCheckCount = 0)
      ∧ (idChangeObserved t s = false → t.present ≠ s.lastWindowState →
          s.windowStateCheckCount + 1 < 5 →
          (handleWindowStateChange t s).1.windowStateCheckCount = s.windowStateCheckCount + 1) := by
  refine ⟨(reachable_invariants s h).2, ?_⟩
  rcases handleWindowStateChange_window t s with ⟨h1, -, h3⟩ | ⟨h1, h2, -, h4⟩
      | ⟨h1, h2, h3, -, h5⟩ | ⟨h1, h2, h3, -, h5⟩
  · refine ⟨by omega, fun _ => h3, ?_⟩
    intro h
    rw [h1] at h
    cases h
  · refine ⟨by omega, fun _ => h4, ?_⟩
    intro _ hne
    exact absurd h2 hne
  · refine ⟨by omega, ?_, fun _ _ _ => h5⟩
    rintro (h | h | h)
    · rw [h1] at h
      cases h
    · rw [h] at h2
      cases hs : s.lastWindowState <;> simp [hs] at h2
    · omega
  · exact ⟨by omega, fun _ => h5, fun _ _ hlt => by omega⟩

theorem check_count_stays_below_five_witness :
    Reachable (handleWindowStateChange (presentTick "0x1" 0) (initState 0)).1
      ∧ (handleWindowStateChange (presentTick "0x1" second)
          (handleWindowStateChange (presentTick "0x1" 0) (initState 0)).1).1.windowStateCheckCount
        ≤ 4 :=
  ⟨Reachable.tick _ _ (Reachable.init 0),
    (check_count_stays_below_five (presentTick "0x1" second)
      (handleWindowStateChange (presentTick "0x1" 0) (initState 0)).1
      (Reachable.tick _ _ (Reachable.init 0))).2.1⟩

/-! ## Theorems: the size history -/

theorem updateAirPlayState_history (newSize reason : String) (now : Int) (a : AirPlayState) :
    (updateAirPlayState newSize reason now a).SizeHistory
      = if a.WindowSize ≠ newSize then
          lastN 50 (a.SizeHistory
            ++ [{ Timestamp := now, OldSize := a.WindowSize, NewSize := newSize,
                  Reason := reason, Connected := a.Connected }])
        else a.SizeHistory := by
  unfold updateAirPlayState lastN
  by_cases h : a.WindowSize = newSize
  · simp [h]
  · simp only [ne_eq, h, not_false_eq_true, if_true]
    split_ifs with h2
    · rfl
    · rw [Nat.sub_eq_zero_of_le (Nat.le_of_not_gt h2)]
      rfl

theorem updateAirPlayState_fields (newSize reason : String) (now : Int) (a : AirPlayState) :
    (updateAirPlayState newSize reason now a).WindowSize = newSize
      ∧ (updateAirPlayState newSize reason now a).Connected = a.Connected := by
  unfold updateAirPlayState
  by_cases h : a.WindowSize = newSize <;> simp [h]

theorem lastN_length (n : Nat) (l : List SizeChangeEvent) : (lastN n l).length ≤ n := by
  unfold lastN
  rw [List.length_drop]
  omega

theorem lastN_of_le (n : Nat) (l : List SizeChangeEvent) (h : l.length ≤ n) : lastN n l = l := by
  unfold lastN
  rw [Nat.sub_eq_zero_of_le h]
  rfl

theorem lastN_append (n : Nat) (l r : List SizeChangeEvent) :
    lastN n (lastN n l ++ r) = lastN n (l ++ r) := by
  unfold lastN
  rw [← List.drop_append_of_le_length (Nat.sub_le _ _), List.drop_drop]
  congr 1
  simp only [List.length_append, List.length_drop]
  omega

theorem updateAirPlayState_length (newSize reason : String) (now : Int) (a : AirPlayState)
    (h : a.SizeHistory.length ≤ 50) :
    (updateAirPlayState newSize reason now a).SizeHistory.length ≤ 50 := by
  rw [updateAirPlayState_history]
  split_ifs
  · exact lastN_length 50 _
  · exact h

theorem runUpdates_history (calls : List UpdateCall) (a : AirPlayState)
    (h : a.SizeHistory.length ≤ 50) :
    (runUpdates calls a).SizeHistory
      = lastN 50 (a.SizeHistory ++ changeEvents a.Connected a.WindowSize calls) := by
  induction calls generalizing a with
  | nil =>
    simp only [runUpdates, changeEvents, List.append_nil]
    exact (lastN_of_le 50 _ h).symm
  | cons c cs ih =>
    have hf := updateAirPlayState_fields c.newSize c.reason c.now a
    rw [runUpdates, ih _ (updateAirPlayState_length c.newSize c.reason c.now a h), hf.1, hf.2,
      updateAirPlayState_history]
    by_cases hne : a.WindowSize = c.newSize
    · simp [changeEvents, hne]
    · simp only [changeEvents, ne_eq, hne, not_false_eq_true, if_true]
      rw [lastN_append, List.append_assoc]
      rfl

theorem updateAirPlayState_linked (newSize reason : String) (now : Int) (a : AirPlayState)
    (hc : List.Chain' linked a.SizeHistory)
    (hl : ∀ e ∈ a.SizeHistory.getLast?, e.NewSize = a.WindowSize) :
    List.Chain' linked (updateAirPlayState newSize reason now a).SizeHistory
      ∧ ∀ e ∈ (updateAirPlayState newSize reason now a).SizeHistory.getLast?,
          e.NewSize = (updateAirPlayState newSize reason now a).WindowSize := by
  rw [updateAirPlayState_history, (updateAirPlayState_fields newSize reason now a).1]
  by_cases hne : a.WindowSize = newSize
  · simp only [ne_eq, hne, not_true_eq_false, if_false]
    refine ⟨hc, ?_⟩
    intro e he
    rw [← hne]
    exact hl e he
  · simp only [ne_eq, hne, not_false_eq_true, if_true]
    have hch : List.Chain' linked (a.SizeHistory
        ++ [{ Timestamp := now, OldSize := a.WindowSize, NewSize := newSize, Reason := reason,
              Connected := a.Connected }]) := by
      rw [List.chain'_append]
      refine ⟨hc, List.chain'_singleton _, ?_⟩
      intro x hx y hy
      simp only [List.head?_cons, Option.mem_def, Option.some.injEq] at hy
      subst hy
      exact (hl x hx).symm
    refine ⟨hch.drop _, ?_⟩
    intro e he
    unfold lastN at he
    rw [List.getLast?_drop] at he
    split_ifs at he with hlen
    · cases he
    · simp at he
      rw [← he]

theorem runUpdates_linked (calls : List UpdateCall) (a : AirPlayState)
    (hc : List.Chain' linked a.SizeHistory)
    (hl : ∀ e ∈ a.SizeHistory.getLast?, e.NewSize = a.WindowSize) :
    List.Chain' linked (runUpdates calls a).SizeHistory := by
  induction calls generalizing a with
  | nil => exact hc
  | cons c cs ih =>
    have h := updateAirPlayState_linked c.newSize c.reason c.now a hc hl
    exact ih _ h.1 h.2

/-- Claim C25: after any sequence of updateAirPlayState calls from the initial state,
SizeHistory holds at most 50 events; it is the most recent (up to 50) of the
change events of the calls, in call order, where a call makes one event
exactly when its new size differs from the window size current at the call;
each event's OldSize equals the NewSize of the event before it; and a single
call on any state appends exactly one event, dropping the oldest beyond 50,
when the new size differs from WindowSize, and leaves the history as it is
otherwise. -/
theorem size_history_keeps_last_fifty (calls : List UpdateCall) :
    (runUpdates calls airPlayState).SizeHistory.length ≤ 50
      ∧ (runUpdates calls airPlayState).SizeHistory
          = lastN 50 (changeEvents false "" calls)
      ∧ List.Chain' linked (runUpdates calls airPlayState).SizeHistory
      ∧ (∀ (a : AirPlayState) (newSize reason : String) (now : Int),
          (a.WindowSize ≠ newSize →
            (updateAirPlayState newSize reason now a).SizeHistory
              = lastN 50 (a.SizeHistory
                  ++ [{ Timestamp := now, OldSize := a.WindowSize, NewSize := newSize,
                        Reason := reason, Connected := a.Connected }]))
          ∧ (a.WindowSize = newSize →
            (updateAirPlayState newSize reason now a).SizeHistory = a.SizeHistory)) := by
  have hh := runUpdates_history calls airPlayState (by simp [airPlayState])
  have e : airPlayState.SizeHistory ++ changeEvents airPlayState.Connected
      airPlayState.WindowSize calls = changeEvents false "" calls := by
    simp [airPlayState]
  rw [e] at hh
  refine ⟨?_, hh, ?_, ?_⟩
  · rw [hh]
    exact lastN_length 50 _
  · exact runUpdates_linked calls airPlayState (by simp [airPlayState])
      (by simp [airPlayState])
  · intro a newSize reason now
    constructor
    · intro hne
      rw [updateAirPlayState_history, if_pos hne]
    · intro heq
      rw [updateAirPlayState_history, if_neg (by simpa using heq)]

set_option maxRecDepth 100000 in
theorem sixtyCalls_history :
    (changeEvents false "" sixtyCalls).length = 60
      ∧ (runUpdates sixtyCalls airPlayState).SizeHistory.length = 50
      ∧ ((runUpdates sixtyCalls airPlayState).SizeHistory.head?.map
          (fun e => e.Timestamp)) = some (10 * second) := by
  decide

/-! ## Theorems: recording -/

theorem splitSlash_plain (p : List Char) (h : '/' ∉ p) : splitSlash p = [p] := by
  induction p with
  | nil => rfl
  | cons c cs ih =>
    have hc : c ≠ '/' := fun e => h (by simp [e])
    have hcs : '/' ∉ cs := fun e => h (by simp [e])
    simp [splitSlash, hc, ih hcs]

theorem splitSlash_append (p rest : List Char) (h : '/' ∉ p) :
    splitSlash (p ++ '/' :: rest) = p :: splitSlash rest := by
  induction p with
  | nil => simp [splitSlash]
  | cons c cs ih =>
    have hc : c ≠ '/' := fun e => h (by simp [e])
    have hcs : '/' ∉ cs := fun e => h (by simp [e])
    simp [splitSlash, hc, ih hcs]

theorem plainName_chars (name : String) (h : plainName name = true) :
    '/' ∉ name.toList ∧ name.toList ≠ [] ∧ name.toList ≠ ['.'] ∧ name.toList ≠ ['.', '.'] := by
  obtain ⟨cs⟩ := name
  simp only [plainName, Bool.and_eq_true, Bool.not_eq_true', bne_iff_ne, ne_eq] at h
  obtain ⟨⟨⟨h1, h2⟩, h3⟩, h4⟩ := h
  refine ⟨?_, ?_, ?_, ?_⟩
  · simpa using h1
  · intro e
    apply h2
    simp only [String.toList] at e
    subst e
    rfl
  · intro e
    apply h3
    simp only [String.toList] at e
    subst e
    rfl
  · intro e
    apply h4
    simp only [String.toList] at e
    subst e
    rfl

theorem join_parent_escapes (name : String) (h : plainName name = true) :
    filepathJoin [recordsDir, "../" ++ name] = "/var/" ++ name := by
  obtain ⟨h1, h2, h3, h4⟩ := plainName_chars name h
  obtain ⟨cs⟩ := name
  simp only [String.toList] at h1 h2 h3 h4
  have hd : [recordsDir, "../" ++ (⟨cs⟩ : String)].dropWhile (fun e => e == "")
      = [recordsDir, "../" ++ (⟨cs⟩ : String)] := by
    rw [List.dropWhile_cons_of_neg (by decide)]
  have hj : String.intercalate "/" [recordsDir, "../" ++ (⟨cs⟩ : String)]
      = ⟨"/var/airplay-records/../".toList ++ cs⟩ := by
    apply String.ext
    simp [String.intercalate, String.intercalate.go, recordsDir]
  unfold filepathJoin
  rw [hd]
  simp only [hj]
  have hs : splitSlash ("/var/airplay-records/../".toList ++ cs)
      = [[], ['v', 'a', 'r'],
          ['a', 'i', 'r', 'p', 'l', 'a', 'y', '-', 'r', 'e', 'c', 'o', 'r', 'd', 's'],
          ['.', '.'], cs] := by
    show splitSlash (([] : List Char) ++ '/' :: (['v', 'a', 'r'] ++ '/'
      :: (['a', 'i', 'r', 'p', 'l', 'a', 'y', '-', 'r', 'e', 'c', 'o', 'r', 'd', 's'] ++ '/'
      :: (['.', '.'] ++ '/' :: cs)))) = _
    rw [splitSlash_append _ _ (by decide), splitSlash_append _ _ (by decide),
      splitSlash_append _ _ (by decide), splitSlash_append _ _ (by decide),
      splitSlash_plain cs h1]
  have hne : (⟨"/var/airplay-records/../".toList ++ cs⟩ : String) ≠ "" := by
    intro e
    have := congrArg String.length e
    simp [String.length] at this
  have hr : (⟨"/var/airplay-records/../".toList ++ cs⟩ : String).toList.head? = some '/' := rfl
  unfold filepathClean
  rw [if_neg hne]
  simp only [hr, decide_True, if_true, String.toList, hs]
  apply String.ext
  simp [cleanElems, h2, h3, h4, joinSlash, splitSlash_plain cs h1]

theorem join_plain_inside (name : String) (h : plainName name = true) :
    filepathJoin [recordsDir, name] = recordsDir ++ "/" ++ name
      ∧ insideRecordsDir (recordsDir ++ "/" ++ name) = true := by
  obtain ⟨h1, h2, h3, h4⟩ := plainName_chars name h
  obtain ⟨cs⟩ := name
  simp only [String.toList] at h1 h2 h3 h4
  have hd : [recordsDir, (⟨cs⟩ : String)].dropWhile (fun e => e == "")
      = [recordsDir, (⟨cs⟩ : String)] := by
    rw [List.dropWhile_cons_of_neg (by decide)]
  have hj : String.intercalate "/" [recordsDir, (⟨cs⟩ : String)]
      = ⟨"/var/airplay-records/".toList ++ cs⟩ := by
    apply String.ext
    simp [String.intercalate, String.intercalate.go, recordsDir]
  have hne : (⟨"/var/airplay-records/".toList ++ cs⟩ : String) ≠ "" := by
    intro e
    have := congrArg String.length e
    simp [String.length] at this
  have hr : (⟨"/var/airplay-records/".toList ++ cs⟩ : String).toList.head? = some '/' := rfl
  have hs : splitSlash ("/var/airplay-records/".toList ++ cs)
      = [[], ['v', 'a', 'r'],
          ['a', 'i', 'r', 'p', 'l', 'a', 'y', '-', 'r', 'e', 'c', 'o', 'r', 'd', 's'], cs] := by
    show splitSlash (([] : List Char) ++ '/' :: (['v', 'a', 'r'] ++ '/'
      :: (['a', 'i', 'r', 'p', 'l', 'a', 'y', '-', 'r', 'e', 'c', 'o', 'r', 'd', 's'] ++ '/'
      :: cs))) = _
    rw [splitSlash_append _ _ (by decide), splitSlash_append _ _ (by decide),
      splitSlash_append _ _ (by decide), splitSlash_plain cs h1]
  constructor
  · unfold filepathJoin
    rw [hd]
    simp only [hj]
    unfold filepathClean
    rw [if_neg hne]
    simp only [hr, decide_True, if_true, String.toList, hs]
    apply String.ext
    simp [cleanElems, h2, h3, h4, joinSlash, splitSlash_plain cs h1, recordsDir]
  · have hlen : 0 < cs.length := List.length_pos.mpr h2
    simp [insideRecordsDir, recordsDir, List.isPrefixOf]
    omega

theorem parent_not_inside (name : String) (h : plainName name = true) :
    insideRecordsDir ("/var/" ++ name) = false := by
  obtain ⟨h1, -, -, -⟩ := plainName_chars name h
  obtain ⟨cs⟩ := name
  simp only [String.toList] at h1
  rw [Bool.eq_false_iff]
  intro hin
  simp only [insideRecordsDir, Bool.and_eq_true] at hin
  have hp := List.isPrefixOf_iff_prefix.mp hin.1
  obtain ⟨t, ht⟩ := hp
  have hmem : '/' ∈ ("/var/" ++ (⟨cs⟩ : String)).toList.drop 5 := by
    rw [← ht]
    simp [recordsDir]
  apply h1
  simpa using hmem

theorem recordFilePath_inside (filename p : String) (hs : '/' ∉ filename.toList)
    (h : recordFilePath filename = some p) :
    p = recordsDir ++ "/" ++ filename ∧ insideRecordsDir p = true := by
  unfold recordFilePath at h
  split_ifs at h with hc
  simp only [not_or, not_not] at hc
  obtain ⟨c1, -, c3⟩ := hc
  have hplain : plainName filename = true := by
    simp only [plainName, Bool.and_eq_true, Bool.not_eq_true', bne_iff_ne, ne_eq]
    refine ⟨⟨⟨by simpa using hs, c1⟩, ?_⟩, ?_⟩
    · intro e
      rw [e] at c3
      revert c3
      decide
    · intro e
      rw [e] at c3
      revert c3
      decide
  have hj := join_plain_inside filename hplain
  simp only [Option.some.injEq] at h
  rw [← h, hj.1]
  exact ⟨rfl, hj.2⟩

/-- Claim C30 (the code departs from it): StartRecording joins the filename to the
records directory without any check, and the handler of /api/record/start
passes the filename of the request as it is; for every plain name n the
filename "../n" gives the encoder the output path "/var/n", outside the
records directory.  The download and delete handlers refuse every filename
that is empty, longer than 128 bytes or without the extension .mp4, and for
the single path element the router gives them the path they use is the
records directory followed by that element. -/
theorem StartRecording_path_escapes_records_dir (name : String) (env : StartEnv) (r : Recording)
    (hplain : plainName name = true) (hidle : r.recordingCmd = none)
    (hmk : env.mkdir = none) :
    (StartRecording ("../" ++ name) env r).2.2 = some ("/var/" ++ name)
      ∧ (recordStart (some ("../" ++ name)) env r).2.2.2 = some ("/var/" ++ name)
      ∧ insideRecordsDir ("/var/" ++ name) = false
      ∧ (StartRecording name env r).2.2 = some (recordsDir ++ "/" ++ name)
      ∧ insideRecordsDir (recordsDir ++ "/" ++ name) = true
      ∧ (∀ filename p, '/' ∉ filename.toList → recordFilePath filename = some p →
          p = recordsDir ++ "/" ++ filename ∧ insideRecordsDir p = true) := by
  obtain ⟨-, h2, -, -⟩ := plainName_chars name hplain
  have hne : name ≠ "" := by
    intro e
    rw [e] at h2
    exact h2 rfl
  have hne2 : "../" ++ name ≠ "" := by
    intro e
    have hl := congrArg String.length e
    rw [String.length_append] at hl
    have h3 : "../".length = 3 := by decide
    have h0 : "".length = 0 := by decide
    omega
  have hstart : (StartRecording ("../" ++ name) env r).2.2 = some ("/var/" ++ name) := by
    unfold StartRecording
    simp only [hidle, Option.isSome_none, Bool.false_eq_true, if_false, hmk, hne2,
      join_parent_escapes name hplain]
    cases env.start <;> rfl
  refine ⟨hstart, ?_, parent_not_inside name hplain, ?_, (join_plain_inside name hplain).2,
    fun filename p hs h => recordFilePath_inside filename p hs h⟩
  · unfold recordStart
    simp only []
    split
    · rename_i err herr
      split_ifs <;> exact hstart
    · exact hstart
  · unfold StartRecording
    simp only [hidle, Option.isSome_none, Bool.false_eq_true, if_false, hmk, hne,
      (join_plain_inside name hplain).1]
    cases env.start <;> rfl

theorem StartRecording_path_escapes_records_dir_witness :
    plainName "passwd" = true
      ∧ (StartRecording "../passwd" startOk noRecording).2.2 = some "/var/passwd"
      ∧ insideRecordsDir "/var/passwd" = false :=
  ⟨by decide,
    (StartRecording_path_escapes_records_dir "passwd" startOk noRecording (by decide) rfl
      rfl).1,
    (StartRecording_path_escapes_records_dir "passwd" startOk noRecording (by decide) rfl
      rfl).2.2.1⟩

theorem StartRecording_deep_escape :
    (StartRecording "../../etc/cron.d/x.mp4" startOk noRecording).2.2
        = some "/etc/cron.d/x.mp4"
      ∧ insideRecordsDir "/etc/cron.d/x.mp4" = false
      ∧ recordFilePath "../../etc/cron.d/x.mp4" = some "/etc/cron.d/x.mp4" := by
  decide

/-- Claim C24, as stated, fails: a StartRecording with the empty filename
succeeds, and the StopRecording that follows it returns the generated name
airplay-20250101-120000.mp4, not the name given; and a StopRecording whose kill
of the encoder fails is a failing call (HTTP 400) that has cleared
recordingCmd and recordingFile. -/
theorem StopRecording_generated_name_and_failed_kill :
    (StartRecording "" startOk noRecording).2.1 = none
      ∧ (StopRecording (5 * second) none (StartRecording "" startOk noRecording).1).2.2.2 = none
      ∧ (StopRecording (5 * second) none (StartRecording "" startOk noRecording).1).2.1
          = "airplay-20250101-120000.mp4"
      ∧ (StopRecording (5 * second) (some "os: process already finished") activeRecording).2.2.2
          = some (RecordingError.killFailed "os: process already finished")
      ∧ (recordStop (5 * second) (some "os: process already finished") activeRecording).2.1 = 400
      ∧ (StopRecording (5 * second) (some "os: process already finished") activeRecording).1
          ≠ activeRecording := by
  decide

/-- Claim C24, amended: StartRecording fails with "Recording already in progress"
(HTTP 409) whenever a recording is active, and every failing StartRecording
leaves the three variables unchanged; StopRecording fails with "No active
recording to stop" (HTTP 400) exactly when no recording is active, and then
leaves them unchanged; on an active recording StopRecording always clears
recordingCmd and recordingFile and keeps recordingStart, returns the stored
file name and returns the error of the kill of the encoder, if any; after a
successful StartRecording a StopRecording returns the file name given to it
when that was non-empty and the generated name airplay-<time>.mp4 when it was
empty, and leaves no recording active. -/
theorem recording_start_stop_contract (filename : String) (env : StartEnv) (now : Int)
    (kill : Option String) (r : Recording) :
    (r.recordingCmd.isSome = true →
        (StartRecording filename env r).2.1 = some RecordingError.alreadyInProgress
        ∧ RecordingError.alreadyInProgress.message = "Recording already in progress"
        ∧ (recordStart (some filename) env r).2.1 = 409
        ∧ (recordStart (some filename) env r).2.2.1 = "Recording already in progress")
      ∧ ((StartRecording filename env r).2.1 ≠ none → (StartRecording filename env r).1 = r)
      ∧ ((StopRecording now kill r).2.2.2 = some RecordingError.noActiveRecording
          ↔ r.recordingCmd = none)
      ∧ (r.recordingCmd = none →
          (StopRecording now kill r).1 = r
          ∧ (recordStop now kill r).2 = (400, "No active recording to stop"))
      ∧ (r.recordingCmd.isSome = true →
          (StopRecording now kill r).1
            = { recordingCmd := none, recordingFile := "", recordingStart := r.recordingStart }
          ∧ (StopRecording now kill r).2.1 = r.recordingFile
          ∧ (StopRecording now kill r).2.2.2 = kill.map RecordingError.killFailed)
      ∧ (r.recordingCmd = none → (StartRecording filename env r).2.1 = none →
          (StopRecording now none (StartRecording filename env r).1).2.1
            = (if filename = "" then "airplay-" ++ env.stamp ++ ".mp4" else filename)
          ∧ (StopRecording now none (StartRecording filename env r).1).2.2.2 = none
          ∧ (StopRecording now none (StartRecording filename env r).1).1.recordingCmd
            = none) := by
  obtain ⟨cmd, file, start⟩ := r
  refine ⟨?_, ?_, ?_, ?_, ?_, ?_⟩
  · intro h
    obtain ⟨c, hc⟩ := Option.isSome_iff_exists.mp h
    simp only [] at hc
    subst hc
    simp [StartRecording, recordStart, RecordingError.message]
  · intro h
    unfold StartRecording at h ⊢
    cases cmd with
    | some c => rfl
    | none =>
      simp only [Option.isSome_none, Bool.false_eq_true, if_false] at h ⊢
      rcases hm : env.mkdir with _ | cause
      · rcases hs : env.start with cause | pid
        · rfl
        · simp [hm, hs] at h
      · rfl
  · cases cmd with
    | none => simp [StopRecording]
    | some c => cases kill <;> simp [StopRecording]
  · intro h
    simp only [] at h
    subst h
    simp [StopRecording, recordStop, RecordingError.message]
  · intro h
    obtain ⟨c, hc⟩ := Option.isSome_iff_exists.mp h
    simp only [] at hc
    subst hc
    simp [StopRecording]
  · intro h hok
    simp only [] at h
    subst h
    unfold StartRecording at hok ⊢
    simp only [Option.isSome_none, Bool.false_eq_true, if_false] at hok ⊢
    rcases hm : env.mkdir with _ | cause
    · rcases hs : env.start with cause | pid
      · simp [hm, hs] at hok
      · simp [StopRecording]
    · simp [hm] at hok

theorem recording_start_stop_contract_witness :
    (StopRecording (5 * second) none (StartRecording "clip.mp4" startOk noRecording).1).2.1
        = "clip.mp4" :=
  ((recording_start_stop_contract "clip.mp4" startOk (5 * second) none noRecording).2.2.2.2.2
    rfl (by decide)).1

/-! ## Theorems: the write mutex -/

theorem runSchedule_disciplined (sch : List Bool) :
    ∀ (a b : List SyncEvent) (st : SyncState) (ha wa hb wb : Bool),
      (ha = true ↔ st.holder = some false) → (hb = true ↔ st.holder = some true) →
      (st.writingA.isSome = true → wa = true) → (st.writingB.isSome = true → wb = true) →
      (wa = true → ha = true) → (wb = true → hb = true) → st.overlapped = false →
      disciplinedFrom ha wa a = true → disciplinedFrom hb wb b = true →
      ∀ st', runSchedule sch a b st = some st' → st'.overlapped = false := by
  induction sch with
  | nil =>
    intro a b st ha wa hb wb _ _ _ _ _ _ ho _ _ st' h
    simp only [runSchedule, Option.some.injEq] at h
    rw [← h]
    exact ho
  | cons g sch ih =>
    intro a b st ha wa hb wb i1 i2 i3 i4 i5 i6 ho da db st' h
    obtain ⟨holder, wA, wB, ov⟩ := st
    simp only [] at i1 i2 i3 i4 ho
    subst ho
    cases g with
    | false =>
      cases a with
      | nil => simp [runSchedule] at h
      | cons e a =>
        simp only [runSchedule] at h
        cases e with
        | lock =>
          simp only [disciplinedFrom, Bool.and_eq_true, Bool.not_eq_true'] at da
          simp only [syncStep] at h
          split_ifs at h with hh
          simp only [Option.some_bind] at h
          simp only [] at hh
          subst hh
          exact ih a b _ true wa hb wb (by simp) (by simpa using i2) i3 i4 (by simp) i6 rfl
            da.2 db st' h
          simp at h
        | unlock =>
          simp only [disciplinedFrom, Bool.and_eq_true, Bool.not_eq_true'] at da
          simp only [syncStep] at h
          split_ifs at h with hh
          simp only [Option.some_bind] at h
          simp only [] at hh
          subst hh
          have hbf : hb = false := by
            cases hb
            · rfl
            · simp at i2
          subst hbf
          exact ih a b _ false wa false wb (by simp) (by simp) i3 i4
            (by intro hw; rw [da.1.2] at hw; cases hw) i6 rfl da.2 db st' h
          simp at h
        | writeBegin conn msg =>
          simp only [disciplinedFrom, Bool.and_eq_true, Bool.not_eq_true'] at da
          simp only [syncStep, Bool.false_eq_true, if_false, Option.some_bind] at h
          have hbf : hb = false := by
            cases hb
            · rfl
            · have h1 := i1.mp da.1.1
              have h2 := i2.mp rfl
              rw [h1] at h2
              cases h2
          have hwb : wB = none := by
            cases wB with
            | none => rfl
            | some c =>
              have := i6 (i4 rfl)
              rw [hbf] at this
              cases this
          subst hwb
          exact ih a b _ ha true hb wb i1 i2 (by simp) i4 (fun _ => da.1.1) i6 (by simp)
            da.2 db st' h
        | writeEnd conn =>
          simp only [disciplinedFrom, Bool.and_eq_true] at da
          simp only [syncStep, Bool.false_eq_true, if_false, Option.some_bind] at h
          exact ih a b _ ha false hb wb i1 i2 (by simp) i4 (by simp) i6 rfl da.2 db st' h
    | true =>
      cases b with
      | nil => cases a <;> simp [runSchedule] at h
      | cons e b =>
        simp only [runSchedule] at h
        cases e with
        | lock =>
          simp only [disciplinedFrom, Bool.and_eq_true, Bool.not_eq_true'] at db
          simp only [syncStep] at h
          split_ifs at h with hh
          simp only [Option.some_bind] at h
          simp only [] at hh
          subst hh
          exact ih a b _ ha wa true wb (by simpa using i1) (by simp) i3 i4 i5 (by simp) rfl
            da db.2 st' h
          simp at h
        | unlock =>
          simp only [disciplinedFrom, Bool.and_eq_true, Bool.not_eq_true'] at db
          simp only [syncStep] at h
          split_ifs at h with hh
          simp only [Option.some_bind] at h
          simp only [] at hh
          subst hh
          have haf : ha = false := by
            cases ha
            · rfl
            · simp at i1
          subst haf
          exact ih a b _ false wa false wb (by simp) (by simp) i3 i4 i5
            (by intro hw; rw [db.1.2] at hw; cases hw) rfl da db.2 st' h
          simp at h
        | writeBegin conn msg =>
          simp only [disciplinedFrom, Bool.and_eq_true, Bool.not_eq_true'] at db
          simp only [syncStep, if_true, Option.some_bind] at h
          have haf : ha = false := by
            cases ha
            · rfl
            · have h1 := i2.mp db.1.1
              have h2 := i1.mp rfl
              rw [h1] at h2
              cases h2
          have hwa : wA = none := by
            cases wA with
            | none => rfl
            | some c =>
              have := i5 (i3 rfl)
              rw [haf] at this
              cases this
          subst hwa
          exact ih a b _ ha wa hb true i1 i2 i3 (by simp) i5 (fun _ => db.1.1) (by simp)
            da db.2 st' h
        | writeEnd conn =>
          simp only [disciplinedFrom, Bool.and_eq_true] at db
          simp only [syncStep, if_true, Option.some_bind] at h
          exact ih a b _ ha wa hb false i1 i2 i3 (by simp) i5 (by simp) rfl da db.2 st' h

theorem disciplined_excludes_concurrentWrites (a b : List SyncEvent)
    (ha : disciplined a = true) (hb : disciplined b = true) : ¬ concurrentWrites a b := by
  rintro ⟨sch, st, hrun, hov⟩
  have := runSchedule_disciplined sch a b SyncState.init false false false false
    (by simp [SyncState.init]) (by simp [SyncState.init]) (by simp [SyncState.init])
    (by simp [SyncState.init]) (by simp) (by simp) rfl ha hb st hrun
  rw [this] at hov
  cases hov

theorem syncTrace_writes (safe : Msg → Bool) (tr : List Effect) :
    (syncTrace safe tr).filterMap SyncEvent.toEffect = tr.filter Effect.isWrite := by
  induction tr with
  | nil => rfl
  | cons e es ih =>
    cases e <;> simp [syncTrace, Effect.isWrite, ih]
    split_ifs <;>
      simp [safeWriteWebSocket, writeMessage, SyncEvent.toEffect, List.filterMap_cons, ih]

theorem syncTrace_safe_disciplined (tr : List Effect) :
    disciplined (syncTrace (fun _ => true) tr) = true := by
  unfold disciplined
  induction tr with
  | nil => rfl
  | cons e es ih =>
    cases e <;> simp [syncTrace, safeWriteWebSocket, writeMessage, disciplinedFrom, ih]

theorem syncTrace_append (safe : Msg → Bool) (a b : List Effect) :
    syncTrace safe (a ++ b) = syncTrace safe a ++ syncTrace safe b := by
  induction a with
  | nil => rfl
  | cons e es ih => cases e <;> simp [syncTrace, ih]

theorem syncTrace_pipeline (safe : Msg → Bool) (l : List Effect)
    (h : l.all Effect.isPipeline = true) : syncTrace safe l = [] := by
  induction l with
  | nil => rfl
  | cons e es ih =>
    simp only [List.all_cons, Bool.and_eq_true] at h
    cases e <;> simp_all [syncTrace, Effect.isPipeline]

theorem failed_offer_sync (env : OfferEnv) (conn : Conn) (pc : PeerConnection) (s : State)
    (h : offerSucceeds env pc s = false) :
    ∃ e, Sync.handleOffer env conn pc s = writeMessage conn (Msg.error e) := by
  have hp := syncTrace_pipeline (fun m => match m with
    | Msg.answer _ => true
    | _ => false) _ (firstOfferInit_pipeline env pc s)
  unfold Sync.handleOffer handleOffer
  unfold offerSucceeds at h
  rcases hr : env.setRemoteOk <;> rcases ha : env.answer <;> rcases hl : env.setLocalOk <;>
    by_cases hs : pc.senders = 0 <;> rcases hi : (firstOfferInit env pc s).2.2.2 <;>
    first
    | (exfalso
       simp [hr, ha, hl, hs, hi] at h
       done)
    | (simp [hr, ha, hl, hs, hi, hp, syncTrace, syncTrace_append, answerOffer]
       done)
    | (simp [hr, ha, hl, hs, hi, hp, syncTrace, syncTrace_append, answerOffer]
       exact ⟨_, rfl⟩)

theorem served_offer_sync (env : OfferEnv) (conn : Conn) (pc : PeerConnection) (s : State)
    (h : offerSucceeds env pc s = true) :
    ∃ sdp, Sync.handleOffer env conn pc s = safeWriteWebSocket conn (Msg.answer sdp) := by
  have hp := syncTrace_pipeline (fun m => match m with
    | Msg.answer _ => true
    | _ => false) _ (firstOfferInit_pipeline env pc s)
  unfold Sync.handleOffer handleOffer
  unfold offerSucceeds at h
  rcases hr : env.setRemoteOk <;> rcases ha : env.answer <;> rcases hl : env.setLocalOk <;>
    by_cases hs : pc.senders = 0 <;> rcases hi : (firstOfferInit env pc s).2.2.2 <;>
    first
    | (exfalso
       simp [hr, ha, hl, hs, hi] at h
       done)
    | (simp [hr, ha, hl, hs, hi, hp, syncTrace, syncTrace_append, answerOffer]
       done)
    | (simp [hr, ha, hl, hs, hi, hp, syncTrace, syncTrace_append, answerOffer]
       exact ⟨_, rfl⟩)

theorem waitForUxPlayWindow_first_pass (conn : Conn) (p : WaitPass) (ps : List WaitPass)
    (hno : usableWindow p.found = false) (hnow : 0 ≤ p.now) :
    ∃ rest, Sync.waitForUxPlayWindow conn (p :: ps)
      = safeWriteWebSocket conn (Msg.status "Waiting for AirPlay connection...")
        ++ writeMessage conn
            (Msg.status ("Still waiting for AirPlay connection... (" ++ p.remaining
              ++ "s remaining)"))
        ++ rest := by
  have hdue : timeSince p.now zeroTime ≥ 5 * second := by
    unfold timeSince zeroTime maxDuration minDuration second
    split_ifs <;> omega
  unfold Sync.waitForUxPlayWindow Sync.waitLoop
  simp only [hno, Bool.false_eq_true, if_false, hdue, decide_True, if_true]
  exact ⟨_, by rw [List.append_assoc]⟩

/-- Claim C23 (the code departs from it): not every write to the signaling WebSocket
is made while websocketWriteMutex is held.  In waitForUxPlayWindow the first
pass that finds no window writes its status message by a direct call of
WriteMessage, and every offer that fails writes its error reply the same way;
each of them can be in progress at the same time as a notification of the
window monitor on the same connection, which does hold the mutex.  The
notifications, the write of handleWindowAppeared, the ice-candidate messages
and the answer are written with the mutex held, and two goroutines that both
keep to that never write at the same time. -/
theorem status_and_error_writes_bypass_mutex (conn : Conn) (p : WaitPass) (ps : List WaitPass)
    (m : Msg) (w : Bool) (s : State)
    (hno : usableWindow p.found = false) (hnow : 0 ≤ p.now)
    (hconn : s.activeWebSocketConn = some conn) :
    disciplined (Sync.waitForUxPlayWindow conn (p :: ps)) = false
      ∧ concurrentWrites (Sync.waitForUxPlayWindow conn (p :: ps))
          (Sync.notifyWebSocketClient m w s)
      ∧ (∀ env pc s0, offerSucceeds env pc s0 = false →
          disciplined (Sync.handleOffer env conn pc s0) = false
          ∧ concurrentWrites (Sync.handleOffer env conn pc s0)
              (Sync.notifyWebSocketClient m w s))
      ∧ (∀ env pc s0, offerSucceeds env pc s0 = true →
          disciplined (Sync.handleOffer env conn pc s0) = true)
      ∧ disciplined (Sync.notifyWebSocketClient m w s) = true
      ∧ (∀ now s0, disciplined (Sync.handleWindowAppeared now s0) = true)
      ∧ (∀ c, disciplined (Sync.onICECandidate conn c) = true)
      ∧ (∀ a b, disciplined a = true → disciplined b = true → ¬ concurrentWrites a b) := by
  obtain ⟨rest, hw⟩ := waitForUxPlayWindow_first_pass conn p ps hno hnow
  have hn : Sync.notifyWebSocketClient m w s = safeWriteWebSocket conn m := by
    unfold Sync.notifyWebSocketClient AppleTV.notifyWebSocketClient
    cases w <;> simp [hconn, syncTrace]
  refine ⟨?_, ?_, ?_, ?_, ?_, ?_, ?_, disciplined_excludes_concurrentWrites⟩
  · rw [hw]
    simp [disciplined, safeWriteWebSocket, writeMessage, disciplinedFrom]
  · rw [hw, hn]
    refine ⟨[false, false, false, false, true, true, false], ?_⟩
    simp [runSchedule, syncStep, safeWriteWebSocket, writeMessage, SyncState.init]
  · intro env pc s0 hf
    obtain ⟨e, he⟩ := failed_offer_sync env conn pc s0 hf
    rw [he, hn]
    refine ⟨by simp [disciplined, writeMessage, disciplinedFrom], [true, true, false], ?_⟩
    simp [runSchedule, syncStep, safeWriteWebSocket, writeMessage, SyncState.init]
  · intro env pc s0 hf
    obtain ⟨sdp, he⟩ := served_offer_sync env conn pc s0 hf
    rw [he]
    simp [disciplined, safeWriteWebSocket, writeMessage, disciplinedFrom]
  · exact syncTrace_safe_disciplined _
  · intro now s0
    exact syncTrace_safe_disciplined _
  · intro c
    simp [Sync.onICECandidate, disciplined, safeWriteWebSocket, writeMessage, disciplinedFrom]

theorem status_and_error_writes_bypass_mutex_witness :
    usableWindow emptyPass.found = false
      ∧ disciplined (Sync.waitForUxPlayWindow 1 [emptyPass]) = false
      ∧ concurrentWrites (Sync.waitForUxPlayWindow 1 [emptyPass])
          (Sync.notifyWebSocketClient (Msg.airplay_disconnected "iPhone disconnected from AppleTV")
            true waitingState) :=
  ⟨by decide,
    (status_and_error_writes_bypass_mutex 1 emptyPass []
      (Msg.airplay_disconnected "iPhone disconnected from AppleTV") true waitingState
      (by decide) (by decide) (by decide)).1,
    (status_and_error_writes_bypass_mutex 1 emptyPass []
      (Msg.airplay_disconnected "iPhone disconnected from AppleTV") true waitingState
      (by decide) (by decide) (by decide)).2.1⟩

theorem waitForUxPlayWindow_trace :
    Sync.waitForUxPlayWindow 1 [emptyPass]
      = [SyncEvent.lock,
          SyncEvent.writeBegin 1 (Msg.status "Waiting for AirPlay connection..."),
          SyncEvent.writeEnd 1, SyncEvent.unlock,
          SyncEvent.writeBegin 1
            (Msg.status "Still waiting for AirPlay connection... (60s remaining)"),
          SyncEvent.writeEnd 1] := by
  decide

/-! ## Theorems: the handler mutex -/

theorem notifyWebSocketClient_guardOf (m : Msg) (w : Bool) (s : State) :
    guardOf (notifyWebSocketClient m w s).1 = guardOf s := by
  obtain ⟨as, pw, lws, lwid, c, awc, are, laa, pr, rw, st, wm⟩ := s
  cases awc <;> cases w <;> rfl

theorem cleanupWebRTCSession_guard (found : FindWindowResult) (now : Int) (w : Bool)
    (s : State) :
    (cleanupWebRTCSession found now w s).1.webrtcMutexHeld = s.webrtcMutexHeld
      ∧ (cleanupWebRTCSession found now w s).1.activeSession = none := by
  obtain ⟨as, pw, lws, lwid, c, awc, are, laa, pr, rw, st, wm⟩ := s
  cases as <;> cases awc <;> cases w <;> cases are <;>
    simp [cleanupWebRTCSession, checkAutoReconnectAfterCleanup, notifyWebSocketClient]
    <;> split_ifs <;> simp

theorem onICEConnectionStateChange_guard (st : ICEConnectionState) (found : FindWindowResult)
    (now : Int) (w : Bool) (s : State) :
    (onICEConnectionStateChange st found now w s).1.webrtcMutexHeld = s.webrtcMutexHeld
      ∧ ((onICEConnectionStateChange st found now w s).1.activeSession = s.activeSession
        ∨ (onICEConnectionStateChange st found now w s).1.activeSession = none) := by
  have h := cleanupWebRTCSession_guard found now w s
  cases st <;> simp [onICEConnectionStateChange, h]

theorem onConnectionStateChange_guard (st : PeerConnectionState) (found : FindWindowResult)
    (now : Int) (w : Bool) (s : State) :
    (onConnectionStateChange st found now w s).1.webrtcMutexHeld = s.webrtcMutexHeld
      ∧ ((onConnectionStateChange st found now w s).1.activeSession = s.activeSession
        ∨ (onConnectionStateChange st found now w s).1.activeSession = none) := by
  have h := cleanupWebRTCSession_guard found now w s
  unfold onConnectionStateChange
  split_ifs <;> simp [h]

theorem cleanupActiveSession_guard (s : State) :
    (cleanupActiveSession s).1.webrtcMutexHeld = s.webrtcMutexHeld
      ∧ (cleanupActiveSession s).1.activeSession = none := by
  obtain ⟨as, pw, lws, lwid, c, awc, are, laa, pr, rw, st, wm⟩ := s
  cases as <;> simp [cleanupActiveSession]

theorem handleWindowDisappeared_guard (w : Bool) (s : State) :
    (handleWindowDisappeared w s).1.webrtcMutexHeld = s.webrtcMutexHeld
      ∧ (handleWindowDisappeared w s).1.activeSession = none := by
  obtain ⟨as, pw, lws, lwid, c, awc, are, laa, pr, rw, st, wm⟩ := s
  cases as <;> cases awc <;> cases w <;>
    simp [handleWindowDisappeared, notifyWebSocketClient]

theorem handleWindowAppeared_guardOf (now : Int) (s : State) :
    guardOf (handleWindowAppeared now s).1 = guardOf s := by
  obtain ⟨as, pw, lws, lwid, c, awc, are, laa, pr, rw, st, wm⟩ := s
  unfold handleWindowAppeared
  cases pw <;> cases awc <;> simp only [] <;> repeat' split
  all_goals rfl

theorem handleWindowIDChanged_guard (id : String) (now : Int) (w : Bool) (s : State) :
    (handleWindowIDChanged id now w s).1.webrtcMutexHeld = s.webrtcMutexHeld
      ∧ ((handleWindowIDChanged id now w s).1.activeSession = s.activeSession
        ∨ (handleWindowIDChanged id now w s).1.activeSession = none) := by
  obtain ⟨as, pw, lws, lwid, c, awc, are, laa, pr, rw, st, wm⟩ := s
  unfold handleWindowIDChanged
  cases as <;> cases awc <;> cases w <;> cases are <;>
    simp [notifyWebSocketClient, hasLiveMedia] <;> split_ifs <;> simp

theorem handleWindowStateChange_guard (t : Tick) (s : State) :
    (handleWindowStateChange t s).1.webrtcMutexHeld = s.webrtcMutexHeld
      ∧ ((handleWindowStateChange t s).1.activeSession = s.activeSession
        ∨ (handleWindowStateChange t s).1.activeSession = none) := by
  obtain ⟨a, b, c, h | h | h | h⟩ := handleWindowStateChange_dispatch t s
  · rw [h]
    exact handleWindowIDChanged_guard _ _ _ _
  · rw [h]
    exact ⟨rfl, Or.inl rfl⟩
  · rw [h]
    have e := handleWindowAppeared_guardOf t.now
      { s with lastWindowState := a, lastWindowID := b, windowStateCheckCount := c }
    simp only [guardOf, Prod.mk.injEq] at e
    exact ⟨e.1, Or.inl e.2⟩
  · rw [h]
    have e := handleWindowDisappeared_guard t.writeOk
      { s with lastWindowState := a, lastWindowID := b, windowStateCheckCount := c }
    exact ⟨e.1, Or.inr e.2⟩

theorem readyFlagBranch_guardOf (pc : PeerConnection) (w : Bool) (s : State) :
    guardOf (readyFlagBranch pc w s).1 = guardOf s := by
  obtain ⟨as, pw, lws, lwid, c, awc, are, laa, pr, rw, st, wm⟩ := s
  cases awc <;> cases w <;>
    simp [readyFlagBranch, notifyWebSocketClient, guardOf] <;>
    split_ifs <;> simp

theorem signalReturn_mutex (sessionID : String) (conn : Conn) (s : State) :
    (signalReturn sessionID conn s).1.webrtcMutexHeld = false := by
  simp [signalReturn]

theorem signalReturn_slot (sessionID : String) (conn : Conn) (s : State)
    (h : s.activeSession = none) : (signalReturn sessionID conn s).1.activeSession = none := by
  simp [signalReturn, deferredSessionCleanup, h]

theorem windowWaitFailed_guardOf (ws : List Msg) (sessionID : String) (conn : Conn) (s : State) :
    guardOf (windowWaitFailed ws sessionID conn s).1 = (false, none) := by
  simp [windowWaitFailed, guardOf, signalReturn, deferredSessionCleanup]

theorem loopEnd_guardOf (sessionID : String) (conn : Conn) (found : FindWindowResult)
    (now : Int) (w : Bool) (pc : PeerConnection) (s : State) :
    guardOf (messageLoop sessionID conn [ReadResult.closeError found now w] pc s).1
      = (false, none) := by
  have h := (cleanupWebRTCSession_guard found now w s).2
  simp [messageLoop, guardOf, signalReturn_mutex, signalReturn_slot _ _ _ h]

theorem addTrack_mutex (r : Nat) (s : State) :
    (addTrack r s).webrtcMutexHeld = s.webrtcMutexHeld := by
  obtain ⟨as, pw, lws, lwid, c, awc, are, laa, pr, rw, st, wm⟩ := s
  cases as with
  | none => rfl
  | some sess =>
    obtain ⟨id, pc, cmd, vc, ac, vp, ap, ws, ctx, cf, st⟩ := sess
    cases pc with
    | none => rfl
    | some pc => by_cases hr : pc.ref = r <;> simp [addTrack, hr]

theorem initializeWebRTCSession_mutex (env : InitEnv) (pc : PeerConnection) (s : State) :
    (initializeWebRTCSession env pc s).1.webrtcMutexHeld = s.webrtcMutexHeld := by
  have h2 : (addTrack pc.ref (addTrack pc.ref s)).webrtcMutexHeld = s.webrtcMutexHeld := by
    rw [addTrack_mutex, addTrack_mutex]
  unfold initializeWebRTCSession
  repeat' split
  all_goals first | rfl | exact addTrack_mutex _ _ | exact h2 | (dsimp only; split <;> exact h2)

theorem handleMessage_mutex (parsed : Option (List (String × JSONValue))) (env : OfferEnv)
    (conn : Conn) (pc : PeerConnection) (s : State) :
    (handleMessage parsed env conn pc s).1.webrtcMutexHeld = s.webrtcMutexHeld := by
  have hi : (firstOfferInit env pc s).1.webrtcMutexHeld = s.webrtcMutexHeld := by
    unfold firstOfferInit
    split
    · rfl
    · have h := initializeWebRTCSession_mutex env.init pc s
      dsimp only
      split_ifs <;> exact h
  have ho : (handleOffer env conn pc s).1.webrtcMutexHeld = s.webrtcMutexHeld := by
    unfold handleOffer
    by_cases hr : (!env.setRemoteOk) = true
    · simp [hr]
    · by_cases hs : pc.senders = 0
      · rcases hi2 : (firstOfferInit env pc s).2.2.2 <;> simp [hr, hs, hi2, hi]
      · simp [hr, hs]
  unfold handleMessage
  repeat' split
  all_goals first | rfl | exact ho

theorem signalHandler_guard (env : SignalEnv) (s : State) (hm : s.webrtcMutexHeld = false) :
    (signalHandler env s).1.webrtcMutexHeld = (signalHandler env s).2.2.invocation.isSome
      ∧ ((signalHandler env s).1.webrtcMutexHeld = false →
          (signalHandler env s).1.activeSession = s.activeSession
            ∨ (signalHandler env s).1.activeSession = none
            ∨ (signalHandler env s).1.activeSession = some (reservedSession env.reserveAt)) := by
  have hc := connectTimeWindowCheck_activeSession env.found env.checkAt
  have hw : ∀ st : State, (connectTimeWindowCheck env.found env.checkAt st).webrtcMutexHeld
      = st.webrtcMutexHeld := by
    intro st
    unfold connectTimeWindowCheck
    simp only []
    split_ifs <;> rfl
  cases hs : s.activeSession with
  | some sess => simp [signalHandler, signalAdmission, hm, hs, SetupOutcome.invocation]
  | none =>
    cases hu : env.upgrade with
    | none =>
      simp [signalHandler, signalAdmission, signalConstruct, hm, hs, hu, SetupOutcome.invocation]
    | some conn =>
      by_cases hd : env.defaultCodecsOk = true
      · by_cases hh : env.h264Ok = true
        · cases hp : env.newPeerConnection with
          | none =>
            simp [signalHandler, signalAdmission, signalConstruct, hm, hs, hu, hd, hh, hp,
              SetupOutcome.invocation]
          | some pc =>
            simp [signalHandler, signalAdmission, signalConstruct, hm, hs, hu, hd, hh, hp, hc,
              hw, SetupOutcome.invocation]
        · simp only [Bool.not_eq_true] at hh
          simp [signalHandler, signalAdmission, signalConstruct, hm, hs, hu, hd, hh, hc,
            SetupOutcome.invocation]
      · simp only [Bool.not_eq_true] at hd
        simp [signalHandler, signalAdmission, signalConstruct, hm, hs, hu, hd, hc,
          SetupOutcome.invocation]

theorem serving_invariant (s : State) (i : Option Invocation) (h : Serving s i) :
    s.webrtcMutexHeld = i.isSome
      ∧ (s.webrtcMutexHeld = false →
          ∀ sess, s.activeSession = some sess → ∃ t, sess = reservedSession t) := by
  induction h with
  | init startTime => exact ⟨rfl, fun _ sess hs => by simp [initState] at hs⟩
  | startup startTime found =>
    unfold startupState
    dsimp only
    split_ifs
    · exact ⟨rfl, fun _ sess hs => by simp [initState] at hs⟩
    · exact ⟨rfl, fun _ sess hs => by simp [initState] at hs⟩
  | tick t s i _ ih =>
    obtain ⟨hm, hs⟩ := handleWindowStateChange_guard t s
    rw [hm]
    refine ⟨ih.1, fun hf sess hsess => ?_⟩
    rcases hs with hs | hs
    · rw [hs] at hsess
      exact ih.2 hf sess hsess
    · rw [hs] at hsess
      simp at hsess
  | iceState st found now w s i _ ih =>
    obtain ⟨hm, hs⟩ := onICEConnectionStateChange_guard st found now w s
    rw [hm]
    refine ⟨ih.1, fun hf sess hsess => ?_⟩
    rcases hs with hs | hs
    · rw [hs] at hsess
      exact ih.2 hf sess hsess
    · rw [hs] at hsess
      simp at hsess
  | connState st found now w s i _ ih =>
    obtain ⟨hm, hs⟩ := onConnectionStateChange_guard st found now w s
    rw [hm]
    refine ⟨ih.1, fun hf sess hsess => ?_⟩
    rcases hs with hs | hs
    · rw [hs] at hsess
      exact ih.2 hf sess hsess
    · rw [hs] at hsess
      simp at hsess
  | cleanupEndpoint s i _ ih =>
    obtain ⟨hm, hs⟩ := cleanupActiveSession_guard s
    rw [hm]
    refine ⟨ih.1, fun hf sess hsess => ?_⟩
    rw [hs] at hsess
    simp at hsess
  | request env s _ ih =>
    have hm : s.webrtcMutexHeld = false := by simpa using ih.1
    obtain ⟨h1, h2⟩ := signalHandler_guard env s hm
    refine ⟨h1, fun hf sess hsess => ?_⟩
    rcases h2 hf with hs | hs | hs
    · rw [hs] at hsess
      exact ih.2 hm sess hsess
    · rw [hs] at hsess
      simp at hsess
    · rw [hs] at hsess
      exact ⟨env.reserveAt, (Option.some.inj hsess).symm⟩
  | readyFlag w s i _ ih =>
    have e := readyFlagBranch_guardOf i.pc w s
    simp only [guardOf, Prod.mk.injEq] at e
    rw [e.1, e.2]
    exact ih
  | waitFailed ws s i _ ih =>
    have e := windowWaitFailed_guardOf ws i.sessionID i.conn s
    simp only [guardOf, Prod.mk.injEq] at e
    rw [e.1, e.2]
    exact ⟨rfl, fun _ sess hs => by simp at hs⟩
  | message parsed env s i _ ih =>
    rw [handleMessage_mutex]
    refine ⟨ih.1, fun hf => ?_⟩
    rw [ih.1] at hf
    simp at hf
  | loopEnd found now w s i _ ih =>
    have e := loopEnd_guardOf i.sessionID i.conn found now w i.pc s
    simp only [guardOf, Prod.mk.injEq] at e
    rw [e.1, e.2]
    exact ⟨rfl, fun _ sess hs => by simp at hs⟩

/-- Claim C1 (the code departs from it): the handler locks webrtcMutex before
it tests the slot and keeps it until it returns.  While an invocation holds the
mutex, a request performs no effect, in particular sends no 409, and changes
nothing: it waits.  In every execution a session that has a peer connection is
in the slot only while an invocation holds the mutex, so a request that arrives
while the slot is live waits instead of being answered 409.  The 409 answer is
given, with the whole state unchanged, when the mutex is free and the slot is
occupied, and in every execution the session then in the slot is a placeholder
"reserved_..." that an earlier invocation left behind.  With the mutex free and
the slot nil, the slot is filled, with no effect performed, by a placeholder
whose ID starts with "reserved_" and which has no peer connection, the mutex is
taken, and the construction part of the handler runs on that state. -/
theorem signalAdmission_waits_while_session_live (env : SignalEnv) (s : State) :
    (s.webrtcMutexHeld = true →
        signalAdmission env.reserveAt s = (s, [], Admission.blocked)
          ∧ signalHandler env s = (s, [], SetupOutcome.blocked))
      ∧ (s.webrtcMutexHeld = false → s.activeSession ≠ none →
        signalAdmission env.reserveAt s
            = (s, [Effect.httpError 409 "WebRTC session already active"], Admission.conflict)
          ∧ signalHandler env s
            = (s, [Effect.httpError 409 "WebRTC session already active"],
                SetupOutcome.rejected))
      ∧ (s.webrtcMutexHeld = false → s.activeSession = none →
        ∃ sess rest,
          signalAdmission env.reserveAt s
              = ({ s with activeSession := some sess, webrtcMutexHeld := true }, [],
                  Admission.reserved)
            ∧ sess.ID = "reserved_" ++ rest
            ∧ sess.PeerConn = none
            ∧ signalHandler env s
              = signalConstruct env
                  { s with activeSession := some sess, webrtcMutexHeld := true })
      ∧ (∀ i, Serving s i →
          (∀ sess pc, s.activeSession = some sess → sess.PeerConn = some pc →
            i.isSome = true
              ∧ s.webrtcMutexHeld = true
              ∧ signalHandler env s = (s, [], SetupOutcome.blocked))
          ∧ (s.webrtcMutexHeld = false → ∀ sess, s.activeSession = some sess →
              ∃ t, sess = reservedSession t)) := by
  have hb : s.webrtcMutexHeld = true →
      signalAdmission env.reserveAt s = (s, [], Admission.blocked)
        ∧ signalHandler env s = (s, [], SetupOutcome.blocked) := by
    intro hm
    simp [signalHandler, signalAdmission, hm]
  refine ⟨hb, ?_, ?_, ?_⟩
  · intro hm h
    obtain ⟨a, ha⟩ := Option.ne_none_iff_exists'.mp h
    simp [signalHandler, signalAdmission, ha, hm]
  · intro hm h
    refine ⟨reservedSession env.reserveAt, toString (unix env.reserveAt), ?_, rfl, rfl, ?_⟩
    · simp [signalAdmission, h, hm]
    · simp [signalHandler, signalAdmission, h, hm]
  · intro i hi
    obtain ⟨h1, h2⟩ := serving_invariant s i hi
    refine ⟨fun sess pc hs hpc => ?_, h2⟩
    have hm : s.webrtcMutexHeld = true := by
      cases hw : s.webrtcMutexHeld with
      | true => rfl
      | false =>
        obtain ⟨t, ht⟩ := h2 hw sess hs
        rw [ht] at hpc
        simp [reservedSession] at hpc
    exact ⟨by rw [← h1]; exact hm, hm, (hb hm).2⟩

theorem signalAdmission_waits_while_session_live_witness :
    Serving builtState
        (some { sessionID := "session_7", conn := 1, pc := { ref := 1, senders := 0 } })
      ∧ builtState.activeSession = some builtSession
      ∧ builtSession.PeerConn = some { ref := 1, senders := 0 }
      ∧ signalHandler secondEnv builtState = (builtState, [], SetupOutcome.blocked)
      ∧ (signalHandler secondEnv
          (messageLoop "session_7" 1 [ReadResult.closeError goodEnv.found (8 * second) true]
            { ref := 1, senders := 0 } builtState).1).2.2
        = SetupOutcome.constructed "session_9" 2 { ref := 2, senders := 0 } :=
  ⟨Serving.request goodEnv idleState (Serving.init 0), by decide, rfl,
    (((signalAdmission_waits_while_session_live secondEnv builtState).2.2.2 _
      (Serving.request goodEnv idleState (Serving.init 0))).1 builtSession
        { ref := 1, senders := 0 } (by decide) rfl).2.2,
    by decide⟩

/-! ## Theorems: executions within the startup grace -/

theorem handleWindowStateChange_in_grace (t : Tick) (s : State)
    (hg : timeSince t.now s.startTime < 30 * second) :
    (∀ e ∈ (handleWindowStateChange t s).2, e.isReconnectionReady = false)
      ∧ ((handleWindowStateChange t s).1.phoneReconnectedAndReady = true →
          s.phoneReconnectedAndReady = true) := by
  obtain ⟨a, b, c, h | h | h | h⟩ := handleWindowStateChange_dispatch t s
  · rw [h, handleWindowIDChanged_in_grace t.windowID t.now t.writeOk
      { s with lastWindowState := a, lastWindowID := b, windowStateCheckCount := c } hg]
    exact ⟨by simp, fun h => h⟩
  · rw [h]
    exact ⟨by simp, fun h => h⟩
  · rw [h, handleWindowAppeared_in_grace t.now
      { s with lastWindowState := a, lastWindowID := b, windowStateCheckCount := c } hg]
    exact ⟨by simp, fun h => h⟩
  · rw [h]
    refine ⟨handleWindowDisappeared_no_ready _ _, fun hf => ?_⟩
    rw [(handleWindowDisappeared_flag _ _).1] at hf
    exact absurd hf (by simp)

theorem connectTimeWindowCheck_in_grace (found : FindWindowResult) (now : Int) (s : State)
    (hg : timeSince now s.startTime < 30 * second) :
    (connectTimeWindowCheck found now s).phoneReconnectedAndReady = s.phoneReconnectedAndReady
      ∧ (connectTimeWindowCheck found now s).reconnectedWindowID = s.reconnectedWindowID := by
  have hn : ¬ (timeSince now s.startTime ≥ 30 * second) := not_le.mpr hg
  unfold connectTimeWindowCheck
  simp only [hn, if_false]
  split_ifs <;> exact ⟨rfl, rfl⟩

theorem signalHandler_in_grace (env : SignalEnv) (s : State)
    (hg : timeSince env.checkAt s.startTime < 30 * second) :
    (signalHandler env s).1.phoneReconnectedAndReady = s.phoneReconnectedAndReady := by
  have hw : ∀ st : State, st.startTime = s.startTime →
      (connectTimeWindowCheck env.found env.checkAt st).phoneReconnectedAndReady
        = st.phoneReconnectedAndReady := by
    intro st hst
    exact (connectTimeWindowCheck_in_grace env.found env.checkAt st (by rw [hst]; exact hg)).1
  unfold signalHandler signalAdmission
  cases hm : s.webrtcMutexHeld with
  | true => simp
  | false =>
    cases hs : s.activeSession with
    | some sess => simp
    | none =>
      simp only [Option.isSome_none, Bool.not_false, if_true, Bool.false_eq_true, if_false]
      unfold signalConstruct
      cases hu : env.upgrade with
      | none => rfl
      | some conn =>
        dsimp only
        repeat' split
        all_goals exact hw _ rfl

theorem reachableInGrace_flag (s : State) (h : ReachableInGrace s) :
    s.phoneReconnectedAndReady = false := by
  have key : ∀ a b : State, flagsOf a = flagsOf b → b.phoneReconnectedAndReady = false →
      a.phoneReconnectedAndReady = false := by
    intro a b hab hb
    simp only [flagsOf, Prod.mk.injEq] at hab
    rw [hab.1]
    exact hb
  induction h with
  | init startTime => rfl
  | startup startTime found =>
    unfold startupState
    dsimp only
    split_ifs <;> rfl
  | tick t s _ hg ih =>
    cases hf : (handleWindowStateChange t s).1.phoneReconnectedAndReady with
    | false => rfl
    | true =>
      have := (handleWindowStateChange_in_grace t s hg).2 hf
      rw [ih] at this
      exact absurd this (by simp)
  | signal env s _ hg ih =>
    rw [signalHandler_in_grace env s hg]
    exact ih
  | connectCheck found now s _ hg ih =>
    rw [(connectTimeWindowCheck_in_grace found now s hg).1]
    exact ih
  | readyFlag pc w s _ ih => simp [readyFlagBranch, ih]
  | waitFailed ws sid conn s _ ih => exact key _ _ (windowWaitFailed_flagsOf ws sid conn s) ih
  | message parsed env conn pc s _ ih => exact key _ _ (handleMessage_flagsOf parsed env conn pc s) ih
  | cleanup found now w s _ ih => exact key _ _ (cleanupWebRTCSession_flagsOf found now w s) ih
  | handlerReturn sid conn s _ ih => exact key _ _ (signalReturn_flagsOf sid conn s) ih
  | iceState st found now w s _ ih =>
    cases st <;> simp only [onICEConnectionStateChange] <;>
      first | exact ih | exact key _ _ (cleanupWebRTCSession_flagsOf found now w s) ih
  | connState st found now w s _ ih =>
    unfold onConnectionStateChange
    split_ifs
    · exact key _ _ (cleanupWebRTCSession_flagsOf found now w s) ih
    · exact ih
  | cleanupEndpoint s _ ih => exact key _ _ (cleanupActiveSession_flagsOf s) ih

theorem checkAutoReconnectAfterCleanup_due (found : FindWindowResult) (now : Int) (w : Bool)
    (s : State) (c : Conn) (he : s.autoReconnectEnabled = true)
    (hc : s.activeWebSocketConn = some c)
    (hcool : AUTO_RECONNECT_COOLDOWN ≤ timeSince now s.lastAutoReconnectAttempt)
    (h1 : (getWindowCountAndID found).1 ≠ 0) (h2 : (getWindowCountAndID found).2 ≠ "") :
    (checkAutoReconnectAfterCleanup found now w s).2
      = [Effect.wsWrite c
          (Msg.reconnection_ready "iPhone still connected - please restart WebRTC"
            (getWindowCountAndID found).2)] := by
  have hn : ¬ timeSince now s.lastAutoReconnectAttempt < AUTO_RECONNECT_COOLDOWN :=
    not_lt.mpr hcool
  cases w <;> simp [checkAutoReconnectAfterCleanup, notifyWebSocketClient, he, hc, hn, h1, h2]

theorem checkAutoReconnectAfterCleanup_not_due (found : FindWindowResult) (now : Int) (w : Bool)
    (s : State)
    (h : s.autoReconnectEnabled = false ∨ s.activeWebSocketConn = none
      ∨ timeSince now s.lastAutoReconnectAttempt < AUTO_RECONNECT_COOLDOWN
      ∨ (getWindowCountAndID found).1 = 0 ∨ (getWindowCountAndID found).2 = "") :
    checkAutoReconnectAfterCleanup found now w s = (s, []) := by
  unfold checkAutoReconnectAfterCleanup
  rcases h with h | h | h | h | h
  · simp [h]
  · simp [h]
  · split_ifs <;> rfl
  · split_ifs <;> first | rfl | simp_all
  · split_ifs <;> first | rfl | simp_all

theorem Cleanup_ends_with_close (sess : WebRTCSession) (p : Option Conn) (c : Conn)
    (hw : sess.WebSocket = some c) (hp : p ≠ some c) :
    ∃ pre, WebRTCSession.Cleanup (some sess) p = pre ++ [Effect.wsClose c] := by
  have hp2 : ¬ (some c = p) := fun h => hp h.symm
  simp only [WebRTCSession.Cleanup, hw, hp2, if_false]
  exact ⟨_, rfl⟩

/-- Claim C5, as stated, fails.  The process starts at instant 0 with window
"0x1" present; a client connects at 7 s and the handler builds session
"session_7" on connection 1; the ready flag is not set, so the handler goes to
its message loop.  At 10 s the client closes the connection: the loop ends in
cleanupWebRTCSession, whose Cleanup closes connection 1 and whose
checkAutoReconnectAfterCleanup then calls WriteMessage on that connection with
a reconnection_ready message, before the deferred calls of the handler run. -/
theorem reconnection_ready_after_cleanup_during_startup_grace :
    ReachableInGrace graceState
      ∧ (signalHandler graceEnv (startupState 0 windowOne)).2.2
        = SetupOutcome.constructed "session_7" 1 { ref := 1, senders := 0 }
      ∧ readyFlagBranch { ref := 1, senders := 0 } true graceState = (graceState, [], true)
      ∧ timeSince (10 * second) graceState.startTime < 30 * second
      ∧ (cleanupWebRTCSession windowOne (10 * second) false graceState).2
        = [Effect.cancel 1, Effect.pcClose 1, Effect.wsClose 1,
            Effect.wsWrite 1
              (Msg.reconnection_ready "iPhone still connected - please restart WebRTC" "0x1")]
      ∧ (messageLoop "session_7" 1 [ReadResult.closeError windowOne (10 * second) false]
          { ref := 1, senders := 0 } graceState).2
        = [Effect.cancel 1, Effect.pcClose 1, Effect.wsClose 1,
            Effect.wsWrite 1
              (Msg.reconnection_ready "iPhone still connected - please restart WebRTC" "0x1"),
            Effect.wsClose 1] :=
  ⟨ReachableInGrace.signal graceEnv (startupState 0 windowOne)
      (ReachableInGrace.startup 0 windowOne) (by decide),
    by decide, by decide, by decide, by decide, by decide⟩

/-- Claim C5, amended: while less than 30 s have elapsed since startTime,
handleWindowAppeared and handleWindowIDChanged return at once, leaving the
state unchanged and performing no effect; a tick of handleWindowStateChange
writes no reconnection_ready and does not newly set phoneReconnectedAndReady;
the connect-time window check leaves the ready flag and its window id
unchanged; the ready-flag branch, which reads no clock, writes nothing unless
the flag was set on entry, and in every state reached from the start by
handlers that read their clocks within the first 30 s the flag is not set and
the branch writes nothing.  checkAutoReconnectAfterCleanup has no startup-grace
test: it calls WriteMessage with reconnection_ready, also during these 30 s,
when auto-reconnect is enabled, a signaling connection is recorded, the cooldown
has passed and a usable window is present, and it does nothing when one of
these four conditions fails; called by cleanupWebRTCSession for a session whose
WebSocket is the recorded connection and is not the preserved one, the write
comes right after Cleanup has closed that connection. -/
theorem no_reconnection_ready_during_startup_grace (s : State) (now : Int)
    (hg : timeSince now s.startTime < 30 * second) :
    handleWindowAppeared now s = (s, [])
      ∧ (∀ id w, handleWindowIDChanged id now w s = (s, []))
      ∧ (∀ t : Tick, t.now = now →
          (∀ e ∈ (handleWindowStateChange t s).2, e.isReconnectionReady = false)
            ∧ ((handleWindowStateChange t s).1.phoneReconnectedAndReady = true →
                s.phoneReconnectedAndReady = true))
      ∧ (∀ found,
          (connectTimeWindowCheck found now s).phoneReconnectedAndReady
              = s.phoneReconnectedAndReady
            ∧ (connectTimeWindowCheck found now s).reconnectedWindowID = s.reconnectedWindowID)
      ∧ (∀ pc w, s.phoneReconnectedAndReady = false → (readyFlagBranch pc w s).2.1 = [])
      ∧ (ReachableInGrace s →
          s.phoneReconnectedAndReady = false ∧ ∀ pc w, (readyFlagBranch pc w s).2.1 = [])
      ∧ (∀ found w c, s.autoReconnectEnabled = true → s.activeWebSocketConn = some c →
          AUTO_RECONNECT_COOLDOWN ≤ timeSince now s.lastAutoReconnectAttempt →
          (getWindowCountAndID found).1 ≠ 0 → (getWindowCountAndID found).2 ≠ "" →
          (checkAutoReconnectAfterCleanup found now w s).2
              = [Effect.wsWrite c
                  (Msg.reconnection_ready "iPhone still connected - please restart WebRTC"
                    (getWindowCountAndID found).2)]
            ∧ ∀ sess, s.activeSession = some sess → sess.WebSocket = some c →
                s.preservedWebSocket ≠ some c →
                ∃ pre, (cleanupWebRTCSession found now w s).2
                  = pre ++ [Effect.wsClose c,
                      Effect.wsWrite c
                        (Msg.reconnection_ready "iPhone still connected - please restart WebRTC"
                          (getWindowCountAndID found).2)])
      ∧ (∀ found w,
          (s.autoReconnectEnabled = false ∨ s.activeWebSocketConn = none
            ∨ timeSince now s.lastAutoReconnectAttempt < AUTO_RECONNECT_COOLDOWN
            ∨ (getWindowCountAndID found).1 = 0 ∨ (getWindowCountAndID found).2 = "") →
          checkAutoReconnectAfterCleanup found now w s = (s, [])) := by
  refine ⟨handleWindowAppeared_in_grace now s hg,
    fun id w => handleWindowIDChanged_in_grace id now w s hg, ?_,
    fun found => connectTimeWindowCheck_in_grace found now s hg, ?_, ?_, ?_,
    fun found w h => checkAutoReconnectAfterCleanup_not_due found now w s h⟩
  · intro t ht
    subst ht
    exact handleWindowStateChange_in_grace t s hg
  · intro pc w hf
    simp [readyFlagBranch, hf]
  · intro hr
    have hf := reachableInGrace_flag s hr
    exact ⟨hf, fun pc w => by simp [readyFlagBranch, hf]⟩
  · intro found w c he hc hcool h1 h2
    refine ⟨checkAutoReconnectAfterCleanup_due found now w s c he hc hcool h1 h2, ?_⟩
    intro sess hs hws hpw
    obtain ⟨pre, hpre⟩ := Cleanup_ends_with_close sess s.preservedWebSocket c hws hpw
    refine ⟨pre, ?_⟩
    have e := checkAutoReconnectAfterCleanup_due found now w { s with activeSession := none } c
      he hc hcool h1 h2
    simp only [cleanupWebRTCSession, hs, e, hpre, List.append_assoc, List.singleton_append]

theorem no_reconnection_ready_during_startup_grace_witness :
    handleWindowAppeared (10 * second) graceState = (graceState, [])
      ∧ handleWindowIDChanged "0x2" (10 * second) true graceState = (graceState, [])
      ∧ (graceState.phoneReconnectedAndReady = false
          ∧ ∀ pc w, (readyFlagBranch pc w graceState).2.1 = [])
      ∧ ∃ pre, (cleanupWebRTCSession windowOne (10 * second) false graceState).2
          = pre ++ [Effect.wsClose 1,
              Effect.wsWrite 1
                (Msg.reconnection_ready "iPhone still connected - please restart WebRTC"
                  (getWindowCountAndID windowOne).2)] :=
  ⟨(no_reconnection_ready_during_startup_grace graceState (10 * second) (by decide)).1,
    (no_reconnection_ready_during_startup_grace graceState (10 * second) (by decide)).2.1
      "0x2" true,
    (no_reconnection_ready_during_startup_grace graceState (10 * second) (by decide)).2.2.2.2.2.1
      (ReachableInGrace.signal graceEnv (startupState 0 windowOne)
        (ReachableInGrace.startup 0 windowOne) (by decide)),
    ((no_reconnection_ready_during_startup_grace graceState (10 * second)
      (by decide)).2.2.2.2.2.2.1 windowOne false 1 (by decide) (by decide) (by decide)
      (by decide) (by decide)).2 builtSession (by decide) (by decide) (by decide)⟩

end AppleTV
